import Mathlib

/-!
The unique-id agent of muidor (`src/src/agent.cpp`, `src/include/muidor/muidor.h`).

A shallow embedding of `CUidAgent`: the persisted sequence block, the
sequence store (`store_sequence`, `inc_sequence`, `restore_sequence`), the id
assembler (`get_uniq_id`), the label lease (`label_expired`, `get_label`) and
the dispatcher loop `on_run`, event by event (`on_timer`, `on_receive`,
`route`); and of the client `CMuidor` (`src/src/muidor.cpp`): the request of
`get_uniq_id`, the retry loop of the calls and the formatting of transaction
ids. Definitions come first, then the theorems, grouped by topic; the
theorems that settle a claim of the specification carry its number.

Conventions.
* C++ unsigned integers are `Nat`, reduced `% 2^w` wherever the C++ arithmetic
  can wrap; `int` and `time_t` are `Int`.
* The store file, the number of `pwrite` calls and the number of
  `_event.signal()` calls are kept next to the agent's members, so that the
  effects of the code on its environment can be stated; so is the history of
  the ranges that `inc_sequence` handed out.
* Results of system calls (`pwrite`, `pread`, `recvfrom`, `localtime`) are
  inputs of the functions that make them.
-/

namespace muidor

/-! ## Constants of `muidor.h` -/

def MU_BASE_YEAR : Int := 2016
def MU_MAJOR_VERSION : Nat := 0
def MU_MINOR_VERSION : Nat := 4

def MUE_INVALID_TYPE : Int := 201600001
def MUE_STORE_SEQ : Int := 201600002
def MUE_OVERFLOW : Int := 201600003
def MUE_LABEL_EXPIRED : Int := 201600004
def MUE_INVALID_LABEL : Int := 201600005
def MUE_NO_LABEL : Int := 201600006
def MUE_LABEL_NOT_HOLD : Int := 201600007

/-- The constant `SEQUENCE_BLOCK_VERSION` of `agent.cpp`. -/
def SEQUENCE_BLOCK_VERSION : Nat := 1

/-! ## Message types

`protocol.h` is not among the sources; the codes are those of the table in
section 6 of the specification. -/

/-- Modelled from the spec: type code 1 of `protocol.h`. -/
def REQUEST_LABEL : Nat := 1
/-- Modelled from the spec: type code 2 of `protocol.h`. -/
def RESPONSE_LABEL : Nat := 2
/-- Modelled from the spec: type code 3 of `protocol.h`. -/
def REQUEST_UNIQ_ID : Nat := 3
/-- Modelled from the spec: type code 4 of `protocol.h`. -/
def RESPONSE_UNIQ_ID : Nat := 4
/-- Modelled from the spec: type code 5 of `protocol.h`. -/
def REQUEST_UNIQ_SEQ : Nat := 5
/-- Modelled from the spec: type code 6 of `protocol.h`. -/
def RESPONSE_UNIQ_SEQ : Nat := 6
/-- Modelled from the spec: type code 7 of `protocol.h`. -/
def REQUEST_LABEL_AND_SEQ : Nat := 7
/-- Modelled from the spec: type code 8 of `protocol.h`. -/
def RESPONSE_LABEL_AND_SEQ : Nat := 8
/-- Modelled from the spec: type code 9 of `protocol.h`. -/
def RESPONSE_ERROR : Nat := 9

/-! ## Integer conversions -/

/-- The value of `static_cast<int>(x)` for a 32-bit unsigned `x`. -/
def to_int32 (x : Nat) : Int :=
  if x % 4294967296 < 2147483648 then (x % 4294967296 : Nat)
  else ((x % 4294967296 : Nat) : Int) - 4294967296

/-- The value of `static_cast<time_t>(x)` for a 64-bit unsigned `x`
(`time_t` is a signed 64-bit integer). -/
def to_time_t (x : Nat) : Int :=
  if x % 18446744073709551616 < 9223372036854775808 then (x % 18446744073709551616 : Nat)
  else ((x % 18446744073709551616 : Nat) : Int) - 18446744073709551616

/-- The value of `static_cast<uint64_t>(t)` for a `time_t`. -/
def of_time_t (t : Int) : Nat := (t % 18446744073709551616).toNat

/-- The value that the compiled agent computes for a `time_t` expression whose
mathematical value is `x`: the 64-bit two's complement of `x`, which is `x`
itself from `-2^63` to `2^63 - 1`. -/
def wrap_time_t (x : Int) : Int :=
  (x + 9223372036854775808) % 18446744073709551616 - 9223372036854775808

/-! ## Data model -/

/-- The persisted block `struct SeqBlock` (`agent.cpp` lines 77-117):
`version`, `label`, `sequence` are `uint32_t`, `timestamp` and `magic` are
`uint64_t`. -/
structure SeqBlock where
  version : Nat
  label : Nat
  sequence : Nat
  timestamp : Nat
  magic : Nat
deriving DecidableEq, Repr

/-- The constructor `SeqBlock::SeqBlock()`. -/
def SeqBlock.init : SeqBlock :=
  { version := SEQUENCE_BLOCK_VERSION, label := 0, sequence := 0, timestamp := 0, magic := 0 }

/-- The `uint32_t` expression `sequence+label+version` of `update_magic` and
`valid_magic`. -/
def SeqBlock.sum32 (b : SeqBlock) : Nat :=
  (b.sequence + b.label + b.version) % 4294967296

/-- The method `SeqBlock::update_label`. -/
def SeqBlock.update_label (b : SeqBlock) (label_ : Nat) : SeqBlock :=
  { b with label := label_ % 4294967296 }

/-- The method `SeqBlock::update_magic`. -/
def SeqBlock.update_magic (b : SeqBlock) : SeqBlock :=
  if b.timestamp ≥ b.sum32 then { b with magic := b.timestamp - b.sum32 }
  else { b with magic := b.sum32 - b.timestamp }

/-- The method `SeqBlock::valid_magic`. -/
def SeqBlock.valid_magic (b : SeqBlock) : Bool :=
  if b.timestamp ≥ b.sum32 then decide (b.magic = b.timestamp - b.sum32)
  else decide (b.magic = b.sum32 - b.timestamp)

/-- Modelled from the spec: `struct MessageHead` of `protocol.h`, which is not
among the sources; the fields are those of the wire frame of section 3
(`major_ver:u8 | minor_ver:u8 | len:u16 | type:u16 | echo:u32 | value1:u32 |
value2:u32 | value3:u64 | magic:u32`). The field `type` is named `type_`. -/
structure MessageHead where
  major_ver : Nat
  minor_ver : Nat
  len : Nat
  type_ : Nat
  echo : Nat
  value1 : Nat
  value2 : Nat
  value3 : Nat
  magic : Nat
deriving DecidableEq, Repr

/-- A zeroed buffer (`memset(&_request_buffer, 0, ...)`). -/
def MessageHead.zero : MessageHead :=
  { major_ver := 0, minor_ver := 0, len := 0, type_ := 0, echo := 0,
    value1 := 0, value2 := 0, value3 := 0, magic := 0 }

/-- The fields of `struct tm` that `get_uniq_id` reads. -/
structure Tm where
  tm_year : Int
  tm_mon : Int
  tm_mday : Int
  tm_hour : Int
deriving DecidableEq, Repr

/-- A zero-initialised `static struct tm`. -/
def Tm.zero : Tm := { tm_year := 0, tm_mon := 0, tm_mday := 0, tm_hour := 0 }

/-- The bit fields of `union UniqID` (`muidor.h` lines 54-74). -/
structure ID where
  user : Nat
  label : Nat
  year : Nat
  month : Nat
  day : Nat
  hour : Nat
  seq : Nat
deriving DecidableEq, Repr

/-- The member `value` of `union UniqID` read after its bit fields were
assigned: `user:6 | label:8 | year:7 | month:4 | day:5 | hour:5 | seq:29`,
least significant bits first. -/
def UniqID.value (i : ID) : Nat :=
  i.user % 64 + 64 * (i.label % 256) + 16384 * (i.year % 128)
    + 2097152 * (i.month % 16) + 33554432 * (i.day % 32)
    + 1073741824 * (i.hour % 32) + 34359738368 * (i.seq % 536870912)

/-- The bit fields of `union UniqID` read after `value` was assigned. -/
def UniqID.id (v : Nat) : ID :=
  { user := v % 64, label := v / 64 % 256, year := v / 16384 % 128,
    month := v / 2097152 % 16, day := v / 33554432 % 32,
    hour := v / 1073741824 % 32, seq := v / 34359738368 % 536870912 }

/-- The command-line arguments of the agent (`agent.cpp` lines 49-65) and what
the agent takes from outside this repository's sources: `LABEL_MAX`,
`sizeof(struct MessageHead)` and `MessageHead::calc_magic` of `protocol.h`, and
the C library's `localtime`, which returns `NULL` (`none`) for a time whose
year does not fit the `int` of `struct tm`. -/
structure Env where
  master_nodes : String
  label : Nat
  steps : Nat
  expire : Nat
  interval : Nat
  LABEL_MAX : Nat
  sizeof_MessageHead : Nat
  calc_magic : MessageHead → Nat
  localtime : Int → Option Tm

/-- Modelled from the spec: `MessageHead::update_magic` of `protocol.h`, which
is not among the sources; it stores the value of `calc_magic` in `magic`. -/
def MessageHead.update_magic (env : Env) (m : MessageHead) : MessageHead :=
  { m with magic := env.calc_magic m }

/-- A frame handed to `send_to`, with its destination: the client the request
came from (`_from_addr`) or a master (`get_master_addr()`). -/
structure Sent where
  to_master : Bool
  frame : MessageHead
deriving DecidableEq, Repr

/-- The members of `CUidAgent` the code reads and writes, the function-local
statics `old_tm` and `old_time` of `get_uniq_id`, and the agent's environment:
`file` is the content of `.uniq.seq` (`none` when empty), `pwrites` counts the
calls of `pwrite`, `signals` counts the calls of `_event.signal()`. The last
member, `issued`, is a history variable, not a member of the class: the
ranges `(start, deta)` that `inc_sequence` has handed out so far in this
process, oldest first. -/
structure Agent where
  echo : Nat
  sequence_start : Nat
  seq_block : SeqBlock
  num_sequences : Int
  current_time : Int
  last_rent_time : Int
  io_error : Bool
  old_seq : Nat
  old_hour : Int
  old_day : Int
  old_month : Int
  old_year : Int
  old_tm : Tm
  old_time : Int
  request_buffer : MessageHead
  response_buffer : MessageHead
  response_size : Nat
  file : Option SeqBlock
  pwrites : Nat
  signals : Nat
  issued : List (Nat × Nat)
deriving DecidableEq, Repr

/-- The constructor `CUidAgent::CUidAgent()`, in a process that finds `file`
as the content of the store file. -/
def CUidAgent (file : Option SeqBlock) : Agent :=
  { echo := 0, sequence_start := 0, seq_block := SeqBlock.init, num_sequences := 0,
    current_time := 0, last_rent_time := 0, io_error := false,
    old_seq := 0, old_hour := -1, old_day := -1, old_month := -1, old_year := -1,
    old_tm := Tm.zero, old_time := 0,
    request_buffer := MessageHead.zero, response_buffer := MessageHead.zero,
    response_size := 0, file := file, pwrites := 0, signals := 0, issued := [] }

/-! ## Sequence store -/

/-- The method `CUidAgent::store_sequence` (`agent.cpp` lines 675-709).
`w` tells whether `pwrite` returned `sizeof(_seq_block)`; a short write leaves
`file` as it was. -/
def store_sequence (w : Bool) (a : Agent) : Bool × Agent :=
  let a1 := { a with seq_block := a.seq_block.update_magic, pwrites := a.pwrites + 1 }
  if w = false then
    (false, { a1 with io_error := true })
  else
    (true, { a1 with file := some a1.seq_block, sequence_start := a1.seq_block.sequence })

/-- The method `CUidAgent::inc_num_sequence` (`agent.cpp` lines 711-722). -/
def inc_num_sequence (env : Env) (n : Int) (a : Agent) : Agent :=
  let a1 := if n ≠ -1 then { a with num_sequences := a.num_sequences + 1 } else a
  if n = -1 ∨ a1.num_sequences ≥ to_int32 env.steps then
    { a1 with signals := a1.signals + 1, num_sequences := 0 }
  else a1

/-- The first half of `CUidAgent::inc_sequence` (`agent.cpp` lines 726-735): the
block is stored when the in-memory sequence left the window
`[_sequence_start, _sequence_start + steps]`; the result is `stored`. -/
def inc_sequence_store (env : Env) (w : Bool) (a : Agent) : Bool × Agent :=
  if a.seq_block.sequence < a.sequence_start ∨
      a.seq_block.sequence - a.sequence_start > env.steps then
    let s := store_sequence w a
    (s.1, inc_num_sequence env (-1) s.2)
  else (true, a)

/-- The second half of `CUidAgent::inc_sequence` (`agent.cpp` lines 739-767), run
when `stored` is true; the result is `sequence`. -/
def inc_sequence_take (env : Env) (deta : Nat) (a1 : Agent) : Nat × Agent :=
  if deta ≤ 1 then
    let sequence := a1.seq_block.sequence
    let a2 := { a1 with seq_block :=
      { a1.seq_block with sequence := (a1.seq_block.sequence + 1) % 4294967296 } }
    if sequence = 0 then
      let sequence2 := a2.seq_block.sequence
      let a3 := { a2 with seq_block :=
        { a2.seq_block with sequence := (a2.seq_block.sequence + 1) % 4294967296 } }
      (sequence2, inc_num_sequence env 1 a3)
    else
      (sequence, inc_num_sequence env 1 a2)
  else if a1.seq_block.sequence < (a1.seq_block.sequence + deta) % 4294967296 then
    let sequence := a1.seq_block.sequence
    let a2 := { a1 with seq_block :=
      { a1.seq_block with sequence := (a1.seq_block.sequence + deta) % 4294967296 } }
    (sequence, inc_num_sequence env deta a2)
  else
    let a2 := { a1 with seq_block := { a1.seq_block with sequence := (1 + deta) % 4294967296 } }
    (1, inc_num_sequence env (-1) a2)

/-- The history variable `issued` after `inc_sequence` computed `t.1`: a
result other than 0 is handed out with the count `deta` asked for (0 is what
the callers take as a failure). -/
def record_issued (deta : Nat) (t : Nat × Agent) : Nat × Agent :=
  (t.1, if t.1 = 0 then t.2 else { t.2 with issued := t.2.issued ++ [(t.1, deta)] })

/-- The method `CUidAgent::inc_sequence` (`agent.cpp` lines 724-771); `deta` is a
`uint16_t`, `w` is the outcome of the `pwrite` of `store_sequence`, if it is
called. The result is 0 when the block could not be stored. The history
variable `issued` is updated by `record_issued`. -/
def inc_sequence (env : Env) (w : Bool) (deta : Nat) (a : Agent) : Nat × Agent :=
  let r := inc_sequence_store env w a
  if r.1 = false then (0, r.2) else record_issued deta (inc_sequence_take env deta r.2)

/-! ## Id assembler -/

/-- The start of the `else` branch of `CUidAgent::get_uniq_id` (`agent.cpp`
lines 783-798): the reference time is `value3` of the request, or the agent's
clock when that is 0; when it is more than 30 seconds past the cached
`old_time` (the `time_t` difference wrapping at 64 bits), `localtime` is
called and its result cached in the function-local statics `old_tm` and
`old_time`. The result is `none` when `localtime` returns `NULL`: the
assignment `old_tm = *now` then reads through `NULL` and the process is
killed. -/
def get_uniq_id_refresh (env : Env) (request : MessageHead) (a1 : Agent) : Option Agent :=
  let current_time0 := to_time_t request.value3
  let current_time := if current_time0 = 0 then a1.current_time else current_time0
  if wrap_time_t (current_time - a1.old_time) > 30 then
    match env.localtime current_time with
    | none => none
    | some tm => some { a1 with old_tm := tm, old_time := current_time }
  else some a1

/-- The rest of the `else` branch of `CUidAgent::get_uniq_id` (`agent.cpp` lines
800-826): the id is assembled from the request, the sequence `seq` just
allocated and the cached calendar decomposition; the result is 1 on overflow,
else `uniq_id.value`. -/
def get_uniq_id_pack (request : MessageHead) (seq : Nat) (a2 : Agent) : Nat × Agent :=
  let now := a2.old_tm
  let uniq_id : ID :=
    { user := request.value1 % 256 % 64,
      label := a2.seq_block.label % 256,
      year := (((now.tm_year + 1900) - MU_BASE_YEAR) % 128).toNat,
      month := ((now.tm_mon + 1) % 16).toNat,
      day := (now.tm_mday % 32).toNat,
      hour := (now.tm_hour % 32).toNat,
      seq := seq % 536870912 }
  if a2.old_seq > seq ∧ a2.old_hour = (uniq_id.hour : Int) ∧ a2.old_day = (uniq_id.day : Int) ∧
      a2.old_month = (uniq_id.month : Int) ∧ a2.old_year = (uniq_id.year : Int) then
    (1, a2)
  else
    (UniqID.value uniq_id,
      { a2 with old_seq := seq, old_hour := uniq_id.hour, old_day := uniq_id.day,
                old_month := uniq_id.month, old_year := uniq_id.year })

/-- The `else` branch of `CUidAgent::get_uniq_id` (`agent.cpp` lines 783-826):
`get_uniq_id_refresh`, then `get_uniq_id_pack`. The result is `none` when the
process is killed in between. -/
def get_uniq_id_assemble (env : Env) (request : MessageHead) (seq : Nat) (a1 : Agent) :
    Option (Nat × Agent) :=
  match get_uniq_id_refresh env request a1 with
  | none => none
  | some a2 => some (get_uniq_id_pack request seq a2)

/-- The method `CUidAgent::get_uniq_id` (`agent.cpp` lines 773-828);
`localtime` is `env.localtime`. The result is the `uint64_t` returned: 0 when
the store failed, 1 on overflow, else `uniq_id.value`; it is `none` when the
call does not return, the process being killed. -/
def get_uniq_id (env : Env) (w : Bool) (request : MessageHead) (a : Agent) :
    Option (Nat × Agent) :=
  let r := inc_sequence env w 1 a
  let seq := r.1
  if seq = 0 then some (0, r.2)
  else get_uniq_id_assemble env request seq r.2

/-! ## Label lease -/

/-- The method `CUidAgent::label_expired` (`agent.cpp` lines 843-856); the
`time_t` difference `_current_time - static_cast<time_t>(_seq_block.timestamp)`
wraps at 64 bits. -/
def label_expired (env : Env) (a : Agent) : Bool :=
  if env.master_nodes = "" then false
  else decide (wrap_time_t (a.current_time - to_time_t a.seq_block.timestamp)
    > (env.expire : Int))

/-- What `timed_receive_from` gives `get_label`: `failed` when it returns a
byte count other than `sizeof(struct MessageHead)` or when the send or the
receive throws, else the frame received. -/
inductive Recv where
  | failed
  | frame (m : MessageHead)
deriving DecidableEq, Repr

/-- The request that `get_label` builds in `_request_buffer` and sends to a
master (`agent.cpp` lines 491-499); `value3` keeps what the buffer held. -/
def get_label_request (env : Env) (a : Agent) : Agent × Sent :=
  let request := MessageHead.update_magic env
    { a.request_buffer with
        major_ver := MU_MAJOR_VERSION, minor_ver := MU_MINOR_VERSION,
        len := env.sizeof_MessageHead, type_ := REQUEST_LABEL, echo := a.echo,
        value1 := a.seq_block.label, value2 := 0 }
  ({ a with request_buffer := request, echo := (a.echo + 1) % 4294967296 },
    { to_master := true, frame := request })

/-- The `for (int k=0; k<2; ++k)` loop of the synchronous `get_label`
(`agent.cpp` lines 487-555), with `k` iterations left. -/
def get_label_loop (env : Env) : Nat → List Recv → Agent → List Sent → Int × Agent × List Sent
  | 0, _, a, out => (-1, a, out)
  | k + 1, rs, a, out =>
    let q := get_label_request env a
    let a1 := q.1
    let out1 := out ++ [q.2]
    match rs with
    | [] => (-1, a1, out1)
    | Recv.failed :: _ => (-1, a1, out1)
    | Recv.frame response :: rest =>
      let a2 := { a1 with response_buffer := response }
      if response.type_ = RESPONSE_ERROR then
        if (response.value1 : Int) ≠ MUE_LABEL_NOT_HOLD then (-1, a2, out1)
        else get_label_loop env k rest { a2 with seq_block := a2.seq_block.update_label 0 } out1
      else if response.type_ = RESPONSE_LABEL ∧
          response.echo = (a2.echo + 4294967296 - 1) % 4294967296 then
        if response.value1 > 0 then
          (to_int32 response.value1,
            { a2 with seq_block := { a2.seq_block with timestamp := of_time_t a2.current_time } },
            out1)
        else (-1, a2, out1)
      else (-1, a2, out1)

/-- The method `CUidAgent::get_label` (`agent.cpp` lines 474-557); `replies` is
what the master answers to the synchronous requests, in order. -/
def get_label (env : Env) (asynchronous : Bool) (replies : List Recv) (a : Agent) :
    Int × Agent × List Sent :=
  if env.master_nodes = "" then ((env.label % 256 : Nat), a, [])
  else if asynchronous then
    let q := get_label_request env a
    (0, q.1, [q.2])
  else get_label_loop env 2 replies a []

/-- The method `CUidAgent::rent_label` (`agent.cpp` lines 830-841). -/
def rent_label (env : Env) (a : Agent) : Agent × List Sent :=
  if env.master_nodes ≠ "" then
    let g := get_label env true [] a
    let label := g.1
    if label > 0 then
      ({ g.2.1 with seq_block := g.2.1.seq_block.update_label label.toNat }, g.2.2)
    else (g.2.1, g.2.2)
  else (a, [])

/-! ## Restart recovery -/

/-- What `open` and `pread` give `restore_sequence`: `open` failed, `pread`
returned 0 (`eof`), -1 (`read_error`), a count other than
`sizeof(_seq_block)` (`truncated`), or a whole block. -/
inductive PRead where
  | open_failed
  | eof
  | read_error
  | truncated
  | block (b : SeqBlock)
deriving DecidableEq, Repr

/-- What `pread` gives on the store file `file`. -/
def pread (file : Option SeqBlock) : PRead :=
  match file with
  | none => PRead.eof
  | some b => PRead.block b

/-- The end of `restore_sequence` on an empty store file, once the label is
known (`agent.cpp` lines 620-624): the sequence starts at `steps`. -/
def restore_sequence_first (env : Env) (w : Bool) (label : Int) (a : Agent) : Bool × Agent :=
  let a1 := { a with sequence_start := env.steps % 4294967296 }
  let a2 := { a1 with seq_block := { a1.seq_block with sequence := a1.sequence_start } }
  let a3 := { a2 with seq_block := a2.seq_block.update_label (label % 4294967296).toNat }
  store_sequence w a3

/-- The end of `restore_sequence` once the label is known (`agent.cpp` lines
664-670): one more `steps` is added, then the block is stored. -/
def restore_sequence_tail (env : Env) (w : Bool) (label : Int) (a : Agent) : Bool × Agent :=
  let a1 := { a with sequence_start :=
    (a.seq_block.sequence + (2 * env.steps) % 4294967296) % 4294967296 }
  let a2 := { a1 with seq_block := { a1.seq_block with sequence := a1.sequence_start } }
  let a3 := { a2 with seq_block := a2.seq_block.update_label (label % 4294967296).toNat }
  store_sequence w a3

/-- The method `CUidAgent::restore_sequence` (`agent.cpp` lines 596-673).
`replies` is what the master answers to a synchronous `get_label`, `w` is the
outcome of the `pwrite` of `store_sequence`. -/
def restore_sequence (env : Env) (rd : PRead) (replies : List Recv) (w : Bool) (a : Agent) :
    Bool × Agent × List Sent :=
  match rd with
  | PRead.open_failed => (false, a, [])
  | PRead.eof =>
    let g := get_label env false replies a
    let label := g.1
    if label < 1 ∨ label > (env.LABEL_MAX : Int) then (false, g.2.1, g.2.2)
    else
      let s := restore_sequence_first env w label g.2.1
      (s.1, s.2, g.2.2)
  | PRead.read_error => (false, a, [])
  | PRead.truncated => (false, a, [])
  | PRead.block b =>
    let a0 := { a with seq_block := b }
    if a0.seq_block.valid_magic = false then (false, a0, [])
    else if env.master_nodes = "" then
      let s := restore_sequence_tail env w (env.label % 256 : Nat) a0
      (s.1, s.2, [])
    else if label_expired env a0 then
      let g := get_label env false replies a0
      let label := g.1
      if label < 1 ∨ label > (env.LABEL_MAX : Int) then (false, g.2.1, g.2.2)
      else
        let s := restore_sequence_tail env w label g.2.1
        (s.1, s.2, g.2.2)
    else
      let s := restore_sequence_tail env w 0 a0
      (s.1, s.2, [])

/-! ## Responses -/

/-- The nine assignments to `*response` that every `prepare_response_*`
makes, ending with `response->update_magic()`. -/
def fill_response (env : Env) (type_ value1 value2 value3 : Nat) (a : Agent) : Agent :=
  { a with
      response_size := env.sizeof_MessageHead,
      response_buffer := MessageHead.update_magic env
        { major_ver := MU_MAJOR_VERSION, minor_ver := MU_MINOR_VERSION,
          len := env.sizeof_MessageHead, type_ := type_, echo := a.request_buffer.echo,
          value1 := value1, value2 := value2, value3 := value3,
          magic := a.response_buffer.magic } }

/-- The method `CUidAgent::prepare_response_error` (`agent.cpp` lines 865-882). -/
def prepare_response_error (env : Env) (errcode : Int) (a : Agent) : Agent :=
  fill_response env RESPONSE_ERROR (errcode % 4294967296).toNat 0 0 a

/-- The method `CUidAgent::prepare_response_get_label` (`agent.cpp` lines 884-913). -/
def prepare_response_get_label (env : Env) (a : Agent) : Int × Agent :=
  if label_expired env a then (MUE_LABEL_EXPIRED, a)
  else if a.io_error then (MUE_STORE_SEQ, a)
  else (0, fill_response env RESPONSE_LABEL a.seq_block.label 0 0 a)

/-- The method `CUidAgent::prepare_response_get_uniq_id` (`agent.cpp` lines
915-956). When `get_uniq_id` does not return (`none`), the process is killed
while it handles the request: no frame is sent, which the result -1 stands
for, and the agent is as `inc_sequence` left it. Such an event is the last one
of the process. -/
def prepare_response_get_uniq_id (env : Env) (w : Bool) (a : Agent) : Int × Agent :=
  if label_expired env a then (MUE_LABEL_EXPIRED, a)
  else if a.io_error then (MUE_STORE_SEQ, a)
  else
    match get_uniq_id env w a.request_buffer a with
    | none => (-1, (inc_sequence env w 1 a).2)
    | some r =>
      let uniq_id := r.1
      if uniq_id = 0 then (MUE_STORE_SEQ, r.2)
      else if uniq_id = 1 then (MUE_OVERFLOW, r.2)
      else (0, fill_response env RESPONSE_UNIQ_ID 0 0 uniq_id r.2)

/-- The method `CUidAgent::prepare_response_get_uniq_seq` (`agent.cpp` lines 958-996). -/
def prepare_response_get_uniq_seq (env : Env) (w : Bool) (a : Agent) : Int × Agent :=
  if label_expired env a then (MUE_LABEL_EXPIRED, a)
  else if a.io_error then (MUE_STORE_SEQ, a)
  else
    let deta := a.request_buffer.value1 % 65536
    let r := inc_sequence env w deta a
    let seq := r.1
    if seq = 0 then (MUE_STORE_SEQ, r.2)
    else (0, fill_response env RESPONSE_UNIQ_SEQ seq 0 0 r.2)

/-- The method `CUidAgent::prepare_response_get_label_and_seq`
(`agent.cpp` lines 998-1036). -/
def prepare_response_get_label_and_seq (env : Env) (w : Bool) (a : Agent) : Int × Agent :=
  if label_expired env a then (MUE_LABEL_EXPIRED, a)
  else if a.io_error then (MUE_STORE_SEQ, a)
  else
    let deta := a.request_buffer.value1 % 65536
    let r := inc_sequence env w deta a
    let seq := r.1
    if seq = 0 then (MUE_STORE_SEQ, r.2)
    else (0, fill_response env RESPONSE_LABEL_AND_SEQ r.2.seq_block.label seq 0 r.2)

/-- The method `CUidAgent::on_response_error` (`agent.cpp` lines 1038-1051). -/
def on_response_error (env : Env) (a : Agent) : Int × Agent × List Sent :=
  if MUE_LABEL_NOT_HOLD = (a.request_buffer.value1 : Int) then
    let a1 := { a with seq_block := a.seq_block.update_label 0 }
    let g := get_label env true [] a1
    (-1, g.2.1, g.2.2)
  else (-1, a, [])

/-- The method `CUidAgent::on_response_label` (`agent.cpp` lines 1053-1070). -/
def on_response_label (w : Bool) (a : Agent) : Int × Agent :=
  let old_label := a.seq_block.label
  let a1 := { a with seq_block := a.seq_block.update_label a.request_buffer.value1 }
  let a2 := { a1 with seq_block := { a1.seq_block with timestamp := of_time_t a1.current_time } }
  if old_label ≠ a2.seq_block.label then (-1, (store_sequence w a2).2)
  else (-1, a2)

/-! ## Dispatcher -/

/-- The chain of tests on the message type in `CUidAgent::on_run` (`agent.cpp`
lines 363-399), the frame being in `_request_buffer` and `magic_` being the
value of `calc_magic()`: the result is `errcode`. -/
def dispatch (env : Env) (w : Bool) (magic_ : Nat) (a : Agent) : Int × Agent × List Sent :=
  let head := a.request_buffer
  if REQUEST_LABEL = head.type_ then
    let h := prepare_response_get_label env a
    (h.1, h.2, [])
  else if REQUEST_UNIQ_ID = head.type_ then
    let h := prepare_response_get_uniq_id env w a
    (h.1, h.2, [])
  else if REQUEST_UNIQ_SEQ = head.type_ then
    let h := prepare_response_get_uniq_seq env w a
    (h.1, h.2, [])
  else if REQUEST_LABEL_AND_SEQ = head.type_ then
    let h := prepare_response_get_label_and_seq env w a
    (h.1, h.2, [])
  else if RESPONSE_ERROR = head.type_ then
    if magic_ ≠ head.magic then (-1, a, [])
    else on_response_error env a
  else if RESPONSE_LABEL = head.type_ then
    if magic_ ≠ head.magic then (-1, a, [])
    else
      let h := on_response_label w a
      (h.1, h.2, [])
  else (MUE_INVALID_TYPE, a, [])

/-- The routing of one well-sized datagram (`agent.cpp` lines 347-419), the
frame being in `_request_buffer`. The magic check only logs: the assignment
`errcode = ERROR_ILLEGAL` is commented out in the source, so `errcode` is 0
after it whatever the magic. -/
def route (env : Env) (w : Bool) (a : Agent) : Agent × List Sent :=
  let head := a.request_buffer
  let magic_ := env.calc_magic head % 4294967296
  let errcode : Int := if magic_ ≠ head.magic then 0 else 0
  if errcode = 0 then
    let r := dispatch env w magic_ a
    let errcode1 := r.1
    let a1 := if errcode1 ≠ 0 ∧ errcode1 ≠ -1 then prepare_response_error env errcode1 r.2.1
              else r.2.1
    if errcode1 ≠ -1 then
      (a1, r.2.2 ++ [{ to_master := false, frame := a1.response_buffer }])
    else (a1, r.2.2)
  else (a, [])

/-- One pass of the inner loop of `CUidAgent::on_run` (`agent.cpp` lines
323-421): `receive_from` returned `bytes_received` and left `head` at the
start of `_request_buffer`. -/
def on_receive (env : Env) (w : Bool) (bytes_received : Int) (head : MessageHead) (a : Agent) :
    Agent × List Sent :=
  if bytes_received = -1 then (a, [])
  else
    let a0 := { a with request_buffer := head }
    if bytes_received < (env.sizeof_MessageHead : Int) then (a0, [])
    else if bytes_received ≠ (head.len : Int) then (a0, [])
    else route env w a0

/-- The start of a pass of the outer loop of `CUidAgent::on_run` (`agent.cpp`
lines 294-301): `time(NULL)` returned `now`; the `time_t` difference wraps at
64 bits. -/
def on_timer (env : Env) (now : Int) (a : Agent) : Agent × List Sent :=
  let a1 := { a with current_time := now }
  if wrap_time_t (a1.current_time - a1.last_rent_time) > (env.interval : Int) then
    let r := rent_label env a1
    ({ r.1 with last_rent_time := a1.current_time }, r.2)
  else (a1, [])

/-- What happens to the agent inside `on_run`: the clock is read at the start
of a pass of the outer loop, or a datagram is received. -/
inductive Event where
  | timer (now : Int)
  | receive (w : Bool) (bytes_received : Int) (head : MessageHead)
deriving DecidableEq, Repr

/-- The effect of one event. -/
def on_event (env : Env) (e : Event) (a : Agent) : Agent × List Sent :=
  match e with
  | Event.timer now => on_timer env now a
  | Event.receive w bytes_received head => on_receive env w bytes_received head a

/-- The loop `CUidAgent::on_run` over a list of events: the final agent and the
frames sent, in order. -/
def on_run (env : Env) : List Event → Agent → Agent × List Sent
  | [], a => (a, [])
  | e :: es, a =>
    let r := on_event env e a
    let q := on_run env es r.1
    (q.1, r.2 ++ q.2)

/-- The replies sent to clients among the frames sent. -/
def client_replies (out : List Sent) : List MessageHead :=
  (out.filter (fun s => s.to_master = false)).map (fun s => s.frame)

/-! ## Views of the agent -/

/-- The guard of `inc_sequence` (`agent.cpp` lines 729-730): the block has to
be written before a sequence is handed out. -/
def store_needed (env : Env) (a : Agent) : Prop :=
  a.seq_block.sequence < a.sequence_start ∨
    a.seq_block.sequence - a.sequence_start > env.steps

instance (env : Env) (a : Agent) : Decidable (store_needed env a) := by
  unfold store_needed; infer_instance

/-- The `sequence` field of the block in the store file (0 for an empty file). -/
def file_sequence (a : Agent) : Nat :=
  match a.file with
  | none => 0
  | some b => b.sequence

/-- The members that the sequence store never writes. -/
def untouched (a : Agent) :
    Nat × Int × Int × Nat × Int × Int × Int × Int × Tm × Int × MessageHead × MessageHead × Nat ×
      Nat × Nat × Nat :=
  (a.echo, a.current_time, a.last_rent_time, a.old_seq, a.old_hour, a.old_day, a.old_month,
    a.old_year, a.old_tm, a.old_time, a.request_buffer, a.response_buffer, a.response_size,
    a.seq_block.label, a.seq_block.timestamp, a.seq_block.version)

/-- The members that serving a sequence request never writes: `untouched`
without the two buffers. -/
def kept (a : Agent) :
    Nat × Int × Int × Nat × Int × Int × Int × Int × Tm × Int × Nat × Nat × Nat :=
  (a.echo, a.current_time, a.last_rent_time, a.old_seq, a.old_hour, a.old_day, a.old_month,
    a.old_year, a.old_tm, a.old_time, a.seq_block.label, a.seq_block.timestamp,
    a.seq_block.version)

/-- The store invariant of a running agent: the in-memory sequence is not 0,
`sequence_start` is the sequence of the block in the file, and the in-memory
sequence is not behind it. -/
def store_inv (a : Agent) : Prop :=
  a.seq_block.sequence ≠ 0 ∧ file_sequence a = a.sequence_start ∧
    a.sequence_start ≤ a.seq_block.sequence

/-- What the reservation scheme reads of an agent: the in-memory sequence,
`sequence_start`, the store file and the history of ranges handed out. -/
def store_fields (a : Agent) : Nat × Nat × Option SeqBlock × List (Nat × Nat) :=
  (a.seq_block.sequence, a.sequence_start, a.file, a.issued)

/-- One step of the store, from `a` to `b`, that asks for at most `d`
sequence values: the invariant holds after it, the in-memory sequence moves
forward by at most `d`, the file's sequence does not move backward, and a
range handed out by the step starts at the in-memory sequence of `a`, ends at
that of `b`, starts at most `steps` past the file's sequence, and has at most
`d` values. -/
def store_step (env : Env) (d : Nat) (a b : Agent) : Prop :=
  store_inv b ∧
  a.seq_block.sequence ≤ b.seq_block.sequence ∧
  b.seq_block.sequence ≤ a.seq_block.sequence + d ∧
  file_sequence a ≤ file_sequence b ∧
  ∃ new : List (Nat × Nat), b.issued = a.issued ++ new ∧
    ∀ p ∈ new, p.1 = a.seq_block.sequence ∧ p.1 + max p.2 1 = b.seq_block.sequence ∧
      p.1 ≤ file_sequence b + env.steps ∧ max p.2 1 ≤ d

/-- The number of sequence values a frame asks for: 1 for `REQUEST_UNIQ_ID`,
`max n 1` for `REQUEST_UNIQ_SEQ` and `REQUEST_LABEL_AND_SEQ` with count `n`
(`value1` read as a `uint16_t`), 0 otherwise. -/
def head_demand (head : MessageHead) : Nat :=
  if head.type_ = REQUEST_UNIQ_ID then 1
  else if head.type_ = REQUEST_UNIQ_SEQ ∨ head.type_ = REQUEST_LABEL_AND_SEQ then
    max (head.value1 % 65536) 1
  else 0

/-- The number of sequence values an event asks for. -/
def event_demand (e : Event) : Nat :=
  match e with
  | Event.timer _ => 0
  | Event.receive _ _ head => head_demand head

/-- The number of sequence values a list of events asks for. -/
def run_demand : List Event → Nat
  | [] => 0
  | e :: es => event_demand e + run_demand es

/-- What is looked at in a frame sent: destination, type and `value3`. -/
def sent_view (s : Sent) : Bool × Nat × Nat := (s.to_master, s.frame.type_, s.frame.value3)

/-! ## Requests -/

/-- The event is the receipt of a well-sized `REQUEST_UNIQ_SEQ` frame asking
for `n` sequences (`value1` read as a `uint16_t`), while `pwrite` works. -/
def seq_request (env : Env) (n : Nat) (e : Event) : Prop :=
  match e with
  | Event.timer _ => False
  | Event.receive w bytes_received head =>
    w = true ∧ bytes_received = (head.len : Int) ∧
    (env.sizeof_MessageHead : Int) ≤ bytes_received ∧
    head.type_ = REQUEST_UNIQ_SEQ ∧ head.value1 % 65536 = n

/-! ## Concrete configurations -/

/-- A calendar decomposition for the examples: 2023-11-14, 22 h. -/
def tm_2023_11_14_22 : Tm := { tm_year := 123, tm_mon := 10, tm_mday := 14, tm_hour := 22 }

/-- Local mode (`--label 7 --steps 100`, no master): scenario S1 of the
specification. The frame size and the frame magic are fixed arbitrarily. -/
def local_env : Env :=
  { master_nodes := "", label := 7, steps := 100, expire := 3600, interval := 600,
    LABEL_MAX := 254, sizeof_MessageHead := 30, calc_magic := fun _ => 0,
    localtime := fun _ => some tm_2023_11_14_22 }

/-- Local mode with `--steps 1`. -/
def local_env_steps1 : Env := { local_env with steps := 1 }

/-- Master mode: as `local_env`, with one master node configured. -/
def master_env : Env := { local_env with master_nodes := "192.168.31.66:2016", label := 0 }

/-- A block with the given label, sequence and timestamp, and its magic. -/
def block_of (label sequence timestamp : Nat) : SeqBlock :=
  SeqBlock.update_magic
    { version := SEQUENCE_BLOCK_VERSION, label := label, sequence := sequence,
      timestamp := timestamp, magic := 0 }

/-- A client request of the given type, echo and values, of the frame size of
`local_env`. -/
def request_frame (type_ echo value1 value3 : Nat) : MessageHead :=
  { major_ver := MU_MAJOR_VERSION, minor_ver := MU_MINOR_VERSION, len := 30, type_ := type_,
    echo := echo, value1 := value1, value2 := 0, value3 := value3, magic := 0 }

/-- The agent of `local_env` after `restore_sequence` on an empty store file. -/
def fresh_agent : Agent :=
  (restore_sequence local_env PRead.eof [] true (CUidAgent none)).2.1

/-- The agent `fresh_agent` of `local_env` after the clock was read at
1700000000: its block still has timestamp 0. -/
def fresh_agent_later : Agent := (on_event local_env (Event.timer 1700000000) fresh_agent).1

/-- An agent of `master_env` whose clock reads 1700000000 and whose block has
timestamp 0: more than `expire = 3600` seconds apart. -/
def expired_agent : Agent :=
  { CUidAgent (some (block_of 7 100 0)) with
      seq_block := block_of 7 100 0, sequence_start := 100, current_time := 1700000000 }

/-- An agent of `master_env` whose clock reads 1700000000 and whose block has
timestamp `2^63`, which reads as the `time_t` `-2^63`. -/
def wrapped_agent : Agent :=
  { CUidAgent (some (block_of 7 100 9223372036854775808)) with
      seq_block := block_of 7 100 9223372036854775808, sequence_start := 100,
      current_time := 1700000000 }

/-- The agent of `local_env` restarted on a store file whose block has
sequence `4294967095 = 2^32 - 1 - 2 * 100`: its in-memory sequence is
`4294967295`. -/
def agent_before_wrap : Agent :=
  (restore_sequence local_env (PRead.block (block_of 7 4294967095 0)) [] true
    (CUidAgent (some (block_of 7 4294967095 0)))).2.1

/-- The agent of `local_env_steps1` restarted on a store file whose block has
sequence `4294967295`. -/
def agent_restart_wrap : Bool × Agent × List Sent :=
  restore_sequence local_env_steps1 (PRead.block (block_of 7 4294967295 0)) [] true
    (CUidAgent (some (block_of 7 4294967295 0)))

/-- The receipt of a count-1 `REQUEST_UNIQ_SEQ` frame in `local_env`, with a
working `pwrite`. -/
def seq_request_1 : Event :=
  Event.receive true 30 (request_frame REQUEST_UNIQ_SEQ 0 1 0)

/-- The receipt in `local_env` of a `REQUEST_UNIQ_SEQ` frame of count `n`. -/
def seq_request_n (n : Nat) : Event := Event.receive true 30 (request_frame REQUEST_UNIQ_SEQ 0 n 0)

/-- The agent `fresh_agent` after requests for 1 and for 50 sequences: the
file holds sequence 100, the in-memory sequence is 151. -/
def agent_at_stop : Agent :=
  (on_run local_env [seq_request_1, seq_request_n 50] fresh_agent).1

/-- A new agent process of `local_env`, restarted from the file that
`agent_at_stop` left. -/
def agent_restarted : Bool × Agent × List Sent :=
  restore_sequence local_env (pread agent_at_stop.file) [] true (CUidAgent agent_at_stop.file)

/-- The receipt in `local_env` of a `REQUEST_UNIQ_ID` frame with user 5 and
`current_seconds = 0` (the agent's clock is used). -/
def id_request_5 : Event := Event.receive true 30 (request_frame REQUEST_UNIQ_ID 0 5 0)

/-- A well-sized `REQUEST_UNIQ_SEQ` frame of count 1 whose magic (5) is not
the `calc_magic` of `local_env` (0). -/
def wrong_magic_request : MessageHead :=
  { request_frame REQUEST_UNIQ_SEQ 9 1 0 with magic := 5 }

/-- One id request, then `8192 * 65535 + 8191 = 2^29 - 1` sequence values
taken in batches, all by the same clock. -/
def seq_wrap_prefix : List Event :=
  id_request_5 :: (List.replicate 8192 (seq_request_n 65535) ++ [seq_request_n 8191])

/-- The events of `seq_wrap_prefix`, then one more id request. -/
def seq_wrap_events : List Event := seq_wrap_prefix ++ [id_request_5]

/-- The id of user 5 and label 7 at 2023-11-14, 22 h, with sequence field 100. -/
def id_5_7_100 : Nat :=
  UniqID.value { user := 5, label := 7, year := 7, month := 11, day := 14, hour := 22, seq := 100 }

/-! ## Definitions for the block magic and the id fields -/

/-- The blocks `b` and `c` differ in exactly one of the five fields. -/
def differ_in_one_field (b c : SeqBlock) : Prop :=
  (c.version ≠ b.version ∧ c.label = b.label ∧ c.sequence = b.sequence ∧
      c.timestamp = b.timestamp ∧ c.magic = b.magic) ∨
  (c.version = b.version ∧ c.label ≠ b.label ∧ c.sequence = b.sequence ∧
      c.timestamp = b.timestamp ∧ c.magic = b.magic) ∨
  (c.version = b.version ∧ c.label = b.label ∧ c.sequence ≠ b.sequence ∧
      c.timestamp = b.timestamp ∧ c.magic = b.magic) ∨
  (c.version = b.version ∧ c.label = b.label ∧ c.sequence = b.sequence ∧
      c.timestamp ≠ b.timestamp ∧ c.magic = b.magic) ∨
  (c.version = b.version ∧ c.label = b.label ∧ c.sequence = b.sequence ∧
      c.timestamp = b.timestamp ∧ c.magic ≠ b.magic)

/-- The fields of a block are in the range of their C++ types. -/
def SeqBlock.in_range (b : SeqBlock) : Prop :=
  b.version < 4294967296 ∧ b.label < 4294967296 ∧ b.sequence < 4294967296 ∧
    b.timestamp < 18446744073709551616 ∧ b.magic < 18446744073709551616

instance (b c : SeqBlock) : Decidable (differ_in_one_field b c) := by
  unfold differ_in_one_field
  infer_instance

instance (b : SeqBlock) : Decidable b.in_range := by
  unfold SeqBlock.in_range
  infer_instance

/-- The bit fields of an id are in range: `user:6`, `label:8`, `year:7`,
`month:4`, `day:5`, `hour:5`, `seq:29`. -/
def ID.in_range (i : ID) : Prop :=
  i.user ≤ 63 ∧ i.label ≤ 255 ∧ i.year ≤ 127 ∧ i.month ≤ 15 ∧ i.day ≤ 31 ∧ i.hour ≤ 31 ∧
    i.seq ≤ 536870911

/-- A valid block (`version 1`, `label 0`, `sequence 7`, `timestamp 10`,
`magic 2 = |10 - 8|`). -/
def block_7_10 : SeqBlock :=
  { version := 1, label := 0, sequence := 7, timestamp := 10, magic := 2 }

/-- The block `block_7_10` with `sequence` changed from 7 to 11: the sum
`sequence+label+version` moves from 8 to 12, at the same distance from the
timestamp 10. -/
def block_11_10 : SeqBlock := { block_7_10 with sequence := 11 }

/-- A valid block and a change of its timestamp alone, from 10 to 9. -/
def block_7_9 : SeqBlock := { block_7_10 with timestamp := 9 }

/-- The calendar decomposition `*now` that `get_uniq_id` uses (`agent.cpp`
lines 783-798): what `localtime` returns for the reference time when that is
more than 30 seconds past `old_time` (`none` when it returns `NULL`), else the
cached `old_tm`. -/
def get_uniq_id_now (env : Env) (request : MessageHead) (a1 : Agent) : Option Tm :=
  let current_time0 := to_time_t request.value3
  let current_time := if current_time0 = 0 then a1.current_time else current_time0
  if wrap_time_t (current_time - a1.old_time) > 30 then env.localtime current_time
  else some a1.old_tm

/-- The seven assignments to the bit fields of `uniq_id.id` in `get_uniq_id`
(`agent.cpp` lines 800-807). -/
def uniq_id_fields (request : MessageHead) (label : Nat) (now : Tm) (seq : Nat) : ID :=
  { user := request.value1 % 256 % 64,
    label := label % 256,
    year := (((now.tm_year + 1900) - MU_BASE_YEAR) % 128).toNat,
    month := ((now.tm_mon + 1) % 16).toNat,
    day := (now.tm_mday % 32).toNat,
    hour := (now.tm_hour % 32).toNat,
    seq := seq % 536870912 }

/-- The overflow test of `get_uniq_id` (`agent.cpp` lines 809-813) on the id
fields `i` and the sequence `seq`. -/
def overflow_detected (a : Agent) (i : ID) (seq : Nat) : Prop :=
  a.old_seq > seq ∧ a.old_hour = (i.hour : Int) ∧ a.old_day = (i.day : Int) ∧
    a.old_month = (i.month : Int) ∧ a.old_year = (i.year : Int)

instance (a : Agent) (i : ID) (seq : Nat) : Decidable (overflow_detected a i seq) := by
  unfold overflow_detected
  infer_instance

/-- The members `_old_seq`, `_old_year`, `_old_month`, `_old_day`, `_old_hour`:
what `get_uniq_id` recorded of the id it emitted last. -/
def recorded (a : Agent) : Nat × Int × Int × Int × Int :=
  (a.old_seq, a.old_year, a.old_month, a.old_day, a.old_hour)

/-- The four request types that clients send. -/
def client_request (t : Nat) : Prop :=
  t = REQUEST_LABEL ∨ t = REQUEST_UNIQ_ID ∨ t = REQUEST_UNIQ_SEQ ∨ t = REQUEST_LABEL_AND_SEQ

instance (t : Nat) : Decidable (client_request t) := by
  unfold client_request
  infer_instance

/-- The three request types that allocate from the sequence store. -/
def allocating_request (t : Nat) : Prop :=
  t = REQUEST_UNIQ_ID ∨ t = REQUEST_UNIQ_SEQ ∨ t = REQUEST_LABEL_AND_SEQ

instance (t : Nat) : Decidable (allocating_request t) := by
  unfold allocating_request
  infer_instance

/-- The count that the handler of a request of type `head.type_` passes to
`inc_sequence`: 1 for `REQUEST_UNIQ_ID`, else the low 16 bits of `value1`. -/
def request_deta (head : MessageHead) : Nat :=
  if head.type_ = REQUEST_UNIQ_ID then 1 else head.value1 % 65536

/-- What is observed of a frame sent: destination, type, `value1`, echo. -/
def reply_view (s : Sent) : Bool × Nat × Nat × Nat :=
  (s.to_master, s.frame.type_, s.frame.value1, s.frame.echo)

/-- The frame `f` was completed by `update_magic()` after its other fields
were set, in a buffer whose magic was `old_magic` before: its magic is the
`calc_magic` of the frame as it stood then. -/
def magic_recomputed (env : Env) (old_magic : Nat) (f : MessageHead) : Prop :=
  f.magic = env.calc_magic { f with magic := old_magic }

/-- The five reply types. -/
def reply_type (t : Nat) : Prop :=
  t = RESPONSE_LABEL ∨ t = RESPONSE_UNIQ_ID ∨ t = RESPONSE_UNIQ_SEQ ∨
    t = RESPONSE_LABEL_AND_SEQ ∨ t = RESPONSE_ERROR

/-- An environment as `local_env` whose frame magic depends on the frame: the
sum of `type`, `echo`, `value1` and the magic the buffer held. -/
def summing_env : Env :=
  { local_env with calc_magic := fun m => m.type_ + m.echo + m.value1 + m.magic }

/-- A well-sized `REQUEST_UNIQ_SEQ` frame of count 1 and echo 9 whose major
version is 1, not `MU_MAJOR_VERSION = 0`. -/
def other_version_request : MessageHead :=
  { request_frame REQUEST_UNIQ_SEQ 9 1 0 with major_ver := 1 }

/-- A `REQUEST_UNIQ_SEQ` frame whose `len` field (31) is not the byte count
received (30). -/
def wrong_len_request : MessageHead :=
  { request_frame REQUEST_UNIQ_SEQ 9 1 0 with len := 31 }

/-- The agent `fresh_agent` after a `store_sequence` whose `pwrite` came back
short: `io_error` is latched. -/
def latched_agent : Agent := (store_sequence false fresh_agent).2

/-- A new agent process of `master_env` on an empty store file, the clock
reading 1700000000 (`on_init`), to which the master grants label 7. -/
def leased_start : Bool × Agent × List Sent :=
  restore_sequence master_env PRead.eof [Recv.frame (request_frame RESPONSE_LABEL 0 7 0)] true
    { CUidAgent none with current_time := 1700000000 }

/-- The frame `RESPONSE_ERROR` with `value1 = MUE_LABEL_NOT_HOLD` that a master
sends, with the magic of `master_env`. -/
def label_not_hold_frame : MessageHead := request_frame RESPONSE_ERROR 1 201600007 0

/-- The agent of `leased_start` after it handled `label_not_hold_frame`, and
the frames it sent then. -/
def not_held : Agent × List Sent :=
  on_event master_env (Event.receive true 30 label_not_hold_frame) leased_start.2.1

/-- An agent of `local_env` that emitted an id with sequence 200 in the hour
of `tm_2023_11_14_22`, and whose cached calendar decomposition is that hour. -/
def agent_after_id_200 : Agent :=
  { fresh_agent with old_seq := 200, old_year := 7, old_month := 11, old_day := 14,
                     old_hour := 22, old_tm := tm_2023_11_14_22 }

instance (i : ID) : Decidable i.in_range := by
  unfold ID.in_range
  infer_instance

/-- The fields of the id of user 5 and label 7 at 2023-11-14, 22 h, with
sequence field 100. -/
def fields_5_7_100 : ID :=
  { user := 5, label := 7, year := 7, month := 11, day := 14, hour := 22, seq := 100 }

/-- The agent `fresh_agent_later` with a `REQUEST_UNIQ_ID` frame of user 5 in
its request buffer. -/
def id_request_agent : Agent :=
  { fresh_agent_later with request_buffer := request_frame REQUEST_UNIQ_ID 0 5 0 }

/-- What the latch `io_error` protects: the latch, the in-memory sequence and
the history of ranges handed out. -/
def latch_view (a : Agent) : Bool × Nat × List (Nat × Nat) :=
  (a.io_error, a.seq_block.sequence, a.issued)

/-- The two buffers of the agent. -/
def buffers (a : Agent) : MessageHead × MessageHead := (a.request_buffer, a.response_buffer)

/-- The frame `f` is a reply to the request `request` built in a response
buffer whose magic was `old_magic`: it carries the echo of the request, one of
the five reply types and a magic recomputed last. -/
def is_reply (env : Env) (request : MessageHead) (old_magic : Nat) (f : MessageHead) : Prop :=
  f.echo = request.echo ∧ magic_recomputed env old_magic f ∧ reply_type f.type_

/-- A handler either prepared a reply and returned 0, or returned an error
code and left the buffers alone. -/
def handled (env : Env) (a : Agent) (c : Int) (b : Agent) : Prop :=
  (c = 0 ∧ is_reply env a.request_buffer a.response_buffer.magic b.response_buffer) ∨
  (c ≠ 0 ∧ c ≠ -1 ∧ buffers b = buffers a)

/-- The agent `fresh_agent` after two requests for 60 sequences: the in-memory
sequence (220) is more than `steps` past `sequence_start` (100), so the next
`inc_sequence` has to store the block. -/
def agent_past_window : Agent :=
  (on_run local_env [seq_request_n 60, seq_request_n 60] fresh_agent).1

/-- The agent `expired_agent` of `master_env` after a `store_sequence` whose
`pwrite` came back short: the label has expired and `io_error` is latched. -/
def expired_latched_agent : Agent := (store_sequence false expired_agent).2

/-- Events of every kind: the clock is read, a client asks for a sequence, and
a `RESPONSE_LABEL` and a `RESPONSE_ERROR` frame arrive. -/
def latch_events : List Event :=
  [Event.timer 1700000000, seq_request_1,
   Event.receive true 30 (request_frame RESPONSE_LABEL 0 9 0),
   Event.receive true 30 label_not_hold_frame]

/-- The reply of `summing_env` to a `REQUEST_UNIQ_SEQ` frame of echo 9 that is
served with sequence 100: its magic is `6 + 9 + 100 + 0`. -/
def uniq_seq_reply_9 : Sent :=
  { to_master := false,
    frame := { major_ver := 0, minor_ver := 4, len := 30, type_ := 6, echo := 9, value1 := 100,
               value2 := 0, value3 := 0, magic := 115 } }

/-! ## Startup check -/

/-- The parameter checks of `CUidAgent::on_init` (`agent.cpp` lines 236-249),
after `parse_arguments`: the result is true when neither check returns false.
The products and sums are those of `uint32_t`. -/
def on_init_check (env : Env) : Bool :=
  if env.master_nodes = "" ∧ 0 = env.label then false
  else if env.expire < (env.interval * 2) % 4294967296 ∨
      env.expire < (env.interval + 10) % 4294967296 then false
  else true

/-! ## Block magic over the integers -/

/-- The magic as the specification words it: the absolute difference, over the
integers, between `timestamp` and the sum `sequence + label + version`. -/
def SeqBlock.spec_magic (b : SeqBlock) : Nat :=
  Int.natAbs ((b.timestamp : Int) - ((b.sequence : Int) + (b.label : Int) + (b.version : Int)))

/-- A block whose fields `sequence + label + version` add up to `2^32 + 7`. -/
def block_sum_wraps : SeqBlock :=
  { version := 1, label := 7, sequence := 4294967295, timestamp := 0, magic := 0 }

/-! ## The client `CMuidor` (`muidor.cpp`) -/

/-- The request that `CMuidor::get_uniq_id(user, current_seconds)` builds
(`muidor.cpp` lines 419-427), in the order of the source: `request` is the
local variable as declared, `echo` the value of `get_echo(_echo)`; `user` is a
`uint8_t`, `current_seconds` a `uint64_t`. -/
def CMuidor.get_uniq_id_request (env : Env) (request : MessageHead) (echo user
    current_seconds : Nat) : MessageHead :=
  let r1 := { request with len := env.sizeof_MessageHead }
  let r2 := { r1 with type_ := REQUEST_UNIQ_ID }
  let r3 := { r2 with echo := echo }
  let r4 := { r3 with value1 := user }
  let r5 := { r4 with value1 := 0 }
  let r6 := { r5 with value3 := current_seconds }
  MessageHead.update_magic env r6

/-- What one pass of the `try` block of a client call does: it returns a
value, or it throws a `CSyscallException` or a `CException`. -/
inductive Tried where
  | returned (value : Nat)
  | syscall_exception (errcode : Int)
  | exception (errcode : Int)
deriving DecidableEq, Repr

/-- How a client call ends. -/
inductive Called where
  | value (value : Nat)
  | syscall_exception (errcode : Int)
  | exception (errcode : Int)
deriving DecidableEq, Repr

/-- The loop `for (uint8_t retry=0; retry<_retry_times+1; ++retry)` that
`CMuidor::get_label`, `get_unqi_seq`, `get_uniq_id` and `get_label_and_seq`
share (`muidor.cpp` lines 160, 301, 430 and 607, with their bodies), from the pass
with counter `retry` on: `tried k` is what the `try` block does in the pass
with counter `k`, `attempts` counts the passes made so far. The result is
`none` when the fuel runs out; after the loop the functions `return 0`
(or return nothing). A timeout is rethrown as a new exception with the same
`errcode`. -/
def CMuidor.retry_loop (retry_times : Nat) (tried : Nat → Tried) :
    Nat → Nat → Nat → Option (Called × Nat)
  | 0, _, _ => none
  | fuel + 1, retry, attempts =>
    if retry < retry_times + 1 then
      match tried retry with
      | Tried.returned v => some (Called.value v, attempts + 1)
      | Tried.syscall_exception errcode =>
        if 0 = retry_times ∨ retry + 1 ≥ retry_times then
          some (Called.syscall_exception errcode, attempts + 1)
        else CMuidor.retry_loop retry_times tried fuel ((retry + 1) % 256) (attempts + 1)
      | Tried.exception errcode =>
        if 0 = retry_times ∨ retry + 1 ≥ retry_times then
          some (Called.exception errcode, attempts + 1)
        else CMuidor.retry_loop retry_times tried fuel ((retry + 1) % 256) (attempts + 1)
    else some (Called.value 0, attempts)

/-- A client call of a `CMuidor` built with `retry_times` (at most `RETRY_MAX`,
which keeps `retry+1` within a `uint8_t`): how it ends and how many attempts
it made. -/
def CMuidor.call (retry_times : Nat) (tried : Nat → Tried) : Option (Called × Nat) :=
  CMuidor.retry_loop retry_times tried (retry_times + 2) 0 0

/-! ## Transaction ids (`muidor.cpp` lines 736-851) -/

/-- The state of the `std::stringstream result` that the formatting reads and
writes: the characters inserted so far, whether `basefield` is `hex` (else
`dec`), the flag `uppercase` and the fill character. The width is set anew
before each insertion that uses one. -/
structure Stream where
  out : List Char
  hex : Bool
  uppercase : Bool
  fill : Char
deriving DecidableEq, Repr

/-- A new `std::stringstream`. -/
def Stream.init : Stream := { out := [], hex := false, uppercase := false, fill := ' ' }

/-- The character of a digit `d < 16`. -/
def digit_char (uppercase : Bool) (d : Nat) : Char :=
  if d < 10 then Char.ofNat (48 + d)
  else if uppercase then Char.ofNat (55 + d)
  else Char.ofNat (87 + d)

/-- The digits of `n` in base `base`, most significant first, before `acc`. -/
def digits_core (base : Nat) (uppercase : Bool) : Nat → Nat → List Char → List Char
  | 0, _, acc => acc
  | fuel + 1, n, acc =>
    let acc1 := digit_char uppercase (n % base) :: acc
    if n / base = 0 then acc1 else digits_core base uppercase fuel (n / base) acc1

/-- The representation of `n` in base `base`. -/
def digits (base : Nat) (uppercase : Bool) (n : Nat) : List Char :=
  digits_core base uppercase (n + 1) n []

/-- The text of an integer, padded on the left to `width` with `fill`. -/
def pad_left (width : Nat) (fill : Char) (text : List Char) : List Char :=
  List.replicate (width - text.length) fill ++ text

/-- The insertion `result << v` of an unsigned integer with the width `width`
(0 when none is set). -/
def Stream.put_unsigned (s : Stream) (width : Nat) (v : Nat) : Stream :=
  let text := if s.hex then digits 16 s.uppercase v else digits 10 false v
  { s with out := s.out ++ pad_left width s.fill text }

/-- The insertion `result << m` of an `int` with the width `width`: in `hex`
the 32-bit two's complement is shown. -/
def Stream.put_int (s : Stream) (width : Nat) (m : Int) : Stream :=
  let text :=
    if s.hex then digits 16 s.uppercase (m % 4294967296).toNat
    else if m < 0 then '-' :: digits 10 false m.natAbs
    else digits 10 false m.natAbs
  { s with out := s.out ++ pad_left width s.fill text }

/-- The insertion of a text with the width `width`. -/
def Stream.put_text (s : Stream) (width : Nat) (text : List Char) : Stream :=
  { s with out := s.out ++ pad_left width s.fill text }

/-- The calendar decomposition that `vget_transaction_id` reads. -/
structure TmClient where
  tm_year : Int
  tm_mon : Int
  tm_mday : Int
  tm_hour : Int
  tm_min : Int
deriving DecidableEq, Repr

/-- What `vget_transaction_id` takes from outside the sources: the functions
`dec_with_width` and `hex_with_width` of `CIntegerUtils`, given by the text
that the insertion of their result writes before it is padded, and the
variable arguments, `va_int k` (`va_str k`) being what the `k`-th `va_arg`
gives when it is read as an `int` (as a `char*`). -/
structure Client where
  dec_with_width : Int → Nat → List Char
  hex_with_width : Int → Nat → List Char
  va_int : Nat → Int
  va_str : Nat → List Char

/-- The `while (*format_p != 0)` loop of `vget_transaction_id` (`muidor.cpp`
lines 756-847) on the rest of the format, for one id: `k` counts the calls of
`va_arg`. The result is `none` when `MUE_PARAMETER` is thrown. -/
def format_loop (c : Client) (label seq : Nat) (now : TmClient) :
    List Char → Stream → Nat → Option Stream
  | [], s, _ => some s
  | p :: rest, s, k =>
    if p ≠ '%' then format_loop c label seq now rest { s with out := s.out ++ [p] } k
    else
      match rest with
      | [] => none
      | d :: rest1 =>
        if '0' ≤ d ∧ d ≤ '9' then
          let width := d.toNat - 48
          match rest1 with
          | [] => none
          | f :: rest2 =>
            if f = 'S' then
              format_loop c label seq now rest2
                (Stream.put_text { s with hex := false, fill := '0' } width
                  (c.dec_with_width seq width)) k
            else if f = 'd' then
              format_loop c label seq now rest2
                (Stream.put_text { s with hex := false, fill := '0' } width
                  (c.dec_with_width (c.va_int k) width)) (k + 1)
            else if f = 'X' then
              format_loop c label seq now rest2
                (Stream.put_text { s with hex := true, fill := '0', uppercase := true } width
                  (c.hex_with_width (c.va_int k) width)) (k + 1)
            else none
        else if d = 'd' then
          format_loop c label seq now rest1
            (Stream.put_int { s with hex := false } 0 (c.va_int k)) (k + 1)
        else if d = 'X' then
          format_loop c label seq now rest1
            (Stream.put_int { s with hex := true, uppercase := true } 0 (c.va_int k)) (k + 1)
        else if d = 's' then
          format_loop c label seq now rest1 { s with out := s.out ++ c.va_str k } (k + 1)
        else if d = 'S' then
          format_loop c label seq now rest1 (Stream.put_unsigned s 0 seq) k
        else if d = 'L' then
          format_loop c label seq now rest1
            (Stream.put_int { s with hex := true, fill := '0', uppercase := true } 2 label) k
        else if d = 'Y' then
          format_loop c label seq now rest1
            (Stream.put_int { s with hex := false, fill := '0' } 4 (now.tm_year + 1900)) k
        else if d = 'M' then
          format_loop c label seq now rest1
            (Stream.put_int { s with hex := false, fill := '0' } 2 (now.tm_mon + 1)) k
        else if d = 'D' then
          format_loop c label seq now rest1
            (Stream.put_int { s with hex := false, fill := '0' } 2 now.tm_mday) k
        else if d = 'H' then
          format_loop c label seq now rest1
            (Stream.put_int { s with hex := false, fill := '0' } 2 now.tm_hour) k
        else if d = 'm' then
          format_loop c label seq now rest1
            (Stream.put_int { s with hex := false, fill := '0' } 2 now.tm_min) k
        else none

/-- The `for (uint16_t i=0; i<num; ++i, ++seq)` loop of `vget_transaction_id`
(`muidor.cpp` lines 748-850) with `n` passes left: each id is formatted in a new
stream and appended to `id_vec`. The result is `none` when an exception is
thrown. -/
def transaction_ids (c : Client) (label : Nat) (now : TmClient) (format : List Char) :
    Nat → Nat → List (List Char) → Option (List (List Char))
  | 0, _, id_vec => some id_vec
  | n + 1, seq, id_vec =>
    match format_loop c label seq now format Stream.init 0 with
    | none => none
    | some s => transaction_ids c label now format n ((seq + 1) % 4294967296) (id_vec ++ [s.out])

/-- The method `CMuidor::vget_transaction_id(num, id_vec, format, va)`, the
call of `get_label_and_seq` having given `label` and `seq` and `localtime_r`
having given `now`. -/
def vget_transaction_id (c : Client) (num : Nat) (id_vec : List (List Char))
    (format : List Char) (label seq : Nat) (now : TmClient) : Option (List (List Char)) :=
  transaction_ids c label now format num seq id_vec

/-! ## Concrete configurations of the client and of restarts -/

/-- A client whose variable arguments are all 0 and empty and whose
`dec_with_width` and `hex_with_width` write nothing. -/
def plain_client : Client :=
  { dec_with_width := fun _ _ => [], hex_with_width := fun _ _ => [], va_int := fun _ => 0,
    va_str := fun _ => [] }

/-- A calendar decomposition of the client: 2023-11-14, 22:13. -/
def now_2023_11_14_22_13 : TmClient :=
  { tm_year := 123, tm_mon := 10, tm_mday := 14, tm_hour := 22, tm_min := 13 }

/-- A `try` block that throws `CException(MUE_STORE_SEQ)` in every pass. -/
def always_fails : Nat → Tried := fun _ => Tried.exception 201600002

/-- A `try` block that times out in every pass (`ETIMEDOUT` is 110). -/
def always_times_out : Nat → Tried := fun _ => Tried.syscall_exception 110

/-- The calendar decomposition of 2000000000 in UTC: 2033-05-18, 3 h. -/
def tm_2033_05_18_03 : Tm := { tm_year := 133, tm_mon := 4, tm_mday := 18, tm_hour := 3 }

/-- Local mode as `local_env`, with a `localtime` that tells 2000000000
(2033-05-18, 3 h) from the other times (2023-11-14, 22 h). -/
def calendar_env : Env :=
  { local_env with
      localtime := fun t =>
        if t = 2000000000 then some tm_2033_05_18_03 else some tm_2023_11_14_22 }

/-- The receipt of a `REQUEST_UNIQ_ID` frame of user 5 whose `value3`
(`current_seconds`) is `t`. -/
def id_request_at (t : Nat) : Event := Event.receive true 30 (request_frame REQUEST_UNIQ_ID 0 5 t)

/-- What is read of a reply that carries an id: destination, type and the bit
fields of `value3`. -/
def id_view (s : Sent) : Bool × Nat × ID := (s.to_master, s.frame.type_, UniqID.id s.frame.value3)

/-- A new agent process of `master_env`, the clock reading 1700000100, on a
store file whose valid block has label 7, sequence 100 and timestamp
1700000000: the lease has 3500 seconds left. -/
def restart_unexpired : Bool × Agent × List Sent :=
  restore_sequence master_env (PRead.block (block_of 7 100 1700000000)) [] true
    { CUidAgent (some (block_of 7 100 1700000000)) with current_time := 1700000100 }

/-- A frame of type 10, which is none of the request and response types. -/
def unknown_type_frame : MessageHead := request_frame 10 9 0 0

/-- A configuration that passes the startup checks is `local_env`
(`expire = 3600`, `interval = 600`); this one has `expire = 1000`, less than
twice the interval. -/
def short_expire_env : Env := { local_env with expire := 1000 }

/-! ## Frame lemmas -/

@[simp] theorem record_issued_fst (deta : Nat) (t : Nat × Agent) :
    (record_issued deta t).1 = t.1 := rfl

@[simp] theorem record_issued_seq_block (deta : Nat) (t : Nat × Agent) :
    (record_issued deta t).2.seq_block = t.2.seq_block := by
  unfold record_issued; dsimp only; split_ifs <;> rfl

@[simp] theorem record_issued_sequence_start (deta : Nat) (t : Nat × Agent) :
    (record_issued deta t).2.sequence_start = t.2.sequence_start := by
  unfold record_issued; dsimp only; split_ifs <;> rfl

@[simp] theorem record_issued_file (deta : Nat) (t : Nat × Agent) :
    (record_issued deta t).2.file = t.2.file := by
  unfold record_issued; dsimp only; split_ifs <;> rfl

@[simp] theorem record_issued_pwrites (deta : Nat) (t : Nat × Agent) :
    (record_issued deta t).2.pwrites = t.2.pwrites := by
  unfold record_issued; dsimp only; split_ifs <;> rfl

@[simp] theorem record_issued_io_error (deta : Nat) (t : Nat × Agent) :
    (record_issued deta t).2.io_error = t.2.io_error := by
  unfold record_issued; dsimp only; split_ifs <;> rfl

@[simp] theorem update_magic_sequence (b : SeqBlock) : b.update_magic.sequence = b.sequence := by
  unfold SeqBlock.update_magic; split <;> rfl

@[simp] theorem update_magic_label (b : SeqBlock) : b.update_magic.label = b.label := by
  unfold SeqBlock.update_magic; split <;> rfl

@[simp] theorem update_magic_timestamp (b : SeqBlock) :
    b.update_magic.timestamp = b.timestamp := by
  unfold SeqBlock.update_magic; split <;> rfl

@[simp] theorem update_magic_version (b : SeqBlock) : b.update_magic.version = b.version := by
  unfold SeqBlock.update_magic; split <;> rfl

@[simp] theorem inc_num_sequence_seq_block (env : Env) (n : Int) (a : Agent) :
    (inc_num_sequence env n a).seq_block = a.seq_block := by
  unfold inc_num_sequence; dsimp only; split_ifs <;> rfl

@[simp] theorem inc_num_sequence_sequence_start (env : Env) (n : Int) (a : Agent) :
    (inc_num_sequence env n a).sequence_start = a.sequence_start := by
  unfold inc_num_sequence; dsimp only; split_ifs <;> rfl

@[simp] theorem inc_num_sequence_file (env : Env) (n : Int) (a : Agent) :
    (inc_num_sequence env n a).file = a.file := by
  unfold inc_num_sequence; dsimp only; split_ifs <;> rfl

@[simp] theorem inc_num_sequence_pwrites (env : Env) (n : Int) (a : Agent) :
    (inc_num_sequence env n a).pwrites = a.pwrites := by
  unfold inc_num_sequence; dsimp only; split_ifs <;> rfl

@[simp] theorem inc_num_sequence_io_error (env : Env) (n : Int) (a : Agent) :
    (inc_num_sequence env n a).io_error = a.io_error := by
  unfold inc_num_sequence; dsimp only; split_ifs <;> rfl

/-- Without a need to store, or with a write that succeeds, `stored` is true
and the in-memory sequence is as before. -/
theorem inc_sequence_store_healthy (env : Env) (w : Bool) (a : Agent)
    (hw : store_needed env a → w = true) :
    (inc_sequence_store env w a).1 = true ∧
    (inc_sequence_store env w a).2.seq_block.sequence = a.seq_block.sequence := by
  unfold inc_sequence_store
  by_cases hn : store_needed env a
  · have hw1 := hw hn
    subst hw1
    unfold store_needed at hn
    rw [if_pos hn]
    simp [store_sequence]
  · unfold store_needed at hn
    rw [if_neg hn]
    simp

/-- The value and the new in-memory sequence of the second half of
`inc_sequence`, when the allocation does not wrap. -/
theorem inc_sequence_take_spec (env : Env) (deta : Nat) (a : Agent)
    (hs : a.seq_block.sequence ≠ 0)
    (hb : deta ≤ 1 ∨ a.seq_block.sequence + deta < 4294967296) :
    (inc_sequence_take env deta a).1 = a.seq_block.sequence ∧
    (inc_sequence_take env deta a).2.seq_block.sequence
      = (a.seq_block.sequence + max deta 1) % 4294967296 := by
  unfold inc_sequence_take
  by_cases hd : deta ≤ 1
  · have hm : max deta 1 = 1 := by omega
    simp [hd, hs, hm]
  · have hm : max deta 1 = deta := by omega
    have hlt : a.seq_block.sequence < (a.seq_block.sequence + deta) % 4294967296 := by omega
    simp [hd, hm, hlt]

/-- The value of a healthy `inc_sequence` whose allocation does not wrap (the
increment after a single allocation may), and the new in-memory sequence. -/
theorem inc_sequence_spec (env : Env) (w : Bool) (deta : Nat) (a : Agent)
    (hs : a.seq_block.sequence ≠ 0)
    (hb : deta ≤ 1 ∨ a.seq_block.sequence + deta < 4294967296)
    (hw : store_needed env a → w = true) :
    (inc_sequence env w deta a).1 = a.seq_block.sequence ∧
    (inc_sequence env w deta a).2.seq_block.sequence
      = (a.seq_block.sequence + max deta 1) % 4294967296 := by
  obtain ⟨h1, h2⟩ := inc_sequence_store_healthy env w a hw
  unfold inc_sequence
  dsimp only
  rw [if_neg (by simp [h1])]
  have := inc_sequence_take_spec env deta (inc_sequence_store env w a).2 (by rw [h2]; exact hs)
    (by rw [h2]; exact hb)
  rw [h2] at this
  simpa using this

/-- The value and the new in-memory sequence of a healthy `inc_sequence`
that does not wrap. -/
theorem inc_sequence_healthy (env : Env) (w : Bool) (deta : Nat) (a : Agent)
    (hs : a.seq_block.sequence ≠ 0)
    (hb : a.seq_block.sequence + max deta 1 < 4294967296)
    (hw : store_needed env a → w = true) :
    (inc_sequence env w deta a).1 = a.seq_block.sequence ∧
      (inc_sequence env w deta a).2.seq_block.sequence = a.seq_block.sequence + max deta 1 := by
  have hb1 : deta ≤ 1 ∨ a.seq_block.sequence + deta < 4294967296 := by
    by_cases hd : deta ≤ 1
    · exact Or.inl hd
    · right
      have : max deta 1 = deta := by omega
      omega
  obtain ⟨h1, h2⟩ := inc_sequence_spec env w deta a hs hb1 hw
  refine ⟨h1, ?_⟩
  rw [h2]
  omega

/-! ## Allocation (C5, C6) -/

/-- C6. Allocated ranges are contiguous and disjoint. In a state whose
in-memory sequence `s` is not 0, with `s + max n1 1 < 2^32`, a healthy
`inc_sequence n1` (no block write is needed, or the write succeeds) returns
`s` and leaves the in-memory sequence at `s + max n1 1`; a second healthy
allocation of `n2` that does not wrap either returns `r2 = r1 + max n1 1`,
and no value lies in both `[r1, r1+n1)` and `[r2, r2+n2)`. The counts are
not restricted to `0..65535`. -/
theorem inc_sequence_contiguous (env : Env) (w1 : Bool) (n1 : Nat) (a : Agent)
    (hs : a.seq_block.sequence ≠ 0)
    (hb : a.seq_block.sequence + max n1 1 < 4294967296)
    (hw : store_needed env a → w1 = true) :
    (inc_sequence env w1 n1 a).1 = a.seq_block.sequence ∧
    (inc_sequence env w1 n1 a).2.seq_block.sequence = a.seq_block.sequence + max n1 1 ∧
    ∀ (w2 : Bool) (n2 : Nat),
      a.seq_block.sequence + max n1 1 + max n2 1 < 4294967296 →
      (store_needed env (inc_sequence env w1 n1 a).2 → w2 = true) →
      (inc_sequence env w2 n2 (inc_sequence env w1 n1 a).2).1
          = (inc_sequence env w1 n1 a).1 + max n1 1 ∧
      ∀ x : Nat,
        ((inc_sequence env w1 n1 a).1 ≤ x ∧ x < (inc_sequence env w1 n1 a).1 + n1) →
        ¬ ((inc_sequence env w2 n2 (inc_sequence env w1 n1 a).2).1 ≤ x ∧
            x < (inc_sequence env w2 n2 (inc_sequence env w1 n1 a).2).1 + n2) := by
  obtain ⟨h1, h2⟩ := inc_sequence_healthy env w1 n1 a hs hb hw
  refine ⟨h1, h2, ?_⟩
  intro w2 n2 hb2 hw2
  have hs2 : (inc_sequence env w1 n1 a).2.seq_block.sequence ≠ 0 := by rw [h2]; omega
  have hb2' : (inc_sequence env w1 n1 a).2.seq_block.sequence + max n2 1 < 4294967296 := by
    rw [h2]; exact hb2
  obtain ⟨h3, _⟩ := inc_sequence_healthy env w2 n2 _ hs2 hb2' hw2
  refine ⟨by rw [h3, h2, h1], ?_⟩
  intro x hx
  rw [h3, h2]
  rw [h1] at hx
  have : n1 ≤ max n1 1 := le_max_left _ _
  omega

/-- A witness of C6 at `fresh_agent` (in-memory sequence 100): batches of 5
and 3. -/
theorem inc_sequence_contiguous_witness :
    (inc_sequence local_env true 5 fresh_agent).1 = fresh_agent.seq_block.sequence ∧
    (inc_sequence local_env true 5 fresh_agent).2.seq_block.sequence
      = fresh_agent.seq_block.sequence + max 5 1 ∧
    ∀ (w2 : Bool) (n2 : Nat),
      fresh_agent.seq_block.sequence + max 5 1 + max n2 1 < 4294967296 →
      (store_needed local_env (inc_sequence local_env true 5 fresh_agent).2 → w2 = true) →
      (inc_sequence local_env w2 n2 (inc_sequence local_env true 5 fresh_agent).2).1
          = (inc_sequence local_env true 5 fresh_agent).1 + max 5 1 ∧
      ∀ x : Nat,
        ((inc_sequence local_env true 5 fresh_agent).1 ≤ x ∧
          x < (inc_sequence local_env true 5 fresh_agent).1 + 5) →
        ¬ ((inc_sequence local_env w2 n2 (inc_sequence local_env true 5 fresh_agent).2).1 ≤ x ∧
            x < (inc_sequence local_env w2 n2
                  (inc_sequence local_env true 5 fresh_agent).2).1 + n2) :=
  inc_sequence_contiguous local_env true 5 fresh_agent (by decide) (by decide) (fun _ => rfl)

/-- C5, at the failing input. After the single allocation that hands out
`4294967295` the in-memory sequence is 0; the next batch allocation of 2
needs a block write, the write succeeds (`io_error` stays false), and
`inc_sequence` returns 0 all the same, which `prepare_response_get_uniq_seq`
reports as `MUE_STORE_SEQ`. The single branch skips 0 (`agent.cpp` lines
743-747), the batch branch (lines 754-759) does not. -/
theorem inc_sequence_batch_returns_zero :
    agent_before_wrap.io_error = false ∧
    (inc_sequence local_env true 1 agent_before_wrap).1 = 4294967295 ∧
    (inc_sequence local_env true 1 agent_before_wrap).2.seq_block.sequence = 0 ∧
    (inc_sequence local_env true 2 (inc_sequence local_env true 1 agent_before_wrap).2).1 = 0 ∧
    (inc_sequence local_env true 2
      (inc_sequence local_env true 1 agent_before_wrap).2).2.io_error = false ∧
    (inc_sequence local_env true 2
      (inc_sequence local_env true 1 agent_before_wrap).2).2.seq_block.sequence = 2 ∧
    (prepare_response_get_uniq_seq local_env true
      { (inc_sequence local_env true 1 agent_before_wrap).2 with
          request_buffer := request_frame REQUEST_UNIQ_SEQ 0 2 0 }).1 = MUE_STORE_SEQ := by
  decide

/-! ## Restart (C4) -/

theorem get_label_loop_sequence (env : Env) (k : Nat) (rs : List Recv) (a : Agent)
    (out : List Sent) :
    (get_label_loop env k rs a out).2.1.seq_block.sequence = a.seq_block.sequence ∧
    (get_label_loop env k rs a out).2.1.io_error = a.io_error ∧
    (get_label_loop env k rs a out).2.1.file = a.file ∧
    (get_label_loop env k rs a out).2.1.pwrites = a.pwrites := by
  induction k generalizing rs a out with
  | zero => simp [get_label_loop]
  | succ k ih =>
    unfold get_label_loop
    cases rs with
    | nil => simp [get_label_request]
    | cons r rest =>
      cases r with
      | failed => simp [get_label_request]
      | frame m =>
        dsimp only
        split_ifs
        · simp [get_label_request]
        · have h := ih rest
            { (get_label_request env a).1 with
                response_buffer := m,
                seq_block := (get_label_request env a).1.seq_block.update_label 0 }
            (out ++ [(get_label_request env a).2])
          simpa [get_label_request, SeqBlock.update_label] using h
        · simp [get_label_request]
        · simp [get_label_request]
        · simp [get_label_request]

theorem get_label_sequence (env : Env) (asy : Bool) (rs : List Recv) (a : Agent) :
    (get_label env asy rs a).2.1.seq_block.sequence = a.seq_block.sequence ∧
    (get_label env asy rs a).2.1.io_error = a.io_error ∧
    (get_label env asy rs a).2.1.file = a.file ∧
    (get_label env asy rs a).2.1.pwrites = a.pwrites := by
  unfold get_label
  split_ifs
  · simp
  · simp [get_label_request]
  · exact get_label_loop_sequence env 2 rs a []

/-- What a successful `store_sequence` leaves. -/
theorem store_sequence_ok (w : Bool) (a : Agent) (h : (store_sequence w a).1 = true) :
    (store_sequence w a).2.seq_block.sequence = a.seq_block.sequence ∧
    (store_sequence w a).2.sequence_start = a.seq_block.sequence ∧
    (store_sequence w a).2.file = some (store_sequence w a).2.seq_block ∧
    (store_sequence w a).2.io_error = a.io_error ∧
    (store_sequence w a).2.pwrites = a.pwrites + 1 := by
  unfold store_sequence at h ⊢
  cases w <;> simp at h ⊢

/-- What a successful `restore_sequence_tail` leaves. -/
theorem restore_sequence_tail_ok (env : Env) (w : Bool) (label : Int) (a : Agent)
    (h : (restore_sequence_tail env w label a).1 = true) :
    (restore_sequence_tail env w label a).2.seq_block.sequence
      = (a.seq_block.sequence + (2 * env.steps) % 4294967296) % 4294967296 ∧
    (restore_sequence_tail env w label a).2.sequence_start
      = (restore_sequence_tail env w label a).2.seq_block.sequence ∧
    (restore_sequence_tail env w label a).2.file
      = some (restore_sequence_tail env w label a).2.seq_block ∧
    (restore_sequence_tail env w label a).2.io_error = a.io_error := by
  unfold restore_sequence_tail at h ⊢
  obtain ⟨h1, h2, h3, h4, _⟩ := store_sequence_ok w _ h
  refine ⟨?_, ?_, h3, ?_⟩
  · rw [h1]; simp [SeqBlock.update_label]
  · rw [h1, h2]
  · rw [h4]

/-- A successful restart on a whole block of sequence `d`: the in-memory
sequence, `sequence_start` and the block in the file all carry
`(d + 2*steps) mod 2^32`. -/
theorem restore_sequence_block (env : Env) (b : SeqBlock) (rs : List Recv) (w : Bool)
    (a : Agent) (h : (restore_sequence env (PRead.block b) rs w a).1 = true) :
    (restore_sequence env (PRead.block b) rs w a).2.1.seq_block.sequence
      = (b.sequence + (2 * env.steps) % 4294967296) % 4294967296 ∧
    (restore_sequence env (PRead.block b) rs w a).2.1.sequence_start
      = (restore_sequence env (PRead.block b) rs w a).2.1.seq_block.sequence ∧
    (restore_sequence env (PRead.block b) rs w a).2.1.file
      = some (restore_sequence env (PRead.block b) rs w a).2.1.seq_block ∧
    (restore_sequence env (PRead.block b) rs w a).2.1.io_error = a.io_error := by
  unfold restore_sequence at h ⊢
  dsimp only at h ⊢
  split_ifs at h ⊢
  all_goals first
    | (simp at h; done)
    | exact restore_sequence_tail_ok env w _ _ h
    | (obtain ⟨g1, g2, _, _⟩ := get_label_sequence env false rs { a with seq_block := b }
       obtain ⟨t1, t2, t3, t4⟩ := restore_sequence_tail_ok env w _ _ h
       exact ⟨by rw [t1, g1], t2, t3, by rw [t4, g2]⟩)

/-- The value of a healthy `inc_sequence` whose allocation does not wrap (the
increment after a single allocation may). -/
theorem inc_sequence_value (env : Env) (w : Bool) (deta : Nat) (a : Agent)
    (hs : a.seq_block.sequence ≠ 0)
    (hb : deta ≤ 1 ∨ a.seq_block.sequence + deta < 4294967296)
    (hw : store_needed env a → w = true) :
    (inc_sequence env w deta a).1 = a.seq_block.sequence :=
  (inc_sequence_spec env w deta a hs hb hw).1

/-- C4 as stated fails when `d + 2*steps` passes `2^32`: with `steps = 1` and a
valid block of sequence `d = 4294967295` the restart succeeds and the first
seq handed out is 1, which is below `d + steps`. -/
theorem restart_first_seq_wraps :
    agent_restart_wrap.1 = true ∧
    (inc_sequence local_env_steps1 true 1 agent_restart_wrap.2.1).1 = 1 ∧
    ¬ ((inc_sequence local_env_steps1 true 1 agent_restart_wrap.2.1).1
        ≥ 4294967295 + local_env_steps1.steps) := by
  decide

/-- C4 (amended). After `restore_sequence` succeeds on a store file holding a
valid block of sequence `d`, with `steps ≥ 1` and `d + 2*steps < 2^32` (no
32-bit wrap), the in-memory sequence, `sequence_start` and the block written
to the file all carry `d + 2*steps`, and the first seq handed out, for a count
`n` with `n ≤ 1` or `d + 2*steps + n < 2^32`, is `d + 2*steps ≥ d + steps`. -/
theorem restart_first_seq (env : Env) (b : SeqBlock) (rs : List Recv) (w w1 : Bool) (n : Nat)
    (a : Agent)
    (hr : (restore_sequence env (PRead.block b) rs w a).1 = true)
    (hsteps : 1 ≤ env.steps)
    (hd : b.sequence + 2 * env.steps < 4294967296)
    (hn : n ≤ 1 ∨ b.sequence + 2 * env.steps + n < 4294967296) :
    (restore_sequence env (PRead.block b) rs w a).2.1.seq_block.sequence
      = b.sequence + 2 * env.steps ∧
    (restore_sequence env (PRead.block b) rs w a).2.1.sequence_start
      = b.sequence + 2 * env.steps ∧
    file_sequence (restore_sequence env (PRead.block b) rs w a).2.1
      = b.sequence + 2 * env.steps ∧
    (inc_sequence env w1 n (restore_sequence env (PRead.block b) rs w a).2.1).1
      = b.sequence + 2 * env.steps ∧
    (inc_sequence env w1 n (restore_sequence env (PRead.block b) rs w a).2.1).1
      ≥ b.sequence + env.steps := by
  obtain ⟨h1, h2, h3, _⟩ := restore_sequence_block env b rs w a hr
  have e : (b.sequence + (2 * env.steps) % 4294967296) % 4294967296
      = b.sequence + 2 * env.steps := by omega
  rw [e] at h1
  have hv : (inc_sequence env w1 n (restore_sequence env (PRead.block b) rs w a).2.1).1
      = b.sequence + 2 * env.steps := by
    rw [← h1]
    apply inc_sequence_value
    · rw [h1]; omega
    · rw [h1]; exact hn
    · intro hne
      unfold store_needed at hne
      rw [h2] at hne
      omega
  refine ⟨h1, by rw [h2, h1], ?_, hv, by rw [hv]; omega⟩
  unfold file_sequence
  rw [h3]
  exact h1

/-- A witness of C4 (amended): `local_env` (steps 100) restarted on a block of
sequence 200, then a batch of 5. -/
theorem restart_first_seq_witness :
    (restore_sequence local_env (PRead.block (block_of 7 200 0)) [] true
      (CUidAgent (some (block_of 7 200 0)))).1 = true ∧
    (inc_sequence local_env true 5
      (restore_sequence local_env (PRead.block (block_of 7 200 0)) [] true
        (CUidAgent (some (block_of 7 200 0)))).2.1).1 = (block_of 7 200 0).sequence + 2 * local_env.steps :=
  ⟨by decide,
   (restart_first_seq local_env (block_of 7 200 0) [] true true 5
      (CUidAgent (some (block_of 7 200 0))) (by decide) (by decide) (by decide)
      (by decide)).2.2.2.1⟩

/-! ## What the sequence store leaves alone -/

@[simp] theorem untouched_store_sequence (w : Bool) (a : Agent) :
    untouched (store_sequence w a).2 = untouched a := by
  unfold store_sequence
  cases w <;> simp [untouched]

@[simp] theorem untouched_inc_num_sequence (env : Env) (n : Int) (a : Agent) :
    untouched (inc_num_sequence env n a) = untouched a := by
  unfold inc_num_sequence
  dsimp only
  split_ifs <;> rfl

@[simp] theorem untouched_set_sequence (a : Agent) (x : Nat) :
    untouched { a with seq_block := { a.seq_block with sequence := x } } = untouched a := rfl

@[simp] theorem untouched_inc_sequence_store (env : Env) (w : Bool) (a : Agent) :
    untouched (inc_sequence_store env w a).2 = untouched a := by
  unfold inc_sequence_store
  split_ifs <;> simp

@[simp] theorem untouched_inc_sequence_take (env : Env) (deta : Nat) (a : Agent) :
    untouched (inc_sequence_take env deta a).2 = untouched a := by
  unfold inc_sequence_take
  dsimp only
  split_ifs <;> simp

@[simp] theorem untouched_record_issued (deta : Nat) (t : Nat × Agent) :
    untouched (record_issued deta t).2 = untouched t.2 := by
  unfold record_issued; dsimp only; split_ifs <;> rfl

@[simp] theorem untouched_inc_sequence (env : Env) (w : Bool) (deta : Nat) (a : Agent) :
    untouched (inc_sequence env w deta a).2 = untouched a := by
  unfold inc_sequence
  dsimp only
  split_ifs <;> simp

/-- The members read off `untouched`. -/
theorem untouched_fields {a b : Agent} (h : untouched a = untouched b) :
    a.echo = b.echo ∧ a.current_time = b.current_time ∧ a.last_rent_time = b.last_rent_time ∧
    a.old_seq = b.old_seq ∧ a.old_hour = b.old_hour ∧ a.old_day = b.old_day ∧
    a.old_month = b.old_month ∧ a.old_year = b.old_year ∧ a.old_tm = b.old_tm ∧
    a.old_time = b.old_time ∧ a.request_buffer = b.request_buffer ∧
    a.response_buffer = b.response_buffer ∧ a.response_size = b.response_size ∧
    a.seq_block.label = b.seq_block.label ∧ a.seq_block.timestamp = b.seq_block.timestamp ∧
    a.seq_block.version = b.seq_block.version := by
  simpa [untouched] using h

/-! ## Serving `REQUEST_UNIQ_SEQ` -/

theorem label_expired_local (env : Env) (a : Agent) (h : env.master_nodes = "") :
    label_expired env a = false := by
  unfold label_expired
  rw [if_pos h]

theorem label_expired_congr (env : Env) (a b : Agent)
    (h1 : a.current_time = b.current_time) (h2 : a.seq_block.timestamp = b.seq_block.timestamp) :
    label_expired env a = label_expired env b := by
  unfold label_expired
  rw [h1, h2]

/-- A datagram whose size is its `len` field, and at least the size of a
frame, is routed. -/
theorem on_receive_well_sized (env : Env) (w : Bool) (bytes : Int) (head : MessageHead)
    (a : Agent) (hlen : bytes = (head.len : Int))
    (hsz : (env.sizeof_MessageHead : Int) ≤ bytes) :
    on_receive env w bytes head a = route env w { a with request_buffer := head } := by
  have hb1 : bytes ≠ -1 := by omega
  have hb2 : ¬ bytes < (env.sizeof_MessageHead : Int) := by omega
  have hb3 : ¬ bytes ≠ (head.len : Int) := by simp [hlen]
  unfold on_receive
  rw [if_neg hb1]
  dsimp only
  rw [if_neg hb2, if_neg hb3]

/-- The routing of a `REQUEST_UNIQ_SEQ` frame that is served. -/
theorem route_uniq_seq (env : Env) (w : Bool) (a : Agent)
    (ht : a.request_buffer.type_ = REQUEST_UNIQ_SEQ)
    (hx : label_expired env a = false) (hio : a.io_error = false)
    (hnz : (inc_sequence env w (a.request_buffer.value1 % 65536) a).1 ≠ 0) :
    route env w a =
      (fill_response env RESPONSE_UNIQ_SEQ
          (inc_sequence env w (a.request_buffer.value1 % 65536) a).1 0 0
          (inc_sequence env w (a.request_buffer.value1 % 65536) a).2,
        [{ to_master := false,
           frame := (fill_response env RESPONSE_UNIQ_SEQ
             (inc_sequence env w (a.request_buffer.value1 % 65536) a).1 0 0
             (inc_sequence env w (a.request_buffer.value1 % 65536) a).2).response_buffer }]) := by
  unfold route dispatch prepare_response_get_uniq_seq
  simp [ht, hx, hio, hnz, REQUEST_LABEL, REQUEST_UNIQ_ID, REQUEST_UNIQ_SEQ]

theorem kept_of_untouched {a b : Agent} (h : untouched a = untouched b) : kept a = kept b := by
  have := untouched_fields h
  simp only [kept, Prod.mk.injEq]
  tauto

/-- The second half of `inc_sequence` does not touch the store file. -/
theorem inc_sequence_take_store (env : Env) (deta : Nat) (a : Agent) :
    (inc_sequence_take env deta a).2.sequence_start = a.sequence_start ∧
    (inc_sequence_take env deta a).2.file = a.file ∧
    (inc_sequence_take env deta a).2.pwrites = a.pwrites ∧
    (inc_sequence_take env deta a).2.io_error = a.io_error := by
  unfold inc_sequence_take
  dsimp only
  split_ifs <;> simp

/-- A healthy `inc_sequence` and the store file: nothing is written unless the
guard asks for it; if it does, the block written carries the in-memory
sequence from before the allocation. -/
theorem inc_sequence_file (env : Env) (w : Bool) (deta : Nat) (a : Agent)
    (hw : store_needed env a → w = true) :
    (inc_sequence env w deta a).2.io_error = a.io_error ∧
    (¬ store_needed env a →
      (inc_sequence env w deta a).2.sequence_start = a.sequence_start ∧
      (inc_sequence env w deta a).2.file = a.file ∧
      (inc_sequence env w deta a).2.pwrites = a.pwrites) ∧
    (store_needed env a →
      (inc_sequence env w deta a).2.sequence_start = a.seq_block.sequence ∧
      file_sequence (inc_sequence env w deta a).2 = a.seq_block.sequence ∧
      (inc_sequence env w deta a).2.pwrites = a.pwrites + 1) := by
  obtain ⟨h1, _⟩ := inc_sequence_store_healthy env w a hw
  obtain ⟨t1, t2, t3, t4⟩ := inc_sequence_take_store env deta (inc_sequence_store env w a).2
  have e : inc_sequence env w deta a
      = record_issued deta (inc_sequence_take env deta (inc_sequence_store env w a).2) := by
    unfold inc_sequence
    dsimp only
    rw [if_neg (by simp [h1])]
  rw [e]
  unfold file_sequence
  rw [record_issued_io_error, record_issued_sequence_start, record_issued_file,
    record_issued_pwrites, t1, t2, t3, t4]
  by_cases hn : store_needed env a
  · have hw1 := hw hn
    subst hw1
    have hn' := hn
    unfold store_needed at hn'
    unfold inc_sequence_store
    rw [if_pos hn']
    simp [store_sequence, hn]
  · have hn' := hn
    unfold store_needed at hn'
    unfold inc_sequence_store
    rw [if_neg hn']
    simp [hn]

/-- One served `REQUEST_UNIQ_SEQ` that does not wrap: the reply, the new
in-memory sequence, and the store file. -/
theorem on_event_seq_request (env : Env) (n : Nat) (e : Event) (a : Agent)
    (he : seq_request env n e)
    (hx : label_expired env a = false) (hio : a.io_error = false)
    (hs : a.seq_block.sequence ≠ 0)
    (hb : n ≤ 1 ∨ a.seq_block.sequence + n < 4294967296) :
    (client_replies (on_event env e a).2).map (fun m => (m.type_, m.value1))
      = [(RESPONSE_UNIQ_SEQ, a.seq_block.sequence)] ∧
    (on_event env e a).1.seq_block.sequence = (a.seq_block.sequence + max n 1) % 4294967296 ∧
    (on_event env e a).1.io_error = false ∧
    kept (on_event env e a).1 = kept a ∧
    (¬ store_needed env a →
      (on_event env e a).1.sequence_start = a.sequence_start ∧
      (on_event env e a).1.file = a.file ∧
      (on_event env e a).1.pwrites = a.pwrites) ∧
    (store_needed env a →
      (on_event env e a).1.sequence_start = a.seq_block.sequence ∧
      file_sequence (on_event env e a).1 = a.seq_block.sequence ∧
      (on_event env e a).1.pwrites = a.pwrites + 1) := by
  cases e with
  | timer now => exact absurd he (by simp [seq_request])
  | receive w bytes head =>
    obtain ⟨hw, hlen, hsz, ht, hv⟩ := he
    subst hw
    have hx0 : label_expired env { a with request_buffer := head } = false := by
      rw [← hx]; exact label_expired_congr _ _ _ rfl rfl
    obtain ⟨s1, s2⟩ := inc_sequence_spec env true n { a with request_buffer := head } hs hb
      (fun _ => rfl)
    obtain ⟨f1, f2, f3⟩ := inc_sequence_file env true n { a with request_buffer := head }
      (fun _ => rfl)
    have hk := kept_of_untouched (untouched_inc_sequence env true n
      { a with request_buffer := head })
    have hr := route_uniq_seq env true { a with request_buffer := head } ht hx0 hio
      (by dsimp only; rw [hv, s1]; exact hs)
    dsimp only at hr
    rw [hv] at hr
    unfold on_event
    dsimp only
    rw [on_receive_well_sized env true bytes head a hlen hsz, hr]
    refine ⟨?_, ?_, ?_, ?_, ?_, ?_⟩
    · simp [client_replies, fill_response, MessageHead.update_magic, s1]
    · simpa [fill_response] using s2
    · simpa [fill_response, hio] using f1
    · exact hk
    · intro hn
      exact f2 hn
    · intro hn
      exact f3 hn

/-! ## Runs -/

theorem client_replies_append (xs ys : List Sent) :
    client_replies (xs ++ ys) = client_replies xs ++ client_replies ys := by
  simp [client_replies]

theorem on_run_cons (env : Env) (e : Event) (es : List Event) (a : Agent) :
    on_run env (e :: es) a
      = ((on_run env es (on_event env e a).1).1,
         (on_event env e a).2 ++ (on_run env es (on_event env e a).1).2) := rfl

theorem on_run_append (env : Env) (xs ys : List Event) (a : Agent) :
    on_run env (xs ++ ys) a
      = ((on_run env ys (on_run env xs a).1).1,
         (on_run env xs a).2 ++ (on_run env ys (on_run env xs a).1).2) := by
  induction xs generalizing a with
  | nil => simp [on_run]
  | cons x xs ih =>
    rw [List.cons_append, on_run_cons, on_run_cons, ih]
    simp

theorem on_run_snoc (env : Env) (xs : List Event) (e : Event) (a : Agent) :
    on_run env (xs ++ [e]) a
      = ((on_event env e (on_run env xs a).1).1,
         (on_run env xs a).2 ++ (on_event env e (on_run env xs a).1).2) := by
  rw [on_run_append, on_run_cons]
  simp [on_run]

theorem on_run_cons_snoc (env : Env) (e1 : Event) (mid : List Event) (e2 : Event) (a : Agent) :
    on_run env (e1 :: (mid ++ [e2])) a
      = ((on_event env e2 (on_run env mid (on_event env e1 a).1).1).1,
         (on_event env e1 a).2 ++ ((on_run env mid (on_event env e1 a).1).2 ++
           (on_event env e2 (on_run env mid (on_event env e1 a).1).1).2)) := by
  rw [on_run_cons, on_run_snoc]

theorem on_run_cons_snoc_state (env : Env) (e1 : Event) (mid : List Event) (e2 : Event)
    (a : Agent) :
    (on_run env (e1 :: (mid ++ [e2])) a).1
      = (on_event env e2 (on_run env mid (on_event env e1 a).1).1).1 := by
  rw [on_run_cons_snoc]

/-- What a successful `restore_sequence_first` leaves. -/
theorem restore_sequence_first_ok (env : Env) (w : Bool) (label : Int) (a : Agent)
    (h : (restore_sequence_first env w label a).1 = true) :
    (restore_sequence_first env w label a).2.seq_block.sequence = env.steps % 4294967296 ∧
    (restore_sequence_first env w label a).2.sequence_start = env.steps % 4294967296 ∧
    (restore_sequence_first env w label a).2.file
      = some (restore_sequence_first env w label a).2.seq_block ∧
    (restore_sequence_first env w label a).2.io_error = a.io_error ∧
    (restore_sequence_first env w label a).2.pwrites = a.pwrites + 1 := by
  unfold restore_sequence_first at h ⊢
  obtain ⟨h1, h2, h3, h4, h5⟩ := store_sequence_ok w _ h
  refine ⟨?_, ?_, h3, ?_, ?_⟩
  · rw [h1]; simp [SeqBlock.update_label]
  · rw [h2]; simp [SeqBlock.update_label]
  · rw [h4]
  · rw [h5]

/-- A successful `restore_sequence` on an empty store file. -/
theorem restore_sequence_eof (env : Env) (rs : List Recv) (w : Bool) (a : Agent)
    (h : (restore_sequence env PRead.eof rs w a).1 = true) :
    (restore_sequence env PRead.eof rs w a).2.1.seq_block.sequence = env.steps % 4294967296 ∧
    (restore_sequence env PRead.eof rs w a).2.1.sequence_start = env.steps % 4294967296 ∧
    (restore_sequence env PRead.eof rs w a).2.1.file
      = some (restore_sequence env PRead.eof rs w a).2.1.seq_block ∧
    (restore_sequence env PRead.eof rs w a).2.1.io_error = a.io_error ∧
    (restore_sequence env PRead.eof rs w a).2.1.pwrites = a.pwrites + 1 := by
  unfold restore_sequence at h ⊢
  dsimp only at h ⊢
  split_ifs at h ⊢
  obtain ⟨t1, t2, t3, t4, t5⟩ := restore_sequence_first_ok env w _ _ h
  obtain ⟨_, g2, _, g4⟩ := get_label_sequence env false rs a
  exact ⟨t1, t2, t3, by rw [t4, g2], by rw [t5, g4]⟩

/-- A run of count-1 `REQUEST_UNIQ_SEQ` requests in local mode, from
in-memory sequence `s ≠ 0`, is answered with `s, s+1, ...` as long as these
stay below `2^32`. -/
theorem on_run_seq_requests (env : Env) (evs : List Event) (a : Agent)
    (hlocal : env.master_nodes = "")
    (hev : ∀ e ∈ evs, seq_request env 1 e)
    (hio : a.io_error = false)
    (hs : a.seq_block.sequence ≠ 0)
    (hb : a.seq_block.sequence + evs.length ≤ 4294967296) :
    (client_replies (on_run env evs a).2).map (fun m => (m.type_, m.value1))
      = (List.range' a.seq_block.sequence evs.length).map (fun v => (RESPONSE_UNIQ_SEQ, v)) := by
  induction evs generalizing a with
  | nil => simp [on_run, client_replies]
  | cons e es ih =>
    have he : seq_request env 1 e := hev e (List.mem_cons_self _ _)
    obtain ⟨r1, r2, r3, _, _, _⟩ := on_event_seq_request env 1 e a he
      (label_expired_local env a hlocal) hio hs (Or.inl (le_refl 1))
    rw [on_run_cons]
    dsimp only
    rw [client_replies_append, List.map_append, r1, List.length_cons, List.range'_succ,
      List.map_cons]
    cases es with
    | nil => simp [on_run, client_replies]
    | cons e2 es2 =>
      have hlen : a.seq_block.sequence + 2 ≤ 4294967296 := by
        simp only [List.length_cons] at hb; omega
      have r2' : (on_event env e a).1.seq_block.sequence = a.seq_block.sequence + 1 := by
        rw [r2]; simp; omega
      have := ih (on_event env e a).1 (fun x hx => hev x (List.mem_cons_of_mem _ hx)) r3
        (by rw [r2']; omega) (by rw [r2']; simp only [List.length_cons] at hb ⊢; omega)
      rw [this, r2']
      rfl

/-! ## First start (C7, C8) -/

/-- C7. Starting from an empty store in local mode with `steps = s ≥ 1`, while
`pwrite` works, the replies to `k` consecutive count-1 `REQUEST_UNIQ_SEQ`
requests are `RESPONSE_UNIQ_SEQ` frames carrying `s, s+1, ..., s+k-1` in this
order, as long as `s + k - 1 < 2^32`: the `k`-th one carries `s + k - 1`. -/
theorem uniq_seq_from_empty_store (env : Env) (rs : List Recv) (w : Bool) (a : Agent)
    (evs : List Event)
    (hlocal : env.master_nodes = "")
    (hsteps : 1 ≤ env.steps)
    (hio : a.io_error = false)
    (hr : (restore_sequence env PRead.eof rs w a).1 = true)
    (hev : ∀ e ∈ evs, seq_request env 1 e)
    (hb : env.steps + evs.length ≤ 4294967296) :
    (client_replies (on_run env evs (restore_sequence env PRead.eof rs w a).2.1).2).map
        (fun m => (m.type_, m.value1))
      = (List.range' env.steps evs.length).map (fun v => (RESPONSE_UNIQ_SEQ, v)) := by
  obtain ⟨h1, _, _, h4, _⟩ := restore_sequence_eof env rs w a hr
  have hlt : env.steps < 4294967296 ∨ evs = [] := by
    cases evs with
    | nil => exact Or.inr rfl
    | cons e es => left; simp only [List.length_cons] at hb; omega
  rcases hlt with hlt | hnil
  · have h1' : (restore_sequence env PRead.eof rs w a).2.1.seq_block.sequence = env.steps := by
      rw [h1]; omega
    have := on_run_seq_requests env evs (restore_sequence env PRead.eof rs w a).2.1 hlocal hev
      (by rw [h4]; exact hio) (by rw [h1']; omega) (by rw [h1']; exact hb)
    rw [this, h1']
  · subst hnil
    simp [on_run, client_replies]

/-- A witness of C7, scenario S1: with `steps = 100` the replies to 101
requests carry 100, ..., 200; the first carries 100, the 100th 199 and the
101st 200. -/
theorem uniq_seq_from_empty_store_witness :
    (client_replies (on_run local_env (List.replicate 101 seq_request_1) fresh_agent).2).map
        (fun m => (m.type_, m.value1))
      = (List.range' 100 101).map (fun v => (RESPONSE_UNIQ_SEQ, v)) ∧
    ((List.range' 100 101).map (fun v => (RESPONSE_UNIQ_SEQ, v)))[0]? = some (6, 100) ∧
    ((List.range' 100 101).map (fun v => (RESPONSE_UNIQ_SEQ, v)))[99]? = some (6, 199) ∧
    ((List.range' 100 101).map (fun v => (RESPONSE_UNIQ_SEQ, v)))[100]? = some (6, 200) :=
  ⟨uniq_seq_from_empty_store local_env [] true (CUidAgent none)
      (List.replicate 101 seq_request_1) rfl (by decide) rfl (by decide)
      (fun e he => by
        rw [List.eq_of_mem_replicate he]
        exact ⟨rfl, rfl, by decide, rfl, rfl⟩)
      (by decide),
    by decide, by decide, by decide⟩

set_option maxRecDepth 1000000 in
/-- C8 as stated fails: from an empty store with `steps = 100`, the 101st
count-1 request is answered with 200 without any block write; the file still
holds sequence 100 after it. -/
theorem no_block_rewrite_at_request_101 :
    (on_run local_env (List.replicate 101 seq_request_1) fresh_agent).1.pwrites
      = fresh_agent.pwrites ∧
    (on_run local_env (List.replicate 101 seq_request_1) fresh_agent).1.file
      = fresh_agent.file ∧
    file_sequence (on_run local_env (List.replicate 101 seq_request_1) fresh_agent).1 = 100 ∧
    ¬ (file_sequence (on_run local_env (List.replicate 101 seq_request_1) fresh_agent).1 = 200) ∧
    ((client_replies (on_run local_env (List.replicate 101 seq_request_1) fresh_agent).2).map
        (fun m => (m.type_, m.value1)))[100]? = some (RESPONSE_UNIQ_SEQ, 200) := by
  decide

/-- Count-1 requests served while the in-memory sequence stays inside the
window `[sequence_start, sequence_start + steps]` at their start: nothing is
written to the store file. -/
theorem on_run_seq_requests_window (env : Env) (evs : List Event) (a : Agent)
    (hlocal : env.master_nodes = "")
    (hev : ∀ e ∈ evs, seq_request env 1 e)
    (hio : a.io_error = false)
    (hs : a.seq_block.sequence ≠ 0)
    (hge : a.sequence_start ≤ a.seq_block.sequence)
    (hwin : a.seq_block.sequence - a.sequence_start + evs.length ≤ env.steps + 1)
    (hb : a.seq_block.sequence + evs.length < 4294967296) :
    (on_run env evs a).1.seq_block.sequence = a.seq_block.sequence + evs.length ∧
    (on_run env evs a).1.sequence_start = a.sequence_start ∧
    (on_run env evs a).1.file = a.file ∧
    (on_run env evs a).1.pwrites = a.pwrites ∧
    (on_run env evs a).1.io_error = false := by
  induction evs generalizing a with
  | nil => simp [on_run, hio]
  | cons e es ih =>
    simp only [List.length_cons] at hwin hb ⊢
    have he : seq_request env 1 e := hev e (List.mem_cons_self _ _)
    have hns : ¬ store_needed env a := by
      unfold store_needed
      omega
    obtain ⟨_, r2, r3, _, r5, _⟩ := on_event_seq_request env 1 e a he
      (label_expired_local env a hlocal) hio hs (Or.inl (le_refl 1))
    obtain ⟨n1, n2, n3⟩ := r5 hns
    have r2' : (on_event env e a).1.seq_block.sequence = a.seq_block.sequence + 1 := by
      rw [r2]; simp; omega
    obtain ⟨i1, i2, i3, i4, i5⟩ := ih (on_event env e a).1
      (fun x hx => hev x (List.mem_cons_of_mem _ hx)) r3 (by rw [r2']; omega)
      (by rw [r2', n1]; omega) (by rw [r2', n1]; omega) (by rw [r2']; omega)
    rw [on_run_cons]
    dsimp only
    refine ⟨?_, ?_, ?_, ?_, i5⟩
    · rw [i1, r2']; omega
    · rw [i2, n1]
    · rw [i3, n2]
    · rw [i4, n3]

/-- C8 (amended). Starting from an empty store in local mode with
`steps = s ≥ 1`, while `pwrite` works, requests 1 to `s + 1` of a run of
count-1 `REQUEST_UNIQ_SEQ` requests do not write the store file, which keeps
the block of sequence `s`; request `s + 2` writes it once, with sequence
`2*s + 1`, and is answered with `2*s + 1`. For `s = 100`: requests 1 to 101 do
not rewrite the block, the 102nd rewrites it to sequence 201 and returns 201. -/
theorem block_rewrite_after_window (env : Env) (rs : List Recv) (w : Bool) (a : Agent)
    (evs : List Event) (e : Event)
    (hlocal : env.master_nodes = "")
    (hsteps : 1 ≤ env.steps)
    (hb : 2 * env.steps + 2 ≤ 4294967296)
    (hio : a.io_error = false)
    (hr : (restore_sequence env PRead.eof rs w a).1 = true)
    (hev : ∀ x ∈ evs, seq_request env 1 x)
    (he : seq_request env 1 e)
    (hlen : evs.length ≤ env.steps + 1) :
    file_sequence (restore_sequence env PRead.eof rs w a).2.1 = env.steps ∧
    (on_run env evs (restore_sequence env PRead.eof rs w a).2.1).1.pwrites
      = (restore_sequence env PRead.eof rs w a).2.1.pwrites ∧
    (on_run env evs (restore_sequence env PRead.eof rs w a).2.1).1.file
      = (restore_sequence env PRead.eof rs w a).2.1.file ∧
    (evs.length = env.steps + 1 →
      (on_event env e (on_run env evs (restore_sequence env PRead.eof rs w a).2.1).1).1.pwrites
        = (restore_sequence env PRead.eof rs w a).2.1.pwrites + 1 ∧
      file_sequence (on_event env e (on_run env evs (restore_sequence env PRead.eof rs w a).2.1).1).1
        = 2 * env.steps + 1 ∧
      (client_replies
          (on_event env e (on_run env evs (restore_sequence env PRead.eof rs w a).2.1).1).2).map
          (fun m => (m.type_, m.value1))
        = [(RESPONSE_UNIQ_SEQ, 2 * env.steps + 1)]) := by
  obtain ⟨h1, h2, h3, h4, _⟩ := restore_sequence_eof env rs w a hr
  have e1 : env.steps % 4294967296 = env.steps := by omega
  rw [e1] at h1 h2
  obtain ⟨i1, i2, i3, i4, i5⟩ := on_run_seq_requests_window env evs
    (restore_sequence env PRead.eof rs w a).2.1 hlocal hev (by rw [h4]; exact hio)
    (by rw [h1]; omega) (by rw [h1, h2]) (by rw [h1, h2]; omega) (by rw [h1]; omega)
  refine ⟨?_, i4, i3, ?_⟩
  · unfold file_sequence
    rw [h3]
    exact h1
  · intro hl
    rw [h1, hl] at i1
    rw [h2] at i2
    have hn : store_needed env (on_run env evs (restore_sequence env PRead.eof rs w a).2.1).1 := by
      unfold store_needed
      rw [i1, i2]
      omega
    obtain ⟨r1, _, _, _, _, r6⟩ := on_event_seq_request env 1 e
      (on_run env evs (restore_sequence env PRead.eof rs w a).2.1).1 he
      (label_expired_local env _ hlocal) i5 (by rw [i1]; omega) (Or.inl (le_refl 1))
    obtain ⟨_, s2, s3⟩ := r6 hn
    refine ⟨by rw [s3, i4], ?_, ?_⟩
    · rw [s2, i1]; omega
    · rw [r1, i1]
      have : env.steps + (env.steps + 1) = 2 * env.steps + 1 := by omega
      rw [this]

set_option maxRecDepth 1000000 in
/-- A witness of C8 (amended), scenario S1 with `steps = 100`: 101 requests
leave the file alone, the 102nd writes sequence 201 and returns 201. -/
theorem block_rewrite_after_window_witness :
    file_sequence fresh_agent = 100 ∧
    (on_run local_env (List.replicate 101 seq_request_1) fresh_agent).1.pwrites
      = fresh_agent.pwrites ∧
    (on_run local_env (List.replicate 101 seq_request_1) fresh_agent).1.file
      = fresh_agent.file ∧
    ((List.replicate 101 seq_request_1).length = 100 + 1 →
      (on_event local_env seq_request_1
          (on_run local_env (List.replicate 101 seq_request_1) fresh_agent).1).1.pwrites
        = fresh_agent.pwrites + 1 ∧
      file_sequence (on_event local_env seq_request_1
          (on_run local_env (List.replicate 101 seq_request_1) fresh_agent).1).1 = 2 * 100 + 1 ∧
      (client_replies (on_event local_env seq_request_1
          (on_run local_env (List.replicate 101 seq_request_1) fresh_agent).1).2).map
          (fun m => (m.type_, m.value1))
        = [(RESPONSE_UNIQ_SEQ, 2 * 100 + 1)]) :=
  block_rewrite_after_window local_env [] true (CUidAgent none)
    (List.replicate 101 seq_request_1) seq_request_1 rfl (by decide) (by decide) rfl (by decide)
    (fun x hx => by
      rw [List.eq_of_mem_replicate hx]
      exact ⟨rfl, rfl, by decide, rfl, rfl⟩)
    ⟨rfl, rfl, by decide, rfl, rfl⟩ (by decide)

/-! ## Label expiry (C9) -/

/-- C9 as stated fails in local mode (no master nodes): `label_expired`
returns false whatever the clock, and requests are served. Here the clock is
1700000000, the block's timestamp is 0 and `expire` is 3600. -/
theorem label_never_expires_in_local_mode :
    fresh_agent_later.current_time - to_time_t fresh_agent_later.seq_block.timestamp
      > (local_env.expire : Int) ∧
    label_expired local_env fresh_agent_later = false ∧
    (on_event local_env seq_request_1 fresh_agent_later).2.map
        (fun s => (s.to_master, s.frame.type_, s.frame.value1))
      = [(false, RESPONSE_UNIQ_SEQ, 100)] ∧
    (on_event local_env seq_request_1 fresh_agent_later).1.seq_block.sequence = 101 := by
  decide

theorem to_time_t_of_lt (x : Nat) (h : x < 9223372036854775808) : to_time_t x = (x : Int) := by
  unfold to_time_t
  have : x % 18446744073709551616 = x := by omega
  rw [this, if_pos h]

/-- The routing of a request frame of one of the three sequence-consuming
types while the label is expired. -/
theorem route_label_expired (env : Env) (w : Bool) (a : Agent)
    (ht : a.request_buffer.type_ = REQUEST_UNIQ_ID ∨ a.request_buffer.type_ = REQUEST_UNIQ_SEQ ∨
      a.request_buffer.type_ = REQUEST_LABEL_AND_SEQ)
    (hx : label_expired env a = true) :
    route env w a =
      (prepare_response_error env MUE_LABEL_EXPIRED a,
        [{ to_master := false,
           frame := (prepare_response_error env MUE_LABEL_EXPIRED a).response_buffer }]) := by
  unfold route dispatch prepare_response_get_uniq_id prepare_response_get_uniq_seq
    prepare_response_get_label_and_seq
  rcases ht with ht | ht | ht <;>
    simp [ht, hx, REQUEST_LABEL, REQUEST_UNIQ_ID, REQUEST_UNIQ_SEQ, REQUEST_LABEL_AND_SEQ,
      MUE_LABEL_EXPIRED]

/-- C9 (amended). When master nodes are configured, `label_expired()` is true
if and only if the difference `_current_time - (time_t) block.timestamp`, as
the agent computes it on 64 bits, is greater than `expire`; that difference is
`now - block.timestamp` whenever `block.timestamp` is below `2^63` and `now` is
a `time_t` that is not negative, and then `label_expired()` is true if and
only if `now - block.timestamp > expire`. Whenever `label_expired()` is true,
every well-sized `REQUEST_UNIQ_ID`, `REQUEST_UNIQ_SEQ` and
`REQUEST_LABEL_AND_SEQ` frame gets exactly one frame back, a `RESPONSE_ERROR`
with `value1 = LABEL_EXPIRED` and the request's echo, while the block in
memory (so the in-memory sequence), `sequence_start`, the store file, the
number of writes, the uncommitted counter and `io_error` stay as they are. -/
theorem label_expiry_gates_service (env : Env) (a : Agent) (hm : env.master_nodes ≠ "") :
    (label_expired env a = true ↔
      wrap_time_t (a.current_time - to_time_t a.seq_block.timestamp) > (env.expire : Int)) ∧
    (a.seq_block.timestamp < 9223372036854775808 →
      0 ≤ a.current_time → a.current_time < 9223372036854775808 →
      (label_expired env a = true ↔
        a.current_time - (a.seq_block.timestamp : Int) > (env.expire : Int))) ∧
    (label_expired env a = true →
      ∀ (w : Bool) (bytes : Int) (head : MessageHead),
        bytes = (head.len : Int) → (env.sizeof_MessageHead : Int) ≤ bytes →
        (head.type_ = REQUEST_UNIQ_ID ∨ head.type_ = REQUEST_UNIQ_SEQ ∨
          head.type_ = REQUEST_LABEL_AND_SEQ) →
        (on_receive env w bytes head a).2.map
            (fun s => (s.to_master, s.frame.type_, s.frame.value1, s.frame.echo))
          = [(false, RESPONSE_ERROR, 201600004, head.echo)] ∧
        (on_receive env w bytes head a).1.seq_block = a.seq_block ∧
        (on_receive env w bytes head a).1.sequence_start = a.sequence_start ∧
        (on_receive env w bytes head a).1.file = a.file ∧
        (on_receive env w bytes head a).1.pwrites = a.pwrites ∧
        (on_receive env w bytes head a).1.num_sequences = a.num_sequences ∧
        (on_receive env w bytes head a).1.io_error = a.io_error) := by
  have hiff : label_expired env a = true ↔
      wrap_time_t (a.current_time - to_time_t a.seq_block.timestamp) > (env.expire : Int) := by
    unfold label_expired
    rw [if_neg hm]
    simp
  refine ⟨hiff, ?_, ?_⟩
  · intro hts h0 h1
    rw [hiff]
    have e : wrap_time_t (a.current_time - to_time_t a.seq_block.timestamp)
        = a.current_time - (a.seq_block.timestamp : Int) := by
      unfold wrap_time_t to_time_t
      have hmod : a.seq_block.timestamp % 18446744073709551616 = a.seq_block.timestamp :=
        Nat.mod_eq_of_lt (by omega)
      rw [hmod, if_pos hts]
      omega
    rw [e]
  · intro hexp w bytes head hlen hsz ht
    have hx : label_expired env { a with request_buffer := head } = true := by
      rw [label_expired_congr env { a with request_buffer := head } a rfl rfl]
      exact hexp
    rw [on_receive_well_sized env w bytes head a hlen hsz,
      route_label_expired env w { a with request_buffer := head } ht hx]
    simp [prepare_response_error, fill_response, MessageHead.update_magic, MUE_LABEL_EXPIRED]

/-- A witness of C9 (amended): `master_env`, clock 1700000000, block timestamp
0, a `REQUEST_UNIQ_ID` frame; and `wrapped_agent`, whose block timestamp is
`2^63`: the difference wraps to a negative number and the label has not
expired, so the request is served. -/
theorem label_expiry_gates_service_witness :
    master_env.master_nodes ≠ "" ∧
    label_expired master_env expired_agent = true ∧
    (on_receive master_env true 30 (request_frame REQUEST_UNIQ_ID 3 5 0) expired_agent).2.map
        (fun s => (s.to_master, s.frame.type_, s.frame.value1, s.frame.echo))
      = [(false, RESPONSE_ERROR, 201600004, 3)] ∧
    (label_expired master_env wrapped_agent = true ↔
      wrap_time_t (1700000000 - to_time_t 9223372036854775808) > 3600) ∧
    label_expired master_env wrapped_agent = false ∧
    (on_receive master_env true 30 (request_frame REQUEST_UNIQ_SEQ 3 1 0) wrapped_agent).2.map
        (fun s => (s.to_master, s.frame.type_, s.frame.value1, s.frame.echo))
      = [(false, RESPONSE_UNIQ_SEQ, 100, 3)] :=
  ⟨by decide,
   ((label_expiry_gates_service master_env expired_agent (by decide)).2.1
      (by decide) (by decide) (by decide)).mpr (by decide),
   ((label_expiry_gates_service master_env expired_agent (by decide)).2.2 (by decide)
      true 30 (request_frame REQUEST_UNIQ_ID 3 5 0) rfl (by decide) (Or.inl rfl)).1,
   (label_expiry_gates_service master_env wrapped_agent (by decide)).1,
   by decide, by decide⟩

/-! ## Magic check of the dispatcher (C10) -/

/-- C10, at the failing input. A well-sized `REQUEST_UNIQ_SEQ` frame whose
magic (5) differs from `calc_magic()` (0) is served like any other: the agent
replies `RESPONSE_UNIQ_SEQ` with seq 100 and the in-memory sequence and the
uncommitted counter advance. The check at `agent.cpp` lines 350-357 only
logs, the assignment `errcode = ERROR_ILLEGAL` being commented out. A frame of
type `RESPONSE_LABEL` with the same wrong magic is dropped (lines 388-394): no
frame is sent and the block is unchanged. -/
theorem wrong_magic_request_is_served :
    (wrong_magic_request.len : Int) = 30 ∧
    local_env.calc_magic wrong_magic_request % 4294967296 ≠ wrong_magic_request.magic ∧
    (on_receive local_env true 30 wrong_magic_request fresh_agent).2.map
        (fun s => (s.to_master, s.frame.type_, s.frame.value1, s.frame.echo))
      = [(false, RESPONSE_UNIQ_SEQ, 100, 9)] ∧
    fresh_agent.seq_block.sequence = 100 ∧
    (on_receive local_env true 30 wrong_magic_request fresh_agent).1.seq_block.sequence = 101 ∧
    fresh_agent.num_sequences = 0 ∧
    (on_receive local_env true 30 wrong_magic_request fresh_agent).1.num_sequences = 1 ∧
    (on_receive local_env true 30 { wrong_magic_request with type_ := RESPONSE_LABEL }
        fresh_agent).2 = [] ∧
    (on_receive local_env true 30 { wrong_magic_request with type_ := RESPONSE_LABEL }
        fresh_agent).1.seq_block = fresh_agent.seq_block := by
  decide

/-! ## Failed writes and restarts -/

/-- An `inc_sequence` whose block write fails hands out nothing and leaves the
sequence, `sequence_start` and the file as they were. -/
theorem inc_sequence_failed (env : Env) (deta : Nat) (a : Agent) (hn : store_needed env a) :
    (inc_sequence env false deta a).1 = 0 ∧
    (inc_sequence env false deta a).2.seq_block.sequence = a.seq_block.sequence ∧
    (inc_sequence env false deta a).2.sequence_start = a.sequence_start ∧
    (inc_sequence env false deta a).2.file = a.file := by
  unfold store_needed at hn
  unfold inc_sequence inc_sequence_store
  rw [if_pos hn]
  simp [store_sequence]

/-- A successful `restore_sequence`, whatever the file held: `sequence_start`
and the block in the file carry the in-memory sequence. -/
theorem restore_sequence_ok (env : Env) (rd : PRead) (rs : List Recv) (w : Bool) (a : Agent)
    (h : (restore_sequence env rd rs w a).1 = true) :
    (restore_sequence env rd rs w a).2.1.sequence_start
      = (restore_sequence env rd rs w a).2.1.seq_block.sequence ∧
    file_sequence (restore_sequence env rd rs w a).2.1
      = (restore_sequence env rd rs w a).2.1.seq_block.sequence := by
  cases rd with
  | open_failed => simp [restore_sequence] at h
  | read_error => simp [restore_sequence] at h
  | truncated => simp [restore_sequence] at h
  | eof =>
    obtain ⟨h1, h2, h3, _, _⟩ := restore_sequence_eof env rs w a h
    refine ⟨by rw [h1, h2], ?_⟩
    unfold file_sequence
    rw [h3]
  | block b =>
    obtain ⟨_, h2, h3, _⟩ := restore_sequence_block env b rs w a h
    refine ⟨h2, ?_⟩
    unfold file_sequence
    rw [h3]

/-! ## Id assembly and the 29-bit sequence field (C1) -/

/-- The packed value depends on the agent only through the members collected
by `kept`. -/
theorem get_uniq_id_pack_congr (request : MessageHead) (seq : Nat) (a b : Agent)
    (hk : kept a = kept b) :
    (get_uniq_id_pack request seq a).1 = (get_uniq_id_pack request seq b).1 := by
  simp only [kept, Prod.mk.injEq] at hk
  obtain ⟨_, h2, _, h4, h5, h6, h7, h8, h9, h10, h11, _, _⟩ := hk
  unfold get_uniq_id_pack
  dsimp only
  split_ifs <;> simp_all

/-- The refreshed cache depends on the agent only through the members
collected by `kept`. -/
theorem get_uniq_id_refresh_congr (env : Env) (request : MessageHead) (a b : Agent)
    (hk : kept a = kept b) :
    (get_uniq_id_refresh env request a).map kept
      = (get_uniq_id_refresh env request b).map kept := by
  have hk0 := hk
  simp only [kept, Prod.mk.injEq] at hk
  obtain ⟨_, h2, _, h4, h5, h6, h7, h8, h9, h10, h11, _, _⟩ := hk
  unfold get_uniq_id_refresh
  dsimp only
  rw [h2, h10]
  have key : ∀ t : Int,
      Option.map kept
        (match env.localtime t with
          | none => none
          | some tm => some { a with current_time := b.current_time, old_tm := tm, old_time := t })
      = Option.map kept
        (match env.localtime t with
          | none => none
          | some tm => some { b with old_tm := tm, old_time := t }) := by
    intro t
    cases env.localtime t with
    | none => rfl
    | some tm => simp_all [kept]
  split_ifs <;> first | exact key _ | simp only [Option.map_some', hk0]

/-- The assembled value depends on the agent only through the members
collected by `kept`. -/
theorem get_uniq_id_assemble_congr (env : Env) (request : MessageHead) (seq : Nat)
    (a b : Agent) (hk : kept a = kept b) :
    (get_uniq_id_assemble env request seq a).map Prod.fst
      = (get_uniq_id_assemble env request seq b).map Prod.fst := by
  have hr := get_uniq_id_refresh_congr env request a b hk
  unfold get_uniq_id_assemble
  cases ha : get_uniq_id_refresh env request a with
  | none =>
    cases hb : get_uniq_id_refresh env request b with
    | none => rfl
    | some b2 => rw [ha, hb] at hr; simp at hr
  | some a2 =>
    cases hb : get_uniq_id_refresh env request b with
    | none => rw [ha, hb] at hr; simp at hr
    | some b2 =>
      rw [ha, hb] at hr
      simp only [Option.map_some', Option.some.injEq] at hr ⊢
      exact get_uniq_id_pack_congr request seq a2 b2 hr

/-- The value of a healthy `get_uniq_id` from a nonzero in-memory sequence. -/
theorem get_uniq_id_value (env : Env) (w : Bool) (request : MessageHead) (a : Agent)
    (hs : a.seq_block.sequence ≠ 0)
    (hw : store_needed env a → w = true) :
    (get_uniq_id env w request a).map Prod.fst
      = (get_uniq_id_assemble env request a.seq_block.sequence a).map Prod.fst := by
  obtain ⟨s1, _⟩ := inc_sequence_spec env w 1 a hs (Or.inl (le_refl 1)) hw
  have hk := kept_of_untouched (untouched_inc_sequence env w 1 a)
  unfold get_uniq_id
  dsimp only
  rw [s1, if_neg hs]
  exact get_uniq_id_assemble_congr env request _ _ _ hk

/-- The routing of a `REQUEST_UNIQ_ID` frame that is served with an id. -/
theorem route_uniq_id (env : Env) (w : Bool) (a : Agent) (v : Nat)
    (ht : a.request_buffer.type_ = REQUEST_UNIQ_ID)
    (hx : label_expired env a = false) (hio : a.io_error = false)
    (hv : (get_uniq_id env w a.request_buffer a).map Prod.fst = some v)
    (h0 : v ≠ 0) (h1 : v ≠ 1) :
    (route env w a).2.map (fun s => (s.to_master, s.frame.type_, s.frame.value3))
      = [(false, RESPONSE_UNIQ_ID, v)] := by
  cases hg : get_uniq_id env w a.request_buffer a with
  | none => rw [hg] at hv; simp at hv
  | some r =>
    rw [hg] at hv
    simp only [Option.map_some', Option.some.injEq] at hv
    unfold route dispatch prepare_response_get_uniq_id
    simp [ht, hx, hio, hg, hv, h0, h1, REQUEST_LABEL, REQUEST_UNIQ_ID, fill_response,
      MessageHead.update_magic]

/-- A run of served `REQUEST_UNIQ_SEQ` requests of count `n` in local mode that
does not wrap: the in-memory sequence advances by `max n 1` each time. -/
theorem on_run_seq_batches (env : Env) (n : Nat) (evs : List Event) (a : Agent)
    (hlocal : env.master_nodes = "")
    (hev : ∀ e ∈ evs, seq_request env n e)
    (hio : a.io_error = false)
    (hs : a.seq_block.sequence ≠ 0)
    (hb : a.seq_block.sequence + evs.length * max n 1 < 4294967296) :
    (on_run env evs a).1.seq_block.sequence = a.seq_block.sequence + evs.length * max n 1 ∧
    (on_run env evs a).1.io_error = false ∧
    kept (on_run env evs a).1 = kept a := by
  induction evs generalizing a with
  | nil => simp [on_run, hio]
  | cons e es ih =>
    simp only [List.length_cons] at hb ⊢
    have hm : 1 ≤ max n 1 := le_max_right _ _
    have hexp : (es.length + 1) * max n 1 = es.length * max n 1 + max n 1 := by ring
    rw [hexp] at hb ⊢
    have hn : n ≤ max n 1 := le_max_left _ _
    obtain ⟨_, r2, r3, r4, _, _⟩ := on_event_seq_request env n e a
      (hev e (List.mem_cons_self _ _)) (label_expired_local env a hlocal) hio hs
      (Or.inr (by omega))
    have r2' : (on_event env e a).1.seq_block.sequence = a.seq_block.sequence + max n 1 := by
      rw [r2]; omega
    obtain ⟨i1, i2, i3⟩ := ih (on_event env e a).1
      (fun x hx => hev x (List.mem_cons_of_mem _ hx)) r3 (by rw [r2']; omega)
      (by rw [r2']; omega)
    rw [on_run_cons]
    dsimp only
    exact ⟨by rw [i1, r2']; omega, i2, by rw [i3, r4]⟩

/-- The reply to `id_request_5` from an agent that kept the assembler state of
`a1` and whose in-memory sequence is `536871012 = 100 + 2^29`. -/
theorem second_id_reply (a1 r3 : Agent)
    (hk : kept r3 = kept a1)
    (hs : r3.seq_block.sequence = 536871012)
    (hio : r3.io_error = false)
    (hval : (get_uniq_id_assemble local_env (request_frame REQUEST_UNIQ_ID 0 5 0) 536871012
      a1).map Prod.fst = some id_5_7_100) :
    (on_event local_env id_request_5 r3).2.map sent_view
      = [(false, RESPONSE_UNIQ_ID, id_5_7_100)] := by
  have hk' : kept { r3 with request_buffer := request_frame REQUEST_UNIQ_ID 0 5 0 }
      = kept a1 := hk
  have hv : (get_uniq_id local_env true (request_frame REQUEST_UNIQ_ID 0 5 0)
      { r3 with request_buffer := request_frame REQUEST_UNIQ_ID 0 5 0 }).map Prod.fst
      = some id_5_7_100 := by
    rw [get_uniq_id_value local_env true _ _ (by dsimp only; rw [hs]; decide) (fun _ => rfl)]
    dsimp only
    rw [hs, get_uniq_id_assemble_congr local_env _ _ _ _ hk']
    exact hval
  have hr := route_uniq_id local_env true
    { r3 with request_buffer := request_frame REQUEST_UNIQ_ID 0 5 0 } id_5_7_100 rfl
    (label_expired_local _ _ rfl) hio hv (by decide) (by decide)
  unfold on_event id_request_5
  dsimp only
  rw [on_receive_well_sized local_env true 30 _ r3 rfl (by decide)]
  exact hr

/-- The frames sent by a run of the shape `e1 :: (mid ++ [e2]) ++ [e3]`, when
the first and the last event each send one frame. -/
theorem on_run_first_last (env : Env) (e1 : Event) (mid : List Event) (e2 e3 : Event)
    (a : Agent) (v1 v3 : Bool × Nat × Nat)
    (h1 : (on_event env e1 a).2.map sent_view = [v1])
    (h3 : (on_event env e3 (on_run env (e1 :: (mid ++ [e2])) a).1).2.map sent_view = [v3]) :
    ∃ m : List (Bool × Nat × Nat),
      (on_run env ((e1 :: (mid ++ [e2])) ++ [e3]) a).2.map sent_view = v1 :: (m ++ [v3]) := by
  refine ⟨(on_run env (mid ++ [e2]) (on_event env e1 a).1).2.map sent_view, ?_⟩
  rw [on_run_snoc]
  dsimp only
  rw [List.map_append, h3, on_run_cons]
  dsimp only
  rw [List.map_append, h1]
  rfl

/-- C1, at the failing input. One agent run of `local_env` (label 7, fresh
store, clock 1700000000, i.e. one (year, month, day, hour) bucket): a
`REQUEST_UNIQ_ID` of user 5 is answered with the id whose sequence field is
100; then `2^29 - 1` sequence values are taken by 8193 `REQUEST_UNIQ_SEQ`
batches; the next `REQUEST_UNIQ_ID` of user 5 is allocated sequence
`536871012 = 100 + 2^29` and is answered, not with `OVERFLOW`, but with a
`RESPONSE_UNIQ_ID` carrying the same 64-bit value. The overflow test of
`get_uniq_id` (`agent.cpp` lines 809-813) compares the 32-bit `seq` with
`_old_seq`, not the 29-bit field that is packed. -/
theorem duplicate_id_after_seq_field_wrap :
    (∃ mid : List (Bool × Nat × Nat),
      (on_run local_env seq_wrap_events fresh_agent_later).2.map sent_view
        = (false, RESPONSE_UNIQ_ID, id_5_7_100)
            :: (mid ++ [(false, RESPONSE_UNIQ_ID, id_5_7_100)])) ∧
    (UniqID.id id_5_7_100).seq = 100 ∧
    (on_run local_env seq_wrap_prefix fresh_agent_later).1.seq_block.sequence = 536871012 := by
  -- the first id request, evaluated
  have f1 : (on_event local_env id_request_5 fresh_agent_later).2.map sent_view
      = [(false, RESPONSE_UNIQ_ID, id_5_7_100)] := by decide
  have f2 : (on_event local_env id_request_5 fresh_agent_later).1.seq_block.sequence = 101 := by
    decide
  have f3 : (on_event local_env id_request_5 fresh_agent_later).1.io_error = false := by decide
  have f5 : (get_uniq_id_assemble local_env (request_frame REQUEST_UNIQ_ID 0 5 0) 536871012
      (on_event local_env id_request_5 fresh_agent_later).1).map Prod.fst
      = some id_5_7_100 := by decide
  -- the 8192 batches of 65535
  have hrep : ∀ e ∈ List.replicate 8192 (seq_request_n 65535),
      seq_request local_env 65535 e := by
    intro e he
    rw [List.eq_of_mem_replicate he]
    exact ⟨rfl, rfl, by decide, rfl, rfl⟩
  have e1 : 101 + 8192 * max 65535 1 = 536862821 := by decide
  have e2 : (536862821 + max 8191 1) % 4294967296 = 536871012 := by decide
  obtain ⟨b1, b2, b3⟩ := on_run_seq_batches local_env 65535
    (List.replicate 8192 (seq_request_n 65535))
    (on_event local_env id_request_5 fresh_agent_later).1 rfl hrep f3 (by rw [f2]; omega)
    (by rw [f2, List.length_replicate, e1]; omega)
  rw [f2, List.length_replicate, e1] at b1
  -- the batch of 8191
  obtain ⟨_, c2, c3, c4, _, _⟩ := on_event_seq_request local_env 8191 (seq_request_n 8191)
    (on_run local_env (List.replicate 8192 (seq_request_n 65535))
      (on_event local_env id_request_5 fresh_agent_later).1).1
    ⟨rfl, rfl, by decide, rfl, rfl⟩ (label_expired_local _ _ rfl) b2 (by rw [b1]; omega)
    (Or.inr (by rw [b1]; omega))
  rw [b1, e2] at c2
  -- the state before the second id request
  have hstate := on_run_cons_snoc_state local_env id_request_5
    (List.replicate 8192 (seq_request_n 65535)) (seq_request_n 8191) fresh_agent_later
  have hseq : (on_run local_env seq_wrap_prefix fresh_agent_later).1.seq_block.sequence
      = 536871012 := by
    unfold seq_wrap_prefix
    rw [hstate]
    exact c2
  have hio : (on_run local_env seq_wrap_prefix fresh_agent_later).1.io_error = false := by
    unfold seq_wrap_prefix
    rw [hstate]
    exact c3
  have hk : kept (on_run local_env seq_wrap_prefix fresh_agent_later).1
      = kept (on_event local_env id_request_5 fresh_agent_later).1 := by
    unfold seq_wrap_prefix
    rw [hstate]
    exact c4.trans b3
  -- the second id request
  have f4 := second_id_reply (on_event local_env id_request_5 fresh_agent_later).1
    (on_run local_env seq_wrap_prefix fresh_agent_later).1 hk hseq hio f5
  refine ⟨?_, by decide, hseq⟩
  unfold seq_wrap_prefix at f4
  unfold seq_wrap_events seq_wrap_prefix
  exact on_run_first_last local_env id_request_5 (List.replicate 8192 (seq_request_n 65535))
    (seq_request_n 8191) id_request_5 fresh_agent_later _ _ f1 f4

/-! ## The store along a dispatcher run -/

theorem store_inv_congr {a b : Agent} (h : store_fields b = store_fields a)
    (hinv : store_inv a) : store_inv b := by
  simp only [store_fields, Prod.mk.injEq] at h
  obtain ⟨h1, h2, h3, _⟩ := h
  unfold store_inv file_sequence at hinv ⊢
  rw [h1, h2, h3]
  exact hinv

/-- A step that leaves the store fields alone. -/
theorem store_step_of_fields (env : Env) (d : Nat) {a b : Agent}
    (hinv : store_inv a) (h : store_fields b = store_fields a) : store_step env d a b := by
  have hb := store_inv_congr h hinv
  simp only [store_fields, Prod.mk.injEq] at h
  obtain ⟨h1, h2, h3, h4⟩ := h
  refine ⟨hb, by rw [h1], by rw [h1]; omega, ?_, [], by rw [h4]; simp,
    fun p hp => absurd hp (List.not_mem_nil p)⟩
  unfold file_sequence
  rw [h3]

/-- A step is a relation between the store fields of its ends. -/
theorem store_step_congr (env : Env) (d : Nat) {a a' b b' : Agent}
    (ha : store_fields a' = store_fields a) (hb : store_fields b' = store_fields b)
    (h : store_step env d a b) : store_step env d a' b' := by
  obtain ⟨h1, h2, h3, h4, new, h5, h6⟩ := h
  have hb1 := store_inv_congr hb h1
  simp only [store_fields, Prod.mk.injEq] at ha hb
  obtain ⟨a1, _, a3, a4⟩ := ha
  obtain ⟨b1, _, b3, b4⟩ := hb
  have fa : file_sequence a' = file_sequence a := by unfold file_sequence; rw [a3]
  have fb : file_sequence b' = file_sequence b := by unfold file_sequence; rw [b3]
  refine ⟨hb1, by rw [a1, b1]; exact h2, by rw [a1, b1]; exact h3, by rw [fa, fb]; exact h4,
    new, by rw [a4, b4]; exact h5, ?_⟩
  intro p hp
  rw [a1, b1, fb]
  exact h6 p hp

/-- A step that asks for less is a step that asks for more. -/
theorem store_step_mono (env : Env) {d d' : Nat} {a b : Agent} (hd : d ≤ d')
    (h : store_step env d a b) : store_step env d' a b := by
  obtain ⟨h1, h2, h3, h4, new, h5, h6⟩ := h
  refine ⟨h1, h2, by omega, h4, new, h5, ?_⟩
  intro p hp
  obtain ⟨u1, u2, u3, u4⟩ := h6 p hp
  exact ⟨u1, u2, u3, by omega⟩

theorem inc_num_sequence_issued (env : Env) (n : Int) (a : Agent) :
    (inc_num_sequence env n a).issued = a.issued := by
  unfold inc_num_sequence; dsimp only; split_ifs <;> rfl

theorem store_sequence_issued (w : Bool) (a : Agent) :
    (store_sequence w a).2.issued = a.issued := by
  unfold store_sequence; cases w <;> rfl

theorem inc_sequence_store_issued (env : Env) (w : Bool) (a : Agent) :
    (inc_sequence_store env w a).2.issued = a.issued := by
  unfold inc_sequence_store
  split_ifs
  · simp [inc_num_sequence_issued, store_sequence_issued]
  · rfl

theorem inc_sequence_take_issued (env : Env) (deta : Nat) (a : Agent) :
    (inc_sequence_take env deta a).2.issued = a.issued := by
  unfold inc_sequence_take
  dsimp only
  split_ifs <;> simp [inc_num_sequence_issued]

/-- The history variable after `inc_sequence`: the result is appended with
the count asked for, unless it is 0. -/
theorem inc_sequence_issued (env : Env) (w : Bool) (deta : Nat) (a : Agent) :
    (inc_sequence env w deta a).2.issued
      = a.issued ++ (if (inc_sequence env w deta a).1 = 0 then []
          else [((inc_sequence env w deta a).1, deta)]) := by
  unfold inc_sequence
  dsimp only
  split_ifs with h1 h2 h3
  · simp [inc_sequence_store_issued]
  · simp at h2
  · simp [record_issued] at h3 ⊢
    simp [h3, inc_sequence_take_issued, inc_sequence_store_issued]
  · simp [record_issued] at h3 ⊢
    simp [h3, inc_sequence_take_issued, inc_sequence_store_issued]

/-- `inc_sequence` is a step of the store, if the allocation does not wrap. -/
theorem inc_sequence_step (env : Env) (w : Bool) (deta : Nat) (a : Agent)
    (hinv : store_inv a)
    (hnw : a.seq_block.sequence + max deta 1 < 4294967296) :
    store_step env (max deta 1) a (inc_sequence env w deta a).2 := by
  obtain ⟨h0, hf, hge⟩ := hinv
  have hiss := inc_sequence_issued env w deta a
  by_cases hn : store_needed env a
  · cases w with
    | false =>
      obtain ⟨f1, f2, f3, f4⟩ := inc_sequence_failed env deta a hn
      rw [f1] at hiss
      have hfs : file_sequence (inc_sequence env false deta a).2 = file_sequence a := by
        unfold file_sequence; rw [f4]
      refine ⟨⟨by rw [f2]; exact h0, by rw [hfs, f3]; exact hf, by rw [f2, f3]; exact hge⟩,
        by rw [f2], by rw [f2]; omega, by rw [hfs], [], by rw [hiss]; simp,
        fun p hp => absurd hp (List.not_mem_nil p)⟩
    | true =>
      obtain ⟨s1, s2⟩ := inc_sequence_healthy env true deta a h0 hnw (fun _ => rfl)
      obtain ⟨_, _, g3⟩ := inc_sequence_file env true deta a (fun _ => rfl)
      obtain ⟨t1, t2, _⟩ := g3 hn
      have hn' := hn
      unfold store_needed at hn'
      rw [s1, if_neg h0] at hiss
      refine ⟨⟨by rw [s2]; omega, by rw [t2, t1], by rw [t1, s2]; omega⟩, by rw [s2]; omega,
        by rw [s2], by rw [t2, hf]; omega, [(a.seq_block.sequence, deta)], hiss, ?_⟩
      intro p hp
      rw [List.mem_singleton] at hp
      subst hp
      exact ⟨rfl, s2.symm, by rw [t2]; omega, le_refl _⟩
  · obtain ⟨s1, s2⟩ := inc_sequence_healthy env w deta a h0 hnw (fun h => absurd h hn)
    obtain ⟨_, g2, _⟩ := inc_sequence_file env w deta a (fun h => absurd h hn)
    obtain ⟨t1, t2, _⟩ := g2 hn
    have hfs : file_sequence (inc_sequence env w deta a).2 = file_sequence a := by
      unfold file_sequence
      rw [t2]
    have hn' := hn
    unfold store_needed at hn'
    rw [s1, if_neg h0] at hiss
    refine ⟨⟨by rw [s2]; omega, by rw [hfs, t1]; exact hf, by rw [t1, s2]; omega⟩,
      by rw [s2]; omega, by rw [s2], by rw [hfs], [(a.seq_block.sequence, deta)], hiss, ?_⟩
    intro p hp
    rw [List.mem_singleton] at hp
    subst hp
    exact ⟨rfl, s2.symm, by rw [hfs, hf]; omega, le_refl _⟩

/-- `store_sequence` is a step of the store that asks for nothing. -/
theorem store_sequence_step (env : Env) (w : Bool) (a : Agent) (hinv : store_inv a) :
    store_step env 0 a (store_sequence w a).2 := by
  obtain ⟨h0, hf, hge⟩ := hinv
  cases w with
  | false =>
    exact store_step_of_fields env 0 ⟨h0, hf, hge⟩ (by simp [store_fields, store_sequence])
  | true =>
    simp only [store_sequence, store_step, store_inv, file_sequence] at hf ⊢
    refine ⟨by simp [h0], by simp, by simp, by simp [hf, hge], [], by simp, ?_⟩
    intro p hp
    exact absurd hp (List.not_mem_nil p)

theorem store_fields_fill_response (env : Env) (t v1 v2 v3 : Nat) (a : Agent) :
    store_fields (fill_response env t v1 v2 v3 a) = store_fields a := rfl

theorem store_fields_prepare_response_error (env : Env) (c : Int) (a : Agent) :
    store_fields (prepare_response_error env c a) = store_fields a := rfl

/-- The cache refresh of `get_uniq_id` writes neither the store fields nor the
buffers. -/
theorem get_uniq_id_refresh_frame (env : Env) (request : MessageHead) (a a2 : Agent)
    (h : get_uniq_id_refresh env request a = some a2) :
    store_fields a2 = store_fields a ∧ buffers a2 = buffers a := by
  have key : ∀ t : Int,
      (match env.localtime t with
        | none => none
        | some tm => some { a with old_tm := tm, old_time := t }) = some a2 →
      store_fields a2 = store_fields a ∧ buffers a2 = buffers a := by
    intro t ht
    cases hl : env.localtime t with
    | none => rw [hl] at ht; simp at ht
    | some tm =>
      rw [hl] at ht
      simp only [Option.some.injEq] at ht
      subst ht
      exact ⟨rfl, rfl⟩
  unfold get_uniq_id_refresh at h
  dsimp only at h
  split_ifs at h
  all_goals first
    | exact key _ h
    | (simp only [Option.some.injEq] at h
       subst h
       exact ⟨rfl, rfl⟩)

/-- The packing of `get_uniq_id` writes neither the store fields nor the
buffers. -/
theorem get_uniq_id_pack_frame (request : MessageHead) (seq : Nat) (a : Agent) :
    store_fields (get_uniq_id_pack request seq a).2 = store_fields a ∧
    buffers (get_uniq_id_pack request seq a).2 = buffers a := by
  unfold get_uniq_id_pack
  dsimp only
  split_ifs <;> exact ⟨rfl, rfl⟩

/-- The assembler, when it returns, has written neither the store fields nor
the buffers. -/
theorem get_uniq_id_assemble_frame (env : Env) (request : MessageHead) (seq : Nat)
    (a : Agent) (r : Nat × Agent) (h : get_uniq_id_assemble env request seq a = some r) :
    store_fields r.2 = store_fields a ∧ buffers r.2 = buffers a := by
  unfold get_uniq_id_assemble at h
  cases hr : get_uniq_id_refresh env request a with
  | none => rw [hr] at h; simp at h
  | some a2 =>
    rw [hr] at h
    simp only [Option.some.injEq] at h
    subst h
    obtain ⟨f1, f2⟩ := get_uniq_id_refresh_frame env request a a2 hr
    obtain ⟨p1, p2⟩ := get_uniq_id_pack_frame request seq a2
    exact ⟨by rw [p1, f1], by rw [p2, f2]⟩

theorem store_fields_get_uniq_id_assemble (env : Env) (request : MessageHead) (seq : Nat)
    (a : Agent) (r : Nat × Agent) (h : get_uniq_id_assemble env request seq a = some r) :
    store_fields r.2 = store_fields a :=
  (get_uniq_id_assemble_frame env request seq a r h).1

theorem store_fields_get_label_request (env : Env) (a : Agent) :
    store_fields (get_label_request env a).1 = store_fields a := rfl

theorem store_fields_get_label_loop (env : Env) (k : Nat) (rs : List Recv) (a : Agent)
    (out : List Sent) :
    store_fields (get_label_loop env k rs a out).2.1 = store_fields a := by
  induction k generalizing rs a out with
  | zero => simp [get_label_loop]
  | succ k ih =>
    unfold get_label_loop
    cases rs with
    | nil => rfl
    | cons r rest =>
      cases r with
      | failed => rfl
      | frame m =>
        dsimp only
        split_ifs
        · rfl
        · rw [ih]
          rfl
        · rfl
        · rfl
        · rfl

theorem store_fields_get_label (env : Env) (asy : Bool) (rs : List Recv) (a : Agent) :
    store_fields (get_label env asy rs a).2.1 = store_fields a := by
  unfold get_label
  split_ifs
  · rfl
  · rfl
  · exact store_fields_get_label_loop env 2 rs a []

theorem store_fields_rent_label (env : Env) (a : Agent) :
    store_fields (rent_label env a).1 = store_fields a := by
  have h := store_fields_get_label env true [] a
  unfold rent_label
  dsimp only
  split_ifs
  · exact Eq.trans rfl h
  · exact h
  · rfl

theorem store_fields_on_timer (env : Env) (now : Int) (a : Agent) :
    store_fields (on_timer env now a).1 = store_fields a := by
  unfold on_timer
  dsimp only
  split_ifs
  · exact store_fields_rent_label env { a with current_time := now }
  · rfl

theorem store_fields_on_response_error (env : Env) (a : Agent) :
    store_fields (on_response_error env a).2.1 = store_fields a := by
  unfold on_response_error
  split_ifs
  · exact store_fields_get_label env true [] { a with seq_block := a.seq_block.update_label 0 }
  · rfl

/-- The method `get_uniq_id`, when it returns, leaves the store fields and the
buffers as `inc_sequence` did. -/
theorem get_uniq_id_frame (env : Env) (w : Bool) (request : MessageHead) (a : Agent)
    (r : Nat × Agent) (h : get_uniq_id env w request a = some r) :
    store_fields r.2 = store_fields (inc_sequence env w 1 a).2 ∧
    buffers r.2 = buffers (inc_sequence env w 1 a).2 := by
  unfold get_uniq_id at h
  dsimp only at h
  split_ifs at h
  · simp only [Option.some.injEq] at h
    subst h
    exact ⟨rfl, rfl⟩
  · exact get_uniq_id_assemble_frame env request _ _ r h

theorem store_fields_get_uniq_id (env : Env) (w : Bool) (request : MessageHead) (a : Agent)
    (r : Nat × Agent) (h : get_uniq_id env w request a = some r) :
    store_fields r.2 = store_fields (inc_sequence env w 1 a).2 :=
  (get_uniq_id_frame env w request a r h).1

/-- The three handlers that allocate either leave the store fields alone or
leave them as `inc_sequence` did. -/
theorem store_fields_prepare_response_get_uniq_id (env : Env) (w : Bool) (a : Agent) :
    store_fields (prepare_response_get_uniq_id env w a).2 = store_fields a ∨
    store_fields (prepare_response_get_uniq_id env w a).2
      = store_fields (inc_sequence env w 1 a).2 := by
  unfold prepare_response_get_uniq_id
  split_ifs
  · exact Or.inl rfl
  · exact Or.inl rfl
  · cases hg : get_uniq_id env w a.request_buffer a with
    | none => exact Or.inr rfl
    | some r =>
      have h := store_fields_get_uniq_id env w a.request_buffer a r hg
      dsimp only
      split_ifs
      · exact Or.inr h
      · exact Or.inr h
      · exact Or.inr (Eq.trans rfl h)

theorem store_fields_prepare_response_get_uniq_seq (env : Env) (w : Bool) (a : Agent) :
    store_fields (prepare_response_get_uniq_seq env w a).2 = store_fields a ∨
    store_fields (prepare_response_get_uniq_seq env w a).2
      = store_fields (inc_sequence env w (a.request_buffer.value1 % 65536) a).2 := by
  unfold prepare_response_get_uniq_seq
  dsimp only
  split_ifs
  · exact Or.inl rfl
  · exact Or.inl rfl
  · exact Or.inr rfl
  · exact Or.inr rfl

theorem store_fields_prepare_response_get_label_and_seq (env : Env) (w : Bool) (a : Agent) :
    store_fields (prepare_response_get_label_and_seq env w a).2 = store_fields a ∨
    store_fields (prepare_response_get_label_and_seq env w a).2
      = store_fields (inc_sequence env w (a.request_buffer.value1 % 65536) a).2 := by
  unfold prepare_response_get_label_and_seq
  dsimp only
  split_ifs
  · exact Or.inl rfl
  · exact Or.inl rfl
  · exact Or.inr rfl
  · exact Or.inr rfl

theorem store_fields_prepare_response_get_label (env : Env) (a : Agent) :
    store_fields (prepare_response_get_label env a).2 = store_fields a := by
  unfold prepare_response_get_label
  split_ifs <;> rfl

/-- `on_response_label` is a step of the store that asks for nothing. -/
theorem on_response_label_step (env : Env) (w : Bool) (a : Agent) (hinv : store_inv a) :
    store_step env 0 a (on_response_label w a).2 := by
  unfold on_response_label
  dsimp only
  split_ifs
  · exact store_step_congr env 0 rfl rfl
      (store_sequence_step env w
        { a with seq_block :=
            { a.seq_block.update_label a.request_buffer.value1 with
                timestamp := of_time_t a.current_time } }
        (store_inv_congr rfl hinv))
  · exact store_step_of_fields env 0 hinv rfl

/-- The chain of tests on the message type is a step of the store that asks
for what the frame asks for. -/
theorem dispatch_step (env : Env) (w : Bool) (magic_ : Nat) (a : Agent)
    (hinv : store_inv a)
    (hnw : a.seq_block.sequence + head_demand a.request_buffer < 4294967296) :
    store_step env (head_demand a.request_buffer) a (dispatch env w magic_ a).2.1 := by
  unfold dispatch
  dsimp only
  by_cases h1 : REQUEST_LABEL = a.request_buffer.type_
  · rw [if_pos h1]
    exact store_step_of_fields env _ hinv (store_fields_prepare_response_get_label env a)
  rw [if_neg h1]
  by_cases h3 : REQUEST_UNIQ_ID = a.request_buffer.type_
  · rw [if_pos h3]
    have hd : head_demand a.request_buffer = max 1 1 := by
      unfold head_demand; rw [if_pos h3.symm]; rfl
    rw [hd] at hnw ⊢
    rcases store_fields_prepare_response_get_uniq_id env w a with h | h
    · exact store_step_of_fields env _ hinv h
    · exact store_step_congr env _ rfl h (inc_sequence_step env w 1 a hinv hnw)
  rw [if_neg h3]
  by_cases h5 : REQUEST_UNIQ_SEQ = a.request_buffer.type_
  · rw [if_pos h5]
    have hd : head_demand a.request_buffer = max (a.request_buffer.value1 % 65536) 1 := by
      unfold head_demand
      rw [if_neg (fun h => h3 h.symm), if_pos (Or.inl h5.symm)]
    rw [hd] at hnw ⊢
    rcases store_fields_prepare_response_get_uniq_seq env w a with h | h
    · exact store_step_of_fields env _ hinv h
    · exact store_step_congr env _ rfl h (inc_sequence_step env w _ a hinv hnw)
  rw [if_neg h5]
  by_cases h7 : REQUEST_LABEL_AND_SEQ = a.request_buffer.type_
  · rw [if_pos h7]
    have hd : head_demand a.request_buffer = max (a.request_buffer.value1 % 65536) 1 := by
      unfold head_demand
      rw [if_neg (fun h => h3 h.symm), if_pos (Or.inr h7.symm)]
    rw [hd] at hnw ⊢
    rcases store_fields_prepare_response_get_label_and_seq env w a with h | h
    · exact store_step_of_fields env _ hinv h
    · exact store_step_congr env _ rfl h (inc_sequence_step env w _ a hinv hnw)
  rw [if_neg h7]
  by_cases h9 : RESPONSE_ERROR = a.request_buffer.type_
  · rw [if_pos h9]
    split_ifs
    · exact store_step_of_fields env _ hinv rfl
    · exact store_step_of_fields env _ hinv (store_fields_on_response_error env a)
  rw [if_neg h9]
  by_cases h2 : RESPONSE_LABEL = a.request_buffer.type_
  · rw [if_pos h2]
    split_ifs
    · exact store_step_of_fields env _ hinv rfl
    · exact store_step_mono env (Nat.zero_le _) (on_response_label_step env w a hinv)
  rw [if_neg h2]
  exact store_step_of_fields env _ hinv rfl

/-- The routing of a frame leaves the store fields as the chain of tests did. -/
theorem store_fields_route (env : Env) (w : Bool) (a : Agent) :
    store_fields (route env w a).1
      = store_fields (dispatch env w (env.calc_magic a.request_buffer % 4294967296) a).2.1 := by
  unfold route
  dsimp only
  split_ifs <;> first | rfl | (exfalso; simp_all)

/-- One event is a step of the store that asks for what the event asks for. -/
theorem on_event_step (env : Env) (e : Event) (a : Agent)
    (hinv : store_inv a)
    (hnw : a.seq_block.sequence + event_demand e < 4294967296) :
    store_step env (event_demand e) a (on_event env e a).1 := by
  cases e with
  | timer now =>
    exact store_step_of_fields env _ hinv (store_fields_on_timer env now a)
  | receive w bytes head =>
    simp only [event_demand] at hnw ⊢
    unfold on_event on_receive
    dsimp only
    split_ifs
    · exact store_step_of_fields env _ hinv rfl
    · exact store_step_of_fields env _ hinv rfl
    · exact store_step_of_fields env _ hinv rfl
    · exact store_step_congr env _ rfl
        (store_fields_route env w { a with request_buffer := head })
        (dispatch_step env w _ { a with request_buffer := head } (store_inv_congr rfl hinv) hnw)

/-- A run of events that does not wrap the 32-bit sequence: the invariant is
kept, the in-memory and the file's sequence only grow, and every range handed
out during the run starts at or after the initial in-memory sequence, ends at
or before the final one, starts at most `steps` past the final sequence of
the file, and is no longer than what one of the events asks for. -/
theorem on_run_inv (env : Env) (evs : List Event) (a : Agent)
    (hinv : store_inv a)
    (hnw : a.seq_block.sequence + run_demand evs < 4294967296) :
    store_inv (on_run env evs a).1 ∧
    a.seq_block.sequence ≤ (on_run env evs a).1.seq_block.sequence ∧
    (on_run env evs a).1.seq_block.sequence ≤ a.seq_block.sequence + run_demand evs ∧
    file_sequence a ≤ file_sequence (on_run env evs a).1 ∧
    ∃ new : List (Nat × Nat), (on_run env evs a).1.issued = a.issued ++ new ∧
      ∀ p ∈ new,
        a.seq_block.sequence ≤ p.1 ∧
        p.1 + max p.2 1 ≤ (on_run env evs a).1.seq_block.sequence ∧
        p.1 ≤ file_sequence (on_run env evs a).1 + env.steps ∧
        ∃ e ∈ evs, max p.2 1 ≤ event_demand e := by
  induction evs generalizing a with
  | nil =>
    simp only [on_run, run_demand]
    exact ⟨hinv, le_refl _, le_refl _, le_refl _, [], by simp,
      fun p hp => absurd hp (List.not_mem_nil p)⟩
  | cons e es ih =>
    simp only [run_demand] at hnw
    obtain ⟨s1, s2, s3, s4, new1, s5, s6⟩ := on_event_step env e a hinv (by omega)
    obtain ⟨i1, i2, i3, i4, new2, i5, i6⟩ := ih (on_event env e a).1 s1 (by omega)
    rw [on_run_cons]
    simp only [run_demand]
    refine ⟨i1, by omega, by omega, by omega, new1 ++ new2, ?_, ?_⟩
    · rw [i5, s5, List.append_assoc]
    · intro p hp
      rw [List.mem_append] at hp
      rcases hp with hp | hp
      · obtain ⟨u1, u2, u3, u4⟩ := s6 p hp
        exact ⟨by omega, by omega, by omega, e, List.mem_cons_self _ _, u4⟩
      · obtain ⟨u1, u2, u3, e', he', u4⟩ := i6 p hp
        exact ⟨by omega, u2, u3, e', List.mem_cons_of_mem _ he', u4⟩

theorem issued_of_store_fields {a b : Agent} (h : store_fields a = store_fields b) :
    a.issued = b.issued := by
  simp only [store_fields, Prod.mk.injEq] at h
  exact h.2.2.2

/-- The history variable is not touched by `restore_sequence`. -/
theorem restore_sequence_issued (env : Env) (rd : PRead) (rs : List Recv) (w : Bool)
    (a : Agent) : (restore_sequence env rd rs w a).2.1.issued = a.issued := by
  have hg := issued_of_store_fields (store_fields_get_label env false rs a)
  cases rd with
  | open_failed => rfl
  | read_error => rfl
  | truncated => rfl
  | eof =>
    unfold restore_sequence
    dsimp only
    split_ifs
    · exact hg
    · unfold restore_sequence_first
      rw [store_sequence_issued]
      exact hg
  | block b =>
    have hgb := issued_of_store_fields
      (store_fields_get_label env false rs { a with seq_block := b })
    unfold restore_sequence
    dsimp only
    split_ifs
    · rfl
    · unfold restore_sequence_tail
      rw [store_sequence_issued]
    · exact hgb
    · unfold restore_sequence_tail
      rw [store_sequence_issued]
      exact hgb
    · unfold restore_sequence_tail
      rw [store_sequence_issued]

/-! ## Reservation window and crash safety (C2, C3) -/

/-- C2 as stated fails: right after a fresh start with `steps = 100` the file
holds sequence 100; the second count-1 `REQUEST_UNIQ_SEQ` is handed out 101,
and the file still holds 100. -/
theorem handed_out_seq_passes_file_sequence :
    (on_run local_env [seq_request_1, seq_request_1] fresh_agent).1.issued
      = [(100, 1), (101, 1)] ∧
    (client_replies (on_run local_env [seq_request_1, seq_request_1] fresh_agent).2).map
        (fun m => (m.type_, m.value1)) = [(RESPONSE_UNIQ_SEQ, 100), (RESPONSE_UNIQ_SEQ, 101)] ∧
    file_sequence (on_run local_env [seq_request_1, seq_request_1] fresh_agent).1 = 100 ∧
    ¬ (file_sequence (on_run local_env [seq_request_1, seq_request_1] fresh_agent).1 ≥ 101) := by
  decide

/-- C2 (amended). Take a new agent process on which `restore_sequence`
succeeds (fresh start or restart) and leaves a nonzero in-memory sequence,
and any events of `on_run` after it that do not wrap the 32-bit sequence.
Then every seq that `inc_sequence` has handed out is at most `steps` past the
sequence field of the block in the store file, and that field never exceeds
the in-memory sequence: the file holds a lower mark, not a ceiling. -/
theorem handed_out_within_steps_of_file (env : Env) (rd : PRead) (rs : List Recv) (w : Bool)
    (a : Agent) (evs : List Event)
    (hnew : a.issued = [])
    (hr : (restore_sequence env rd rs w a).1 = true)
    (h0 : (restore_sequence env rd rs w a).2.1.seq_block.sequence ≠ 0)
    (hnw : (restore_sequence env rd rs w a).2.1.seq_block.sequence + run_demand evs
      < 4294967296) :
    (∀ p ∈ (on_run env evs (restore_sequence env rd rs w a).2.1).1.issued,
      p.1 ≤ file_sequence (on_run env evs (restore_sequence env rd rs w a).2.1).1 + env.steps) ∧
    file_sequence (on_run env evs (restore_sequence env rd rs w a).2.1).1
      ≤ (on_run env evs (restore_sequence env rd rs w a).2.1).1.seq_block.sequence := by
  obtain ⟨r1, r2⟩ := restore_sequence_ok env rd rs w a hr
  have hinv : store_inv (restore_sequence env rd rs w a).2.1 :=
    ⟨h0, by rw [r2, r1], by rw [r1]⟩
  have hiss := restore_sequence_issued env rd rs w a
  rw [hnew] at hiss
  obtain ⟨⟨_, j2, j3⟩, _, _, _, new, i5, i6⟩ := on_run_inv env evs _ hinv hnw
  rw [hiss, List.nil_append] at i5
  refine ⟨?_, by rw [j2]; exact j3⟩
  intro p hp
  rw [i5] at hp
  exact (i6 p hp).2.2.1

/-- A witness of C2 (amended): `local_env` from an empty store, then requests
for 1, 50, 60 and 1 sequences. -/
theorem handed_out_within_steps_of_file_witness :
    (restore_sequence local_env PRead.eof [] true (CUidAgent none)).1 = true ∧
    (on_run local_env [seq_request_1, seq_request_n 50, seq_request_n 60, seq_request_1]
      fresh_agent).1.issued = [(100, 1), (101, 50), (151, 60), (211, 1)] ∧
    ∀ p ∈ (on_run local_env [seq_request_1, seq_request_n 50, seq_request_n 60, seq_request_1]
      fresh_agent).1.issued,
      p.1 ≤ file_sequence (on_run local_env
        [seq_request_1, seq_request_n 50, seq_request_n 60, seq_request_1] fresh_agent).1
        + local_env.steps :=
  ⟨by decide, by decide,
   (handed_out_within_steps_of_file local_env PRead.eof [] true (CUidAgent none)
      [seq_request_1, seq_request_n 50, seq_request_n 60, seq_request_1]
      rfl (by decide) (by decide) (by decide)).1⟩

/-- C3. Crash safety of the sequence store. Take an agent run from a
successful start (nonzero in-memory sequence) in which every request asks for
at most `steps` sequences and the sequence does not wrap, stop it anywhere,
and let `restore_sequence` restart a new agent process from the block in the
file, the second run not wrapping either. Then every value of every range
handed out before the stop (`[start, start + max n 1)`) is strictly below
every start handed out after the restart; the restart sets the in-memory
sequence to the file's sequence plus `2*steps`, which is at most `2*steps`
past the in-memory sequence at the stop. -/
theorem restart_never_reuses (env : Env) (rd : PRead) (rs0 : List Recv) (w0 : Bool)
    (a : Agent) (evs1 : List Event) (rs : List Recv) (w : Bool) (b : Agent)
    (evs2 : List Event)
    (hnew_a : a.issued = [])
    (hnew_b : b.issued = [])
    (hr0 : (restore_sequence env rd rs0 w0 a).1 = true)
    (h0 : (restore_sequence env rd rs0 w0 a).2.1.seq_block.sequence ≠ 0)
    (hn1 : ∀ e ∈ evs1, event_demand e ≤ env.steps)
    (hnw1 : (restore_sequence env rd rs0 w0 a).2.1.seq_block.sequence + run_demand evs1
      < 4294967296)
    (hr : (restore_sequence env
      (pread (on_run env evs1 (restore_sequence env rd rs0 w0 a).2.1).1.file) rs w b).1 = true)
    (hnw2 : file_sequence (on_run env evs1 (restore_sequence env rd rs0 w0 a).2.1).1
      + 2 * env.steps + run_demand evs2 < 4294967296) :
    (∀ p1 ∈ (on_run env evs1 (restore_sequence env rd rs0 w0 a).2.1).1.issued,
      ∀ p2 ∈ (on_run env evs2 (restore_sequence env
          (pread (on_run env evs1 (restore_sequence env rd rs0 w0 a).2.1).1.file)
          rs w b).2.1).1.issued,
        ∀ x : Nat, p1.1 ≤ x → x < p1.1 + max p1.2 1 → x < p2.1) ∧
    (restore_sequence env
        (pread (on_run env evs1 (restore_sequence env rd rs0 w0 a).2.1).1.file)
        rs w b).2.1.seq_block.sequence
      = file_sequence (on_run env evs1 (restore_sequence env rd rs0 w0 a).2.1).1
        + 2 * env.steps ∧
    (restore_sequence env
        (pread (on_run env evs1 (restore_sequence env rd rs0 w0 a).2.1).1.file)
        rs w b).2.1.seq_block.sequence
      ≤ (on_run env evs1 (restore_sequence env rd rs0 w0 a).2.1).1.seq_block.sequence
        + 2 * env.steps := by
  obtain ⟨r1, r2⟩ := restore_sequence_ok env rd rs0 w0 a hr0
  have hinv : store_inv (restore_sequence env rd rs0 w0 a).2.1 :=
    ⟨h0, by rw [r2, r1], by rw [r1]⟩
  have hiss := restore_sequence_issued env rd rs0 w0 a
  rw [hnew_a] at hiss
  obtain ⟨⟨_, j2, j3⟩, _, _, i4, new1, i5, i6⟩ := on_run_inv env evs1 _ hinv hnw1
  rw [hiss, List.nil_append] at i5
  -- the file is not empty at the stop
  have hfile : ∃ blk, (on_run env evs1 (restore_sequence env rd rs0 w0 a).2.1).1.file
      = some blk := by
    cases hf : (on_run env evs1 (restore_sequence env rd rs0 w0 a).2.1).1.file with
    | some blk => exact ⟨blk, rfl⟩
    | none =>
      exfalso
      have e0 : file_sequence (on_run env evs1 (restore_sequence env rd rs0 w0 a).2.1).1
          = 0 := by
        unfold file_sequence; rw [hf]
      rw [e0] at i4
      rw [r2] at i4
      omega
  obtain ⟨blk, hblk⟩ := hfile
  have efs : file_sequence (on_run env evs1 (restore_sequence env rd rs0 w0 a).2.1).1
      = blk.sequence := by
    unfold file_sequence; rw [hblk]
  rw [hblk] at hr ⊢
  rw [efs] at hnw2 j2 i6 ⊢
  simp only [pread] at hr ⊢
  obtain ⟨t1, t2, t3, _⟩ := restore_sequence_block env blk rs w b hr
  have e : (blk.sequence + (2 * env.steps) % 4294967296) % 4294967296
      = blk.sequence + 2 * env.steps := by omega
  rw [e] at t1
  have hge1 : 1 ≤ blk.sequence := by
    rw [← efs]
    rw [r2] at i4
    omega
  have hinv2 : store_inv (restore_sequence env (PRead.block blk) rs w b).2.1 := by
    refine ⟨by rw [t1]; omega, ?_, by rw [t2]⟩
    unfold file_sequence
    rw [t3, t2]
  have hiss2 := restore_sequence_issued env (PRead.block blk) rs w b
  rw [hnew_b] at hiss2
  obtain ⟨_, _, _, _, new2, k5, k6⟩ := on_run_inv env evs2 _ hinv2 (by rw [t1]; exact hnw2)
  rw [hiss2, List.nil_append] at k5
  refine ⟨?_, t1, by rw [t1]; omega⟩
  intro p1 hp1 p2 hp2 x _ hx2
  rw [i5] at hp1
  rw [k5] at hp2
  obtain ⟨_, _, u3, e1, he1, u4⟩ := i6 p1 hp1
  obtain ⟨v1, _, _, _⟩ := k6 p2 hp2
  rw [t1] at v1
  have := hn1 e1 he1
  omega

/-- A witness of C3: `local_env` from an empty store hands out `[100, 101)` and
`[101, 151)`, is stopped and restarted, and then hands out 300. -/
theorem restart_never_reuses_witness :
    (on_run local_env [seq_request_1, seq_request_n 50] fresh_agent).1.issued
      = [(100, 1), (101, 50)] ∧
    agent_restarted.1 = true ∧
    (on_run local_env [seq_request_1] agent_restarted.2.1).1.issued = [(300, 1)] ∧
    (∀ p1 ∈ (on_run local_env [seq_request_1, seq_request_n 50] fresh_agent).1.issued,
      ∀ p2 ∈ (on_run local_env [seq_request_1] agent_restarted.2.1).1.issued,
        ∀ x : Nat, p1.1 ≤ x → x < p1.1 + max p1.2 1 → x < p2.1) :=
  ⟨by decide, by decide, by decide,
   (restart_never_reuses local_env PRead.eof [] true (CUidAgent none)
      [seq_request_1, seq_request_n 50] [] true (CUidAgent agent_at_stop.file)
      [seq_request_1] rfl rfl (by decide) (by decide)
      (fun e he => by
        simp only [List.mem_cons, List.mem_singleton, List.not_mem_nil, or_false] at he
        rcases he with rfl | rfl <;> decide)
      (by decide) (by decide) (by decide)).1⟩

/-! ## Magic of the sequence block (C18, C19) -/

/-- C18. Magic round trip on the sequence block: whatever `version`, `label`,
`sequence` and `timestamp` are, `valid_magic()` is true right after
`update_magic()`. -/
theorem valid_magic_update_magic (b : SeqBlock) : b.update_magic.valid_magic = true := by
  unfold SeqBlock.update_magic
  split_ifs with h
  · simp [SeqBlock.valid_magic, SeqBlock.sum32] at h ⊢
    omega
  · simp [SeqBlock.valid_magic, SeqBlock.sum32] at h ⊢
    omega

/-- C19 as stated fails: `block_7_10` is valid, `block_11_10` differs from it
in the field `sequence` only (7 against 11), and is valid too. -/
theorem single_field_change_undetected :
    block_7_10.valid_magic = true ∧ differ_in_one_field block_7_10 block_11_10 ∧
    block_11_10.sequence ≠ block_7_10.sequence ∧
    block_7_10.in_range ∧ block_11_10.in_range ∧
    ¬ (block_11_10.valid_magic = false) := by
  decide

/-- C19 (amended). The magic is the distance between `timestamp` and the
32-bit sum `sequence+label+version`. For a valid block `b` and a block `c`
that differs from `b` in exactly one field (all fields in the range of their
types), `c` is valid if and only if the magic is the unchanged one and the
changed quantity was mirrored about the other: the timestamp changed and the
two timestamps add up to twice the sum, or a summand changed and the two sums
add up to twice the timestamp. In particular a change of `magic` alone is
always detected. -/
theorem single_field_change_detected_unless_mirrored (b c : SeqBlock)
    (hb : b.valid_magic = true) (hbr : b.in_range) (hcr : c.in_range)
    (hd : differ_in_one_field b c) :
    (c.valid_magic = true ↔
      c.magic = b.magic ∧
        ((c.timestamp ≠ b.timestamp ∧ b.timestamp + c.timestamp = 2 * b.sum32) ∨
         (c.timestamp = b.timestamp ∧ b.sum32 + c.sum32 = 2 * b.timestamp))) ∧
    (c.magic ≠ b.magic → c.valid_magic = false) := by
  obtain ⟨b1, b2, b3, b4, b5⟩ := hbr
  obtain ⟨c1, c2, c3, c4, c5⟩ := hcr
  simp only [SeqBlock.valid_magic, SeqBlock.sum32] at *
  unfold differ_in_one_field at hd
  constructor
  · split_ifs at hb ⊢ <;> simp only [decide_eq_true_eq] at hb ⊢ <;>
      rcases hd with ⟨d1, d2, d3, d4, d5⟩ | ⟨d1, d2, d3, d4, d5⟩ | ⟨d1, d2, d3, d4, d5⟩ |
        ⟨d1, d2, d3, d4, d5⟩ | ⟨d1, d2, d3, d4, d5⟩ <;> constructor <;> intro hh <;> omega
  · intro hm
    split_ifs at hb ⊢ <;> simp only [decide_eq_true_eq, decide_eq_false_iff_not] at hb ⊢ <;>
      rcases hd with ⟨d1, d2, d3, d4, d5⟩ | ⟨d1, d2, d3, d4, d5⟩ | ⟨d1, d2, d3, d4, d5⟩ |
        ⟨d1, d2, d3, d4, d5⟩ | ⟨d1, d2, d3, d4, d5⟩ <;> omega

/-- A witness of C19 (amended): the timestamp of `block_7_10` changed from 10
to 9 is detected (`10 + 9` is not twice the sum 8), while the change of its
sequence from 7 to 11 is mirrored (`8 + 12` is twice the timestamp 10). -/
theorem single_field_change_detected_unless_mirrored_witness :
    block_7_10.valid_magic = true ∧ differ_in_one_field block_7_10 block_7_9 ∧
    block_7_9.valid_magic = false ∧
    (block_11_10.valid_magic = true ↔
      block_11_10.magic = block_7_10.magic ∧
        ((block_11_10.timestamp ≠ block_7_10.timestamp ∧
            block_7_10.timestamp + block_11_10.timestamp = 2 * block_7_10.sum32) ∨
         (block_11_10.timestamp = block_7_10.timestamp ∧
            block_7_10.sum32 + block_11_10.sum32 = 2 * block_7_10.timestamp))) :=
  ⟨by decide, by decide,
   by
    have h := (single_field_change_detected_unless_mirrored block_7_10 block_7_9
      (by decide) (by decide) (by decide) (by decide)).1
    cases hv : block_7_9.valid_magic with
    | false => rfl
    | true => exact absurd (h.mp hv) (by decide),
   (single_field_change_detected_unless_mirrored block_7_10 block_11_10
      (by decide) (by decide) (by decide) (by decide)).1⟩

/-! ## Id bit packing (C17) -/

/-- Unpacking a packed id gives back its fields when they are in range. -/
theorem UniqID_id_value (i : ID) (h : i.in_range) : UniqID.id (UniqID.value i) = i := by
  obtain ⟨h1, h2, h3, h4, h5, h6, h7⟩ := h
  cases i
  simp only [UniqID.id, UniqID.value] at *
  simp only [ID.mk.injEq]
  refine ⟨?_, ?_, ?_, ?_, ?_, ?_, ?_⟩ <;> omega

/-- C17. Id bit packing round trip, with the layout `user:6 | label:8 | year:7
| month:4 | day:5 | hour:5 | seq:29`, least significant bits first: for ids
`i` and `j` whose fields are in range, unpacking the packed value of `i` gives
`i`, the packed value fits 64 bits, and equal packed values come from equal
fields; and for a calendar year from 2016 through 2143 (`tm_year + 1900`), the
year field that `get_uniq_id` assigns, plus `MU_BASE_YEAR = 2016`, is that
year. -/
theorem uniq_id_pack_round_trip (i j : ID) (now : Tm) (request : MessageHead) (label seq : Nat)
    (hi : i.in_range) (hj : j.in_range)
    (hY : 2016 ≤ now.tm_year + 1900 ∧ now.tm_year + 1900 ≤ 2143) :
    UniqID.id (UniqID.value i) = i ∧
    UniqID.value i < 18446744073709551616 ∧
    (UniqID.value i = UniqID.value j → i = j) ∧
    ((uniq_id_fields request label now seq).year : Int) + MU_BASE_YEAR = now.tm_year + 1900 := by
  refine ⟨UniqID_id_value i hi, ?_, ?_, ?_⟩
  · simp only [UniqID.value]
    omega
  · intro h
    rw [← UniqID_id_value i hi, ← UniqID_id_value j hj, h]
  · simp only [uniq_id_fields, MU_BASE_YEAR]
    omega

/-- A witness of C17: the id of user 5 and label 7 at 2023-11-14, 22 h, with
sequence field 100, and the year 2023. -/
theorem uniq_id_pack_round_trip_witness :
    UniqID.id (UniqID.value fields_5_7_100) = fields_5_7_100 ∧
    UniqID.value fields_5_7_100 = 3460089102789 ∧
    ((uniq_id_fields (request_frame REQUEST_UNIQ_ID 0 5 0) 7 tm_2023_11_14_22 100).year : Int)
      + MU_BASE_YEAR = 2023 :=
  ⟨(uniq_id_pack_round_trip fields_5_7_100 fields_5_7_100 tm_2023_11_14_22
      (request_frame REQUEST_UNIQ_ID 0 5 0) 7 100 (by decide) (by decide) (by decide)).1,
   by decide,
   (uniq_id_pack_round_trip fields_5_7_100 fields_5_7_100 tm_2023_11_14_22
      (request_frame REQUEST_UNIQ_ID 0 5 0) 7 100 (by decide) (by decide) (by decide)).2.2.2⟩

/-! ## The id assembler (C15, C16) -/

/-- The cache refresh in terms of `get_uniq_id_now`: it returns exactly when
`localtime` is not called or does not return `NULL`, and then the cached
decomposition is that of `get_uniq_id_now`, while the label and what was
recorded of the last id are as before. -/
theorem get_uniq_id_refresh_spec (env : Env) (request : MessageHead) (a : Agent) :
    (get_uniq_id_now env request a = none → get_uniq_id_refresh env request a = none) ∧
    (∀ now : Tm, get_uniq_id_now env request a = some now →
      ∃ a2 : Agent, get_uniq_id_refresh env request a = some a2 ∧ a2.old_tm = now ∧
        a2.seq_block.label = a.seq_block.label ∧ recorded a2 = recorded a ∧
        ∀ i seq, overflow_detected a2 i seq = overflow_detected a i seq) := by
  have key : ∀ t : Int,
      (env.localtime t = none →
        (match env.localtime t with
          | none => none
          | some tm => some { a with old_tm := tm, old_time := t }) = none) ∧
      (∀ now : Tm, env.localtime t = some now →
        ∃ a2 : Agent,
          (match env.localtime t with
            | none => none
            | some tm => some { a with old_tm := tm, old_time := t }) = some a2 ∧
          a2.old_tm = now ∧ a2.seq_block.label = a.seq_block.label ∧ recorded a2 = recorded a ∧
          ∀ i seq, overflow_detected a2 i seq = overflow_detected a i seq) := by
    intro t
    cases env.localtime t with
    | none => exact ⟨fun _ => rfl, fun now h => by simp at h⟩
    | some tm =>
      refine ⟨fun h => by simp at h, fun now h => ?_⟩
      simp only [Option.some.injEq] at h
      exact ⟨_, rfl, h, rfl, rfl, fun _ _ => rfl⟩
  unfold get_uniq_id_now get_uniq_id_refresh
  dsimp only
  split_ifs
  all_goals first
    | exact key _
    | (refine ⟨fun h => by simp at h, fun now h => ?_⟩
       simp only [Option.some.injEq] at h
       exact ⟨_, rfl, h, rfl, rfl, fun _ _ => rfl⟩)

/-- The packing in terms of `uniq_id_fields` and `overflow_detected`. -/
theorem get_uniq_id_pack_spec (request : MessageHead) (seq : Nat) (a : Agent) :
    (overflow_detected a (uniq_id_fields request a.seq_block.label a.old_tm seq) seq →
      (get_uniq_id_pack request seq a).1 = 1 ∧
      recorded (get_uniq_id_pack request seq a).2 = recorded a) ∧
    (¬ overflow_detected a (uniq_id_fields request a.seq_block.label a.old_tm seq) seq →
      (get_uniq_id_pack request seq a).1
        = UniqID.value (uniq_id_fields request a.seq_block.label a.old_tm seq) ∧
      recorded (get_uniq_id_pack request seq a).2
        = (seq,
          ((uniq_id_fields request a.seq_block.label a.old_tm seq).year : Int),
          ((uniq_id_fields request a.seq_block.label a.old_tm seq).month : Int),
          ((uniq_id_fields request a.seq_block.label a.old_tm seq).day : Int),
          ((uniq_id_fields request a.seq_block.label a.old_tm seq).hour : Int))) := by
  unfold get_uniq_id_pack overflow_detected uniq_id_fields recorded
  dsimp only
  constructor
  · intro h
    rw [if_pos h]
    exact ⟨rfl, rfl⟩
  · intro h
    rw [if_neg h]
    exact ⟨rfl, rfl⟩

/-- With a month of the calendar (`tm_mon` in 0..11), the packed value is at
least `2^21`. -/
theorem uniq_id_fields_value_ge (request : MessageHead) (label : Nat) (now : Tm) (seq : Nat)
    (hmon : 0 ≤ now.tm_mon ∧ now.tm_mon ≤ 11) :
    2097152 ≤ UniqID.value (uniq_id_fields request label now seq) := by
  simp only [UniqID.value, uniq_id_fields]
  omega

/-- What the assembler reads of the agent is not written by `inc_sequence`. -/
theorem assembler_view_of_untouched {a b : Agent} (h : untouched b = untouched a)
    (env : Env) (request : MessageHead) :
    get_uniq_id_now env request b = get_uniq_id_now env request a ∧
    b.seq_block.label = a.seq_block.label ∧ recorded b = recorded a ∧
    ∀ i seq, overflow_detected b i seq = overflow_detected a i seq := by
  obtain ⟨_, h2, _, h4, h5, h6, h7, h8, h9, h10, _, _, _, h14, _, _⟩ := untouched_fields h
  refine ⟨?_, h14, ?_, ?_⟩
  · unfold get_uniq_id_now
    rw [h2, h9, h10]
  · unfold recorded
    rw [h4, h5, h6, h7, h8]
  · intro i seq
    unfold overflow_detected
    rw [h4, h5, h6, h7, h8]

/-- The method `get_uniq_id` once `inc_sequence` gave a sequence other than 0,
in terms of the agent before the call: it does not return when `localtime`
returns `NULL`; when the decomposition used is `now`, it returns 1 and leaves
what was recorded if the overflow is detected, and else returns the packed
value and records the new id. -/
theorem get_uniq_id_spec (env : Env) (w : Bool) (request : MessageHead) (a : Agent)
    (hseq : (inc_sequence env w 1 a).1 ≠ 0) :
    (get_uniq_id_now env request a = none → get_uniq_id env w request a = none) ∧
    (∀ now : Tm, get_uniq_id_now env request a = some now →
      (overflow_detected a
          (uniq_id_fields request a.seq_block.label now (inc_sequence env w 1 a).1)
          (inc_sequence env w 1 a).1 →
        (get_uniq_id env w request a).map Prod.fst = some 1 ∧
        (get_uniq_id env w request a).map (fun r => recorded r.2) = some (recorded a)) ∧
      (¬ overflow_detected a
          (uniq_id_fields request a.seq_block.label now (inc_sequence env w 1 a).1)
          (inc_sequence env w 1 a).1 →
        (get_uniq_id env w request a).map Prod.fst
          = some (UniqID.value
              (uniq_id_fields request a.seq_block.label now (inc_sequence env w 1 a).1)) ∧
        (get_uniq_id env w request a).map (fun r => recorded r.2)
          = some ((inc_sequence env w 1 a).1,
            ((uniq_id_fields request a.seq_block.label now (inc_sequence env w 1 a).1).year :
              Int),
            ((uniq_id_fields request a.seq_block.label now (inc_sequence env w 1 a).1).month :
              Int),
            ((uniq_id_fields request a.seq_block.label now (inc_sequence env w 1 a).1).day :
              Int),
            ((uniq_id_fields request a.seq_block.label now (inc_sequence env w 1 a).1).hour :
              Int)))) := by
  have hg : get_uniq_id env w request a
      = get_uniq_id_assemble env request (inc_sequence env w 1 a).1 (inc_sequence env w 1 a).2 := by
    unfold get_uniq_id
    dsimp only
    rw [if_neg hseq]
  obtain ⟨v1, v2, v3, v4⟩ :=
    assembler_view_of_untouched (untouched_inc_sequence env w 1 a) env request
  obtain ⟨r1, r2⟩ := get_uniq_id_refresh_spec env request (inc_sequence env w 1 a).2
  rw [v1] at r1 r2
  rw [hg]
  unfold get_uniq_id_assemble
  constructor
  · intro hn
    rw [r1 hn]
  · intro now hnow
    obtain ⟨a2, e1, e2, e3, e4, e5⟩ := r2 now hnow
    obtain ⟨p1, p2⟩ := get_uniq_id_pack_spec request (inc_sequence env w 1 a).1 a2
    simp only [e2, e3, e5, e4, v2, v3, v4] at p1 p2
    simp only [e1, Option.map_some', Option.some.injEq]
    exact ⟨p1, p2⟩

/-- C16. The sentinels never collide with a valid id: for every user (the
request), label (0 included), sequence and calendar decomposition with
`tm_mon` in 0..11 (month 1..12; any year, day and hour), the value packed by
`get_uniq_id` is neither 0 nor 1. So when the label has not expired, `io_error`
is not set, `inc_sequence` gives a sequence other than 0, the calendar
decomposition that `get_uniq_id` uses is `now` (`localtime`, if called, has
not returned `NULL`) and no overflow is detected,
`prepare_response_get_uniq_id` returns 0 (neither `MUE_STORE_SEQ` nor
`MUE_OVERFLOW`) and has prepared `RESPONSE_UNIQ_ID` carrying the packed id. -/
theorem sentinels_never_collide (env : Env) (w : Bool) (a : Agent) (request : MessageHead)
    (label : Nat) (now : Tm) (seq : Nat)
    (hmon : 0 ≤ now.tm_mon ∧ now.tm_mon ≤ 11) :
    UniqID.value (uniq_id_fields request label now seq) ≠ 0 ∧
    UniqID.value (uniq_id_fields request label now seq) ≠ 1 ∧
    (get_uniq_id_now env a.request_buffer a = some now →
      label_expired env a = false → a.io_error = false →
      (inc_sequence env w 1 a).1 ≠ 0 →
      ¬ overflow_detected a
        (uniq_id_fields a.request_buffer a.seq_block.label now (inc_sequence env w 1 a).1)
        (inc_sequence env w 1 a).1 →
      (prepare_response_get_uniq_id env w a).1 = 0 ∧
      (prepare_response_get_uniq_id env w a).2.response_buffer.type_ = RESPONSE_UNIQ_ID ∧
      (prepare_response_get_uniq_id env w a).2.response_buffer.value3
        = UniqID.value
            (uniq_id_fields a.request_buffer a.seq_block.label now (inc_sequence env w 1 a).1)) := by
  have hge := uniq_id_fields_value_ge request label now seq hmon
  refine ⟨by omega, by omega, ?_⟩
  intro hnow hx hio hseq hno
  have hv := (((get_uniq_id_spec env w a.request_buffer a hseq).2 now hnow).2 hno).1
  have hge2 := uniq_id_fields_value_ge a.request_buffer a.seq_block.label now
    (inc_sequence env w 1 a).1 hmon
  unfold prepare_response_get_uniq_id
  rw [if_neg (by simp [hx]), if_neg (by simp [hio])]
  cases hg : get_uniq_id env w a.request_buffer a with
  | none => rw [hg] at hv; simp at hv
  | some r =>
    rw [hg] at hv
    simp only [Option.map_some', Option.some.injEq] at hv
    dsimp only
    rw [if_neg (by omega), if_neg (by omega)]
    refine ⟨rfl, rfl, ?_⟩
    simp only [fill_response, MessageHead.update_magic]
    exact hv

/-- A witness of C16: the smallest id, of user 0, label 0 and sequence 0 at the
zero calendar decomposition, is `2^21 + 12 * 2^14`; and `id_request_agent`
answers a request of user 5 with the id of 2023-11-14, 22 h. -/
theorem sentinels_never_collide_witness :
    UniqID.value (uniq_id_fields (request_frame REQUEST_UNIQ_ID 0 0 0) 0 Tm.zero 0) = 2293760 ∧
    UniqID.value (uniq_id_fields (request_frame REQUEST_UNIQ_ID 0 0 0) 0 Tm.zero 0) ≠ 0 ∧
    UniqID.value (uniq_id_fields (request_frame REQUEST_UNIQ_ID 0 0 0) 0 Tm.zero 0) ≠ 1 ∧
    (prepare_response_get_uniq_id local_env true id_request_agent).1 = 0 ∧
    (prepare_response_get_uniq_id local_env true id_request_agent).2.response_buffer.value3
      = UniqID.value fields_5_7_100 :=
  ⟨by decide,
   (sentinels_never_collide local_env true id_request_agent (request_frame REQUEST_UNIQ_ID 0 0 0)
      0 Tm.zero 0 (by decide)).1,
   (sentinels_never_collide local_env true id_request_agent (request_frame REQUEST_UNIQ_ID 0 0 0)
      0 Tm.zero 0 (by decide)).2.1,
   ((sentinels_never_collide local_env true id_request_agent (request_frame REQUEST_UNIQ_ID 0 5 0)
      7 tm_2023_11_14_22 100 (by decide)).2.2
      (by decide) (by decide) (by decide) (by decide) (by decide)).1,
   ((sentinels_never_collide local_env true id_request_agent (request_frame REQUEST_UNIQ_ID 0 5 0)
      7 tm_2023_11_14_22 100 (by decide)).2.2
      (by decide) (by decide) (by decide) (by decide) (by decide)).2.2⟩

/-! ## The dispatcher on client requests -/

/-- The frame that `prepare_response_error` leaves in the response buffer. -/
theorem reply_view_prepare_response_error (env : Env) (c : Int) (a : Agent) :
    reply_view { to_master := false, frame := (prepare_response_error env c a).response_buffer }
      = (false, RESPONSE_ERROR, (c % 4294967296).toNat, a.request_buffer.echo) := rfl

/-- A `dispatch` that ends with an error code is answered by `RESPONSE_ERROR`. -/
theorem route_of_dispatch_error (env : Env) (w : Bool) (a b : Agent) (c : Int)
    (hd : dispatch env w (env.calc_magic a.request_buffer % 4294967296) a = (c, b, []))
    (h0 : c ≠ 0) (h1 : c ≠ -1) :
    route env w a = (prepare_response_error env c b,
      [{ to_master := false, frame := (prepare_response_error env c b).response_buffer }]) := by
  unfold route
  simp [hd, h0, h1]

/-- A client request to an agent whose label has expired. -/
theorem dispatch_expired (env : Env) (w : Bool) (m : Nat) (a : Agent)
    (ht : client_request a.request_buffer.type_) (hx : label_expired env a = true) :
    dispatch env w m a = (MUE_LABEL_EXPIRED, a, []) := by
  unfold dispatch prepare_response_get_label prepare_response_get_uniq_id
    prepare_response_get_uniq_seq prepare_response_get_label_and_seq
  rcases ht with ht | ht | ht | ht <;>
    simp [ht, hx, REQUEST_LABEL, REQUEST_UNIQ_ID, REQUEST_UNIQ_SEQ, REQUEST_LABEL_AND_SEQ]

/-- A client request to an agent whose `io_error` is set and whose label has
not expired. -/
theorem dispatch_latched (env : Env) (w : Bool) (m : Nat) (a : Agent)
    (ht : client_request a.request_buffer.type_) (hx : label_expired env a = false)
    (hio : a.io_error = true) :
    dispatch env w m a = (MUE_STORE_SEQ, a, []) := by
  unfold dispatch prepare_response_get_label prepare_response_get_uniq_id
    prepare_response_get_uniq_seq prepare_response_get_label_and_seq
  rcases ht with ht | ht | ht | ht <;>
    simp [ht, hx, hio, REQUEST_LABEL, REQUEST_UNIQ_ID, REQUEST_UNIQ_SEQ, REQUEST_LABEL_AND_SEQ]

/-- An allocating request whose `inc_sequence` returns 0. -/
theorem dispatch_store_failed (env : Env) (w : Bool) (m : Nat) (a : Agent)
    (ht : allocating_request a.request_buffer.type_) (hx : label_expired env a = false)
    (hio : a.io_error = false)
    (hz : (inc_sequence env w (request_deta a.request_buffer) a).1 = 0) :
    dispatch env w m a
      = (MUE_STORE_SEQ, (inc_sequence env w (request_deta a.request_buffer) a).2, []) := by
  unfold dispatch prepare_response_get_uniq_id get_uniq_id
    prepare_response_get_uniq_seq prepare_response_get_label_and_seq
  unfold request_deta at hz ⊢
  rcases ht with ht | ht | ht
  · rw [if_pos ht] at hz ⊢
    simp [ht, hx, hio, hz, REQUEST_LABEL, REQUEST_UNIQ_ID]
  · have hne : ¬ a.request_buffer.type_ = REQUEST_UNIQ_ID := by rw [ht]; decide
    rw [if_neg hne] at hz ⊢
    simp [ht, hx, hio, hz, REQUEST_LABEL, REQUEST_UNIQ_ID, REQUEST_UNIQ_SEQ]
  · have hne : ¬ a.request_buffer.type_ = REQUEST_UNIQ_ID := by rw [ht]; decide
    rw [if_neg hne] at hz ⊢
    simp [ht, hx, hio, hz, REQUEST_LABEL, REQUEST_UNIQ_ID, REQUEST_UNIQ_SEQ,
      REQUEST_LABEL_AND_SEQ]

/-- A `REQUEST_UNIQ_ID` whose `get_uniq_id` returns 1. -/
theorem dispatch_overflow (env : Env) (w : Bool) (m : Nat) (a b : Agent)
    (ht : a.request_buffer.type_ = REQUEST_UNIQ_ID) (hx : label_expired env a = false)
    (hio : a.io_error = false)
    (h1 : get_uniq_id env w a.request_buffer a = some (1, b)) :
    dispatch env w m a = (MUE_OVERFLOW, b, []) := by
  unfold dispatch prepare_response_get_uniq_id
  simp [ht, hx, hio, h1, REQUEST_LABEL, REQUEST_UNIQ_ID]

/-- A short write in `inc_sequence` sets `io_error`. -/
theorem inc_sequence_failed_io_error (env : Env) (deta : Nat) (a : Agent)
    (hn : store_needed env a) : (inc_sequence env false deta a).2.io_error = true := by
  unfold store_needed at hn
  unfold inc_sequence inc_sequence_store
  rw [if_pos hn]
  simp [store_sequence]

/-! ## Buffers and replies -/

theorem buffers_of_untouched {a b : Agent} (h : untouched b = untouched a) :
    buffers b = buffers a := by
  obtain ⟨_, _, _, _, _, _, _, _, _, _, h11, h12, _⟩ := untouched_fields h
  unfold buffers
  rw [h11, h12]

theorem buffers_get_uniq_id (env : Env) (w : Bool) (request : MessageHead) (a : Agent)
    (r : Nat × Agent) (h : get_uniq_id env w request a = some r) :
    buffers r.2 = buffers a :=
  (get_uniq_id_frame env w request a r h).2.trans
    (buffers_of_untouched (untouched_inc_sequence env w 1 a))

/-- What `fill_response` leaves in the response buffer is a reply. -/
theorem is_reply_fill (env : Env) (t v1 v2 v3 : Nat) (a b : Agent)
    (hb : buffers b = buffers a) (ht : reply_type t) :
    is_reply env a.request_buffer a.response_buffer.magic
      (fill_response env t v1 v2 v3 b).response_buffer := by
  simp only [buffers, Prod.mk.injEq] at hb
  obtain ⟨h1, h2⟩ := hb
  unfold is_reply magic_recomputed
  refine ⟨?_, ?_, ht⟩
  · show b.request_buffer.echo = a.request_buffer.echo
    rw [h1]
  · simp only [fill_response, MessageHead.update_magic, h2]

theorem handled_prepare_response_get_label (env : Env) (a : Agent) :
    handled env a (prepare_response_get_label env a).1 (prepare_response_get_label env a).2 := by
  unfold prepare_response_get_label
  split_ifs
  · exact Or.inr ⟨by simp [MUE_LABEL_EXPIRED, MUE_STORE_SEQ, MUE_OVERFLOW, MUE_INVALID_TYPE],
      by simp [MUE_LABEL_EXPIRED, MUE_STORE_SEQ, MUE_OVERFLOW, MUE_INVALID_TYPE], rfl⟩
  · exact Or.inr ⟨by simp [MUE_LABEL_EXPIRED, MUE_STORE_SEQ, MUE_OVERFLOW, MUE_INVALID_TYPE],
      by simp [MUE_LABEL_EXPIRED, MUE_STORE_SEQ, MUE_OVERFLOW, MUE_INVALID_TYPE], rfl⟩
  · exact Or.inl ⟨rfl, is_reply_fill env _ _ _ _ a a rfl (Or.inl rfl)⟩

/-- The handler of `REQUEST_UNIQ_ID` handles the request, unless `get_uniq_id`
does not return: then nothing is sent (result -1). -/
theorem handled_prepare_response_get_uniq_id (env : Env) (w : Bool) (a : Agent) :
    handled env a (prepare_response_get_uniq_id env w a).1
      (prepare_response_get_uniq_id env w a).2 ∨
    (prepare_response_get_uniq_id env w a).1 = -1 := by
  unfold prepare_response_get_uniq_id
  split_ifs
  · exact Or.inl (Or.inr
      ⟨by simp [MUE_LABEL_EXPIRED, MUE_STORE_SEQ, MUE_OVERFLOW, MUE_INVALID_TYPE],
       by simp [MUE_LABEL_EXPIRED, MUE_STORE_SEQ, MUE_OVERFLOW, MUE_INVALID_TYPE], rfl⟩)
  · exact Or.inl (Or.inr
      ⟨by simp [MUE_LABEL_EXPIRED, MUE_STORE_SEQ, MUE_OVERFLOW, MUE_INVALID_TYPE],
       by simp [MUE_LABEL_EXPIRED, MUE_STORE_SEQ, MUE_OVERFLOW, MUE_INVALID_TYPE], rfl⟩)
  · cases hg : get_uniq_id env w a.request_buffer a with
    | none => exact Or.inr rfl
    | some r =>
      have h := buffers_get_uniq_id env w a.request_buffer a r hg
      dsimp only
      split_ifs
      · exact Or.inl (Or.inr
          ⟨by simp [MUE_LABEL_EXPIRED, MUE_STORE_SEQ, MUE_OVERFLOW, MUE_INVALID_TYPE],
           by simp [MUE_LABEL_EXPIRED, MUE_STORE_SEQ, MUE_OVERFLOW, MUE_INVALID_TYPE], h⟩)
      · exact Or.inl (Or.inr
          ⟨by simp [MUE_LABEL_EXPIRED, MUE_STORE_SEQ, MUE_OVERFLOW, MUE_INVALID_TYPE],
           by simp [MUE_LABEL_EXPIRED, MUE_STORE_SEQ, MUE_OVERFLOW, MUE_INVALID_TYPE], h⟩)
      · exact Or.inl (Or.inl ⟨rfl, is_reply_fill env _ _ _ _ a _ h (Or.inr (Or.inl rfl))⟩)

theorem handled_prepare_response_get_uniq_seq (env : Env) (w : Bool) (a : Agent) :
    handled env a (prepare_response_get_uniq_seq env w a).1
      (prepare_response_get_uniq_seq env w a).2 := by
  have h := buffers_of_untouched
    (untouched_inc_sequence env w (a.request_buffer.value1 % 65536) a)
  unfold prepare_response_get_uniq_seq
  dsimp only
  split_ifs
  · exact Or.inr ⟨by simp [MUE_LABEL_EXPIRED, MUE_STORE_SEQ, MUE_OVERFLOW, MUE_INVALID_TYPE],
      by simp [MUE_LABEL_EXPIRED, MUE_STORE_SEQ, MUE_OVERFLOW, MUE_INVALID_TYPE], rfl⟩
  · exact Or.inr ⟨by simp [MUE_LABEL_EXPIRED, MUE_STORE_SEQ, MUE_OVERFLOW, MUE_INVALID_TYPE],
      by simp [MUE_LABEL_EXPIRED, MUE_STORE_SEQ, MUE_OVERFLOW, MUE_INVALID_TYPE], rfl⟩
  · exact Or.inr ⟨by simp [MUE_LABEL_EXPIRED, MUE_STORE_SEQ, MUE_OVERFLOW, MUE_INVALID_TYPE],
      by simp [MUE_LABEL_EXPIRED, MUE_STORE_SEQ, MUE_OVERFLOW, MUE_INVALID_TYPE], h⟩
  · exact Or.inl ⟨rfl, is_reply_fill env _ _ _ _ a _ h (Or.inr (Or.inr (Or.inl rfl)))⟩

theorem handled_prepare_response_get_label_and_seq (env : Env) (w : Bool) (a : Agent) :
    handled env a (prepare_response_get_label_and_seq env w a).1
      (prepare_response_get_label_and_seq env w a).2 := by
  have h := buffers_of_untouched
    (untouched_inc_sequence env w (a.request_buffer.value1 % 65536) a)
  unfold prepare_response_get_label_and_seq
  dsimp only
  split_ifs
  · exact Or.inr ⟨by simp [MUE_LABEL_EXPIRED, MUE_STORE_SEQ, MUE_OVERFLOW, MUE_INVALID_TYPE],
      by simp [MUE_LABEL_EXPIRED, MUE_STORE_SEQ, MUE_OVERFLOW, MUE_INVALID_TYPE], rfl⟩
  · exact Or.inr ⟨by simp [MUE_LABEL_EXPIRED, MUE_STORE_SEQ, MUE_OVERFLOW, MUE_INVALID_TYPE],
      by simp [MUE_LABEL_EXPIRED, MUE_STORE_SEQ, MUE_OVERFLOW, MUE_INVALID_TYPE], rfl⟩
  · exact Or.inr ⟨by simp [MUE_LABEL_EXPIRED, MUE_STORE_SEQ, MUE_OVERFLOW, MUE_INVALID_TYPE],
      by simp [MUE_LABEL_EXPIRED, MUE_STORE_SEQ, MUE_OVERFLOW, MUE_INVALID_TYPE], h⟩
  · exact Or.inl ⟨rfl, is_reply_fill env _ _ _ _ a _ h (Or.inr (Or.inr (Or.inr (Or.inl rfl))))⟩

/-- The frames that `get_label` sends go to a master. -/
theorem get_label_asynchronous_sends (env : Env) (a : Agent) :
    ∀ s ∈ (get_label env true [] a).2.2, s.to_master = true := by
  unfold get_label
  split_ifs
  · simp
  · simp [get_label_request]
  · simp_all

/-- What `dispatch` does: it handles a client request, or it returns -1 and
has sent to masters only. -/
theorem dispatch_handled (env : Env) (w : Bool) (m : Nat) (a : Agent) :
    (handled env a (dispatch env w m a).1 (dispatch env w m a).2.1 ∧
      (dispatch env w m a).2.2 = []) ∨
    ((dispatch env w m a).1 = -1 ∧ ∀ s ∈ (dispatch env w m a).2.2, s.to_master = true) := by
  unfold dispatch
  dsimp only
  split_ifs
  · exact Or.inl ⟨handled_prepare_response_get_label env a, rfl⟩
  · rcases handled_prepare_response_get_uniq_id env w a with h | h
    · exact Or.inl ⟨h, rfl⟩
    · exact Or.inr ⟨h, by simp⟩
  · exact Or.inl ⟨handled_prepare_response_get_uniq_seq env w a, rfl⟩
  · exact Or.inl ⟨handled_prepare_response_get_label_and_seq env w a, rfl⟩
  · exact Or.inr ⟨rfl, by simp⟩
  · refine Or.inr ⟨by unfold on_response_error; split_ifs <;> rfl, ?_⟩
    unfold on_response_error
    split_ifs
    · exact get_label_asynchronous_sends env _
    · simp
  · exact Or.inr ⟨rfl, by simp⟩
  · exact Or.inr ⟨by unfold on_response_label; dsimp only; split_ifs <;> rfl, by simp⟩
  · exact Or.inl ⟨Or.inr ⟨by simp [MUE_LABEL_EXPIRED, MUE_STORE_SEQ, MUE_OVERFLOW, MUE_INVALID_TYPE],
      by simp [MUE_LABEL_EXPIRED, MUE_STORE_SEQ, MUE_OVERFLOW, MUE_INVALID_TYPE], rfl⟩, rfl⟩

/-- Every frame that `route` sends to the client is a reply to the request in
the buffer. -/
theorem route_replies (env : Env) (w : Bool) (a : Agent) (s : Sent)
    (hs : s ∈ (route env w a).2) (hc : s.to_master = false) :
    is_reply env a.request_buffer a.response_buffer.magic s.frame := by
  unfold route at hs
  dsimp only at hs
  rw [if_pos (by split_ifs <;> rfl)] at hs
  rcases dispatch_handled env w (env.calc_magic a.request_buffer % 4294967296) a with
    ⟨hh, hnil⟩ | ⟨hm, hall⟩
  · rw [hnil] at hs
    rcases hh with ⟨h0, hr⟩ | ⟨h0, h1, hb⟩
    · have e1 : ¬ ((dispatch env w (env.calc_magic a.request_buffer % 4294967296) a).1 ≠ 0 ∧
          (dispatch env w (env.calc_magic a.request_buffer % 4294967296) a).1 ≠ -1) := by
        simp [h0]
      have e2 : (dispatch env w (env.calc_magic a.request_buffer % 4294967296) a).1 ≠ -1 := by
        simp [h0]
      simp only [if_neg e1, if_pos e2, List.nil_append, List.mem_singleton] at hs
      rw [hs]
      exact hr
    · have e1 : (dispatch env w (env.calc_magic a.request_buffer % 4294967296) a).1 ≠ 0 ∧
          (dispatch env w (env.calc_magic a.request_buffer % 4294967296) a).1 ≠ -1 := ⟨h0, h1⟩
      simp only [if_pos e1, if_pos h1, List.nil_append, List.mem_singleton] at hs
      rw [hs]
      exact is_reply_fill env _ _ _ _ a _ hb (Or.inr (Or.inr (Or.inr (Or.inr rfl))))
  · have e2 : ¬ (dispatch env w (env.calc_magic a.request_buffer % 4294967296) a).1 ≠ -1 := by
      simp [hm]
    simp only [if_neg e2] at hs
    have := hall s hs
    rw [hc] at this
    exact absurd this (by decide)

/-! ## Dropped datagrams (C11) -/

/-- C11 as stated fails: a well-sized `REQUEST_UNIQ_SEQ` frame whose major
version is 1, not `MU_MAJOR_VERSION = 0`, is served by `fresh_agent`: the reply
is `RESPONSE_UNIQ_SEQ` with sequence 100 and the echo 9 of the request, and the
in-memory sequence moves from 100 to 101. -/
theorem other_major_version_is_served :
    other_version_request.major_ver ≠ MU_MAJOR_VERSION ∧
    fresh_agent.seq_block.sequence = 100 ∧
    (on_receive local_env true 30 other_version_request fresh_agent).2.map reply_view
      = [(false, RESPONSE_UNIQ_SEQ, 100, 9)] ∧
    (on_receive local_env true 30 other_version_request fresh_agent).1.seq_block.sequence
      = 101 := by
  decide

/-- C11 (amended). The dispatcher drops every received datagram whose byte
count differs from its `len` field or is less than the size of a frame: no
frame is sent and no member of the agent changes, except that the request
buffer holds the datagram received (nothing at all changes when `receive_from`
returned -1). The major version of a datagram is not looked at. -/
theorem mis_sized_datagram_is_dropped (env : Env) (w : Bool) (bytes : Int) (head : MessageHead)
    (a : Agent)
    (h : bytes ≠ (head.len : Int) ∨ bytes < (env.sizeof_MessageHead : Int)) :
    (on_receive env w bytes head a).2 = [] ∧
    ((on_receive env w bytes head a).1 = a ∨
      (on_receive env w bytes head a).1 = { a with request_buffer := head }) := by
  unfold on_receive
  dsimp only
  split_ifs with h1 h2 h3
  · exact ⟨rfl, Or.inl rfl⟩
  · exact ⟨rfl, Or.inr rfl⟩
  · exact ⟨rfl, Or.inr rfl⟩
  · rcases h with h | h
    · exact absurd h h3
    · exact absurd h h2

/-- A witness of C11 (amended): 30 bytes are received whose `len` field is 31. -/
theorem mis_sized_datagram_is_dropped_witness :
    (on_receive local_env true 30 wrong_len_request fresh_agent).2 = [] ∧
    (on_receive local_env true 30 wrong_len_request fresh_agent).1
      = { fresh_agent with request_buffer := wrong_len_request } :=
  ⟨(mis_sized_datagram_is_dropped local_env true 30 wrong_len_request fresh_agent
      (Or.inl (by decide))).1,
   by decide⟩

/-! ## Error gating (C13) -/

/-- The reply to a request whose `dispatch` ends with an error code. -/
theorem route_gated_reply (env : Env) (w : Bool) (a b : Agent) (c : Int)
    (hd : dispatch env w (env.calc_magic a.request_buffer % 4294967296) a = (c, b, []))
    (h0 : c ≠ 0) (h1 : c ≠ -1) :
    (route env w a).1 = prepare_response_error env c b ∧
    (route env w a).2.map reply_view
      = [(false, RESPONSE_ERROR, (c % 4294967296).toNat, b.request_buffer.echo)] := by
  rw [route_of_dispatch_error env w a b c hd h0 h1]
  exact ⟨rfl, rfl⟩

/-- C13. Error gating order and codes, for a well-sized datagram of one of the
four client request types. If the label is expired the reply is
`RESPONSE_ERROR` with `MUE_LABEL_EXPIRED = 201600004`, whatever `io_error` is.
Otherwise, if `io_error` is set, the reply is `RESPONSE_ERROR` with
`MUE_STORE_SEQ = 201600002`. Otherwise, for the three allocating types, when
the block has to be stored and `pwrite` comes back short, `inc_sequence`
returns 0, `io_error` is set, the in-memory sequence is as before and the
reply is `RESPONSE_ERROR` with `MUE_STORE_SEQ`; and for `REQUEST_UNIQ_ID`, when
`get_uniq_id` returns 1, the reply is `RESPONSE_ERROR` with `MUE_OVERFLOW =
201600003`. Every reply carries the echo of the request. -/
theorem error_gating_order (env : Env) (w : Bool) (bytes : Int) (head : MessageHead) (a : Agent)
    (hlen : bytes = (head.len : Int)) (hsz : (env.sizeof_MessageHead : Int) ≤ bytes)
    (ht : client_request head.type_) :
    (label_expired env a = true →
      (on_receive env w bytes head a).2.map reply_view
        = [(false, RESPONSE_ERROR, 201600004, head.echo)]) ∧
    (label_expired env a = false → a.io_error = true →
      (on_receive env w bytes head a).2.map reply_view
        = [(false, RESPONSE_ERROR, 201600002, head.echo)]) ∧
    (label_expired env a = false → a.io_error = false → allocating_request head.type_ →
      store_needed env a → w = false →
      (inc_sequence env w (request_deta head) { a with request_buffer := head }).1 = 0 ∧
      (on_receive env w bytes head a).1.io_error = true ∧
      (on_receive env w bytes head a).1.seq_block.sequence = a.seq_block.sequence ∧
      (on_receive env w bytes head a).2.map reply_view
        = [(false, RESPONSE_ERROR, 201600002, head.echo)]) ∧
    (label_expired env a = false → a.io_error = false → head.type_ = REQUEST_UNIQ_ID →
      (get_uniq_id env w head { a with request_buffer := head }).map Prod.fst = some 1 →
      (on_receive env w bytes head a).2.map reply_view
        = [(false, RESPONSE_ERROR, 201600003, head.echo)]) := by
  rw [on_receive_well_sized env w bytes head a hlen hsz]
  refine ⟨?_, ?_, ?_, ?_⟩
  · intro hx
    exact (route_gated_reply env w _ _ _
      (dispatch_expired env w _ { a with request_buffer := head } ht hx)
      (by decide) (by decide)).2
  · intro hx hio
    exact (route_gated_reply env w _ _ _
      (dispatch_latched env w _ { a with request_buffer := head } ht hx hio)
      (by decide) (by decide)).2
  · intro hx hio hta hn hw
    subst hw
    obtain ⟨f1, f2, _, _⟩ := inc_sequence_failed env (request_deta head)
      { a with request_buffer := head } hn
    have f3 := inc_sequence_failed_io_error env (request_deta head)
      { a with request_buffer := head } hn
    have hb := buffers_of_untouched (untouched_inc_sequence env false (request_deta head)
      { a with request_buffer := head })
    obtain ⟨g1, g2⟩ := route_gated_reply env false _ _ _
      (dispatch_store_failed env false _ { a with request_buffer := head } hta hx hio f1)
      (by decide) (by decide)
    refine ⟨f1, ?_, ?_, ?_⟩
    · rw [g1]
      exact f3
    · rw [g1]
      exact f2
    · rw [g2]
      simp only [buffers, Prod.mk.injEq] at hb
      rw [hb.1]
      rfl
  · intro hx hio hty h1
    cases hg : get_uniq_id env w head { a with request_buffer := head } with
    | none => rw [hg] at h1; simp at h1
    | some r =>
      obtain ⟨v, b⟩ := r
      rw [hg] at h1
      simp only [Option.map_some', Option.some.injEq] at h1
      subst h1
      have hb := buffers_get_uniq_id env w head { a with request_buffer := head } (1, b) hg
      obtain ⟨_, g2⟩ := route_gated_reply env w _ _ _
        (dispatch_overflow env w _ { a with request_buffer := head } b hty hx hio hg)
        (by decide) (by decide)
      rw [g2]
      simp only [buffers, Prod.mk.injEq] at hb
      rw [hb.1]
      rfl

/-! ## Echo correlation (C20) -/

/-- C20. Echo correlation: every frame that the agent sends to the client on
the receipt of a datagram `head` (a success reply or `RESPONSE_ERROR`) carries
the echo of `head`, has one of the five reply types, and its magic is the
`calc_magic` of the frame with all its other fields set (the magic field
holding what the response buffer held before). -/
theorem echo_correlation (env : Env) (w : Bool) (bytes : Int) (head : MessageHead) (a : Agent)
    (s : Sent) (hs : s ∈ (on_receive env w bytes head a).2) (hc : s.to_master = false) :
    s.frame.echo = head.echo ∧
    s.frame.magic = env.calc_magic { s.frame with magic := a.response_buffer.magic } ∧
    reply_type s.frame.type_ := by
  unfold on_receive at hs
  dsimp only at hs
  split_ifs at hs
  · simp at hs
  · simp at hs
  · simp at hs
  · exact route_replies env w { a with request_buffer := head } s hs hc

/-! ## The latch `io_error` (C12) -/

/-- The latch view read off the store fields and `io_error`. -/
theorem latch_view_of_store_fields {a b : Agent} (h : store_fields b = store_fields a)
    (hio : b.io_error = a.io_error) : latch_view b = latch_view a := by
  simp only [store_fields, Prod.mk.injEq] at h
  unfold latch_view
  rw [hio, h.1, h.2.2.2]

/-- Preparing an error reply leaves the latch view. -/
theorem latch_view_prepare_response_error (env : Env) (c : Int) (a : Agent) :
    latch_view (prepare_response_error env c a) = latch_view a := rfl

/-- Reading the clock, with the renewal it may start, leaves the latch view. -/
theorem latch_view_on_timer (env : Env) (now : Int) (a : Agent) :
    latch_view (on_timer env now a).1 = latch_view a := by
  refine latch_view_of_store_fields (store_fields_on_timer env now a) ?_
  have h := (get_label_sequence env true [] { a with current_time := now }).2.1
  unfold on_timer rent_label
  dsimp only
  split_ifs
  · exact h
  · exact h
  · rfl
  · rfl

theorem latch_view_on_response_error (env : Env) (a : Agent) :
    latch_view (on_response_error env a).2.1 = latch_view a := by
  refine latch_view_of_store_fields (store_fields_on_response_error env a) ?_
  unfold on_response_error
  split_ifs
  · exact (get_label_sequence env true [] _).2.1
  · rfl

theorem latch_view_on_response_label (w : Bool) (a : Agent) (h : a.io_error = true) :
    latch_view (on_response_label w a).2 = latch_view a := by
  unfold on_response_label
  dsimp only
  split_ifs
  · unfold store_sequence latch_view
    cases w <;> simp [h, SeqBlock.update_label]
  · rfl

/-- With `io_error` set, `dispatch` leaves the latch, the in-memory sequence
and the history as they are. -/
theorem latch_view_dispatch (env : Env) (w : Bool) (m : Nat) (a : Agent)
    (h : a.io_error = true) : latch_view (dispatch env w m a).2.1 = latch_view a := by
  unfold dispatch
  dsimp only
  split_ifs
  · unfold prepare_response_get_label
    split_ifs <;> rfl
  · unfold prepare_response_get_uniq_id
    rw [h]
    split_ifs <;> first | rfl | simp_all
  · unfold prepare_response_get_uniq_seq
    rw [h]
    split_ifs <;> first | rfl | simp_all
  · unfold prepare_response_get_label_and_seq
    rw [h]
    split_ifs <;> first | rfl | simp_all
  · rfl
  · exact latch_view_on_response_error env a
  · rfl
  · exact latch_view_on_response_label w a h
  · rfl

theorem latch_view_route (env : Env) (w : Bool) (a : Agent) (h : a.io_error = true) :
    latch_view (route env w a).1 = latch_view a := by
  have hd := latch_view_dispatch env w (env.calc_magic a.request_buffer % 4294967296) a h
  have hr : latch_view (route env w a).1
      = latch_view (dispatch env w (env.calc_magic a.request_buffer % 4294967296) a).2.1 := by
    unfold route
    dsimp only
    split_ifs <;> first | rfl | (exfalso; simp_all)
  rw [hr]
  exact hd

theorem latch_view_on_event (env : Env) (e : Event) (a : Agent) (h : a.io_error = true) :
    latch_view (on_event env e a).1 = latch_view a := by
  cases e with
  | timer now => exact latch_view_on_timer env now a
  | receive w bytes head =>
    unfold on_event on_receive
    dsimp only
    split_ifs
    · rfl
    · rfl
    · rfl
    · exact latch_view_route env w { a with request_buffer := head } h

theorem latch_view_on_run (env : Env) (evs : List Event) (a : Agent) (h : a.io_error = true) :
    latch_view (on_run env evs a).1 = latch_view a := by
  induction evs generalizing a with
  | nil => rfl
  | cons e es ih =>
    have h1 := latch_view_on_event env e a h
    have hio : (on_event env e a).1.io_error = true := by
      have := congrArg Prod.fst h1
      simp only [latch_view] at this
      rw [this, h]
    unfold on_run
    dsimp only
    rw [ih _ hio, h1]

/-- C12. The latch `io_error` is sticky and gates service. A `store_sequence`
whose `pwrite` comes back short sets it. From an agent whose `io_error` is
set, after any list of events (datagrams of any type and size, clock
readings with their renewals), `io_error` is still set and the in-memory
sequence and the ranges handed out are as before; and then every well-sized
datagram of the four client request types is answered by exactly one frame,
`RESPONSE_ERROR` (with `MUE_LABEL_EXPIRED` when the label is expired, else
`MUE_STORE_SEQ`) carrying the echo of the request, and leaves the in-memory
sequence and the ranges handed out as before. -/
theorem io_error_latch_is_sticky (env : Env) (evs : List Event) (a : Agent)
    (h : a.io_error = true) :
    (∀ b : Agent, (store_sequence false b).2.io_error = true) ∧
    (on_run env evs a).1.io_error = true ∧
    (on_run env evs a).1.seq_block.sequence = a.seq_block.sequence ∧
    (on_run env evs a).1.issued = a.issued ∧
    ∀ (w : Bool) (bytes : Int) (head : MessageHead),
      bytes = (head.len : Int) → (env.sizeof_MessageHead : Int) ≤ bytes →
      client_request head.type_ →
      (on_receive env w bytes head (on_run env evs a).1).2.map reply_view
        = [(false, RESPONSE_ERROR,
            if label_expired env (on_run env evs a).1 = true then 201600004 else 201600002,
            head.echo)] ∧
      (on_receive env w bytes head (on_run env evs a).1).1.seq_block.sequence
        = a.seq_block.sequence ∧
      (on_receive env w bytes head (on_run env evs a).1).1.issued = a.issued := by
  have hv := latch_view_on_run env evs a h
  simp only [latch_view, Prod.mk.injEq] at hv
  obtain ⟨v1, v2, v3⟩ := hv
  rw [h] at v1
  refine ⟨fun b => rfl, v1, v2, v3, ?_⟩
  intro w bytes head hlen hsz ht
  have he := latch_view_on_event env (Event.receive w bytes head) (on_run env evs a).1 v1
  simp only [latch_view, Prod.mk.injEq, on_event] at he
  refine ⟨?_, by rw [he.2.1, v2], by rw [he.2.2, v3]⟩
  rw [on_receive_well_sized env w bytes head _ hlen hsz]
  by_cases hx : label_expired env (on_run env evs a).1 = true
  · rw [if_pos hx]
    exact (route_gated_reply env w _ _ _
      (dispatch_expired env w _ { (on_run env evs a).1 with request_buffer := head } ht hx)
      (by decide) (by decide)).2
  · rw [if_neg hx]
    have hx2 : label_expired env (on_run env evs a).1 = false := by
      simpa using hx
    exact (route_gated_reply env w _ _ _
      (dispatch_latched env w _ { (on_run env evs a).1 with request_buffer := head } ht hx2 v1)
      (by decide) (by decide)).2

/-! ## Witnesses of the gating claims -/

/-- A witness of C13: an expired and latched agent answers `MUE_LABEL_EXPIRED`;
a latched agent whose label cannot expire answers `MUE_STORE_SEQ`; a short
write at `agent_past_window` sets `io_error`, keeps the in-memory sequence
(220) and answers `MUE_STORE_SEQ`; and `agent_after_id_200` answers
`MUE_OVERFLOW`. -/
theorem error_gating_order_witness :
    (on_receive master_env true 30 (request_frame REQUEST_LABEL 3 0 0)
        expired_latched_agent).2.map reply_view = [(false, RESPONSE_ERROR, 201600004, 3)] ∧
    (on_receive local_env true 30 (request_frame REQUEST_LABEL 3 0 0)
        latched_agent).2.map reply_view = [(false, RESPONSE_ERROR, 201600002, 3)] ∧
    agent_past_window.io_error = false ∧ agent_past_window.seq_block.sequence = 220 ∧
    ((inc_sequence local_env false (request_deta (request_frame REQUEST_UNIQ_SEQ 3 1 0))
        { agent_past_window with request_buffer := request_frame REQUEST_UNIQ_SEQ 3 1 0 }).1 = 0 ∧
      (on_receive local_env false 30 (request_frame REQUEST_UNIQ_SEQ 3 1 0)
        agent_past_window).1.io_error = true ∧
      (on_receive local_env false 30 (request_frame REQUEST_UNIQ_SEQ 3 1 0)
        agent_past_window).1.seq_block.sequence = agent_past_window.seq_block.sequence ∧
      (on_receive local_env false 30 (request_frame REQUEST_UNIQ_SEQ 3 1 0)
        agent_past_window).2.map reply_view = [(false, RESPONSE_ERROR, 201600002, 3)]) ∧
    (on_receive local_env true 30 (request_frame REQUEST_UNIQ_ID 3 5 0)
        agent_after_id_200).2.map reply_view = [(false, RESPONSE_ERROR, 201600003, 3)] :=
  ⟨(error_gating_order master_env true 30 (request_frame REQUEST_LABEL 3 0 0)
      expired_latched_agent rfl (by decide) (by decide)).1 (by decide),
   (error_gating_order local_env true 30 (request_frame REQUEST_LABEL 3 0 0)
      latched_agent rfl (by decide) (by decide)).2.1 (by decide) (by decide),
   by decide, by decide,
   (error_gating_order local_env false 30 (request_frame REQUEST_UNIQ_SEQ 3 1 0)
      agent_past_window rfl (by decide) (by decide)).2.2.1
      (by decide) (by decide) (by decide) (by decide) rfl,
   (error_gating_order local_env true 30 (request_frame REQUEST_UNIQ_ID 3 5 0)
      agent_after_id_200 rfl (by decide) (by decide)).2.2.2
      (by decide) (by decide) rfl (by decide)⟩

/-- A witness of C12: `latched_agent` after `latch_events` (a clock reading, a
sequence request, a `RESPONSE_LABEL` and a `RESPONSE_ERROR` frame): `io_error`
is still set, the in-memory sequence is still 100, the sequence request was
answered with `MUE_STORE_SEQ`, and so is a `REQUEST_UNIQ_ID` after them. -/
theorem io_error_latch_is_sticky_witness :
    latched_agent.io_error = true ∧
    (on_run local_env latch_events latched_agent).1.io_error = true ∧
    (on_run local_env latch_events latched_agent).1.seq_block.sequence = 100 ∧
    (on_run local_env latch_events latched_agent).2.map reply_view
      = [(false, RESPONSE_ERROR, 201600002, 0)] ∧
    (on_receive local_env true 30 (request_frame REQUEST_UNIQ_ID 3 5 0)
        (on_run local_env latch_events latched_agent).1).2.map reply_view
      = [(false, RESPONSE_ERROR, 201600002, 3)] :=
  ⟨by decide,
   (io_error_latch_is_sticky local_env latch_events latched_agent (by decide)).2.1,
   (io_error_latch_is_sticky local_env latch_events latched_agent (by decide)).2.2.1,
   by decide,
   ((io_error_latch_is_sticky local_env latch_events latched_agent (by decide)).2.2.2.2
      true 30 (request_frame REQUEST_UNIQ_ID 3 5 0) rfl (by decide) (by decide)).1⟩

/-- A witness of C20: in `summing_env`, whose magic depends on the frame, the
reply to a `REQUEST_UNIQ_SEQ` frame of echo 9 carries echo 9 and the magic
`6 + 9 + 100 + 0` of its own fields. -/
theorem echo_correlation_witness :
    (on_receive summing_env true 30 (request_frame REQUEST_UNIQ_SEQ 9 1 0) fresh_agent).2
      = [uniq_seq_reply_9] ∧
    uniq_seq_reply_9.frame.echo = 9 ∧
    uniq_seq_reply_9.frame.magic = 6 + 9 + 100 + 0 :=
  ⟨by decide,
   (echo_correlation summing_env true 30 (request_frame REQUEST_UNIQ_SEQ 9 1 0) fresh_agent
      uniq_seq_reply_9 (by decide) (by decide)).1,
   (echo_correlation summing_env true 30 (request_frame REQUEST_UNIQ_SEQ 9 1 0) fresh_agent
      uniq_seq_reply_9 (by decide) (by decide)).2.1⟩

/-! ## Label 0 (C14) -/

/-- C14 fails in the code: an agent of `master_env` that holds label 7 handles
`RESPONSE_ERROR` with `value1 = MUE_LABEL_NOT_HOLD`; its label is then 0 (and it
asks the master for a label again), the label has not expired and `io_error`
is not set, and before any `RESPONSE_LABEL` arrives the four client requests
are served: `RESPONSE_LABEL` and `RESPONSE_LABEL_AND_SEQ` carry label 0,
`RESPONSE_UNIQ_SEQ` carries sequence 100 and `RESPONSE_UNIQ_ID` carries an id
whose label field is 0. -/
theorem label_zero_is_served :
    leased_start.1 = true ∧ leased_start.2.1.seq_block.label = 7 ∧
    not_held.1.seq_block.label = 0 ∧
    not_held.2.map reply_view = [(true, REQUEST_LABEL, 0, 1)] ∧
    label_expired master_env not_held.1 = false ∧ not_held.1.io_error = false ∧
    (on_receive master_env true 30 (request_frame REQUEST_LABEL 3 0 0) not_held.1).2.map
        reply_view = [(false, RESPONSE_LABEL, 0, 3)] ∧
    (on_receive master_env true 30 (request_frame REQUEST_LABEL_AND_SEQ 3 1 0) not_held.1).2.map
        reply_view = [(false, RESPONSE_LABEL_AND_SEQ, 0, 3)] ∧
    (on_receive master_env true 30 (request_frame REQUEST_UNIQ_SEQ 3 1 0) not_held.1).2.map
        reply_view = [(false, RESPONSE_UNIQ_SEQ, 100, 3)] ∧
    (on_receive master_env true 30 (request_frame REQUEST_UNIQ_ID 3 5 0) not_held.1).2.map
        (fun s => (s.to_master, s.frame.type_, UniqID.id s.frame.value3))
      = [(false, RESPONSE_UNIQ_ID,
          { user := 5, label := 0, year := 7, month := 11, day := 14, hour := 22, seq := 100 })] := by
  decide

/-! ## Unknown message types (C21) -/

/-- The types that `dispatch` routes to a handler. -/
theorem dispatch_unknown_type (env : Env) (w : Bool) (m : Nat) (a : Agent)
    (h1 : a.request_buffer.type_ ≠ REQUEST_LABEL) (h2 : a.request_buffer.type_ ≠ REQUEST_UNIQ_ID)
    (h3 : a.request_buffer.type_ ≠ REQUEST_UNIQ_SEQ)
    (h4 : a.request_buffer.type_ ≠ REQUEST_LABEL_AND_SEQ)
    (h5 : a.request_buffer.type_ ≠ RESPONSE_LABEL) (h6 : a.request_buffer.type_ ≠ RESPONSE_ERROR) :
    dispatch env w m a = (MUE_INVALID_TYPE, a, []) := by
  unfold dispatch
  dsimp only
  rw [if_neg (Ne.symm h1), if_neg (Ne.symm h2), if_neg (Ne.symm h3), if_neg (Ne.symm h4),
    if_neg (Ne.symm h6), if_neg (Ne.symm h5)]

/-- A frame of type `RESPONSE_LABEL` or `RESPONSE_ERROR` ends `dispatch` with
-1, and what `dispatch` sends then goes to a master. -/
theorem dispatch_response (env : Env) (w : Bool) (m : Nat) (a : Agent)
    (h : a.request_buffer.type_ = RESPONSE_LABEL ∨ a.request_buffer.type_ = RESPONSE_ERROR) :
    (dispatch env w m a).1 = -1 ∧ ∀ s ∈ (dispatch env w m a).2.2, s.to_master = true := by
  unfold dispatch
  dsimp only
  rcases h with h | h
  · rw [h, if_neg (by decide), if_neg (by decide), if_neg (by decide), if_neg (by decide),
      if_neg (by decide), if_pos rfl]
    split_ifs
    · exact ⟨rfl, by simp⟩
    · exact ⟨by unfold on_response_label; dsimp only; split_ifs <;> rfl, by simp⟩
  · rw [h, if_neg (by decide), if_neg (by decide), if_neg (by decide), if_neg (by decide),
      if_pos rfl]
    split_ifs
    · exact ⟨rfl, by simp⟩
    · refine ⟨by unfold on_response_error; split_ifs <;> rfl, ?_⟩
      unfold on_response_error
      split_ifs
      · exact get_label_asynchronous_sends env _
      · simp

/-- When `dispatch` ends with -1, `route` sends the client nothing. -/
theorem route_no_reply (env : Env) (w : Bool) (a : Agent)
    (h : (dispatch env w (env.calc_magic a.request_buffer % 4294967296) a).1 = -1)
    (hall : ∀ s ∈ (dispatch env w (env.calc_magic a.request_buffer % 4294967296) a).2.2,
      s.to_master = true) :
    client_replies (route env w a).2 = [] := by
  have e2 : ¬ (dispatch env w (env.calc_magic a.request_buffer % 4294967296) a).1 ≠ -1 := by
    simp [h]
  unfold route
  dsimp only
  rw [if_pos (by split_ifs <;> rfl)]
  simp only [if_neg e2]
  unfold client_replies
  rw [List.map_eq_nil_iff, List.filter_eq_nil_iff]
  intro s hs
  simp [hall s hs]

/-- C21. Message routing of unknown types. A well-sized datagram whose type is
none of `REQUEST_LABEL`, `REQUEST_UNIQ_ID`, `REQUEST_UNIQ_SEQ`,
`REQUEST_LABEL_AND_SEQ`, `RESPONSE_LABEL` and `RESPONSE_ERROR` is answered by
exactly one frame, `RESPONSE_ERROR` with `value1 = MUE_INVALID_TYPE =
201600001` and the echo of the datagram, and nothing of the agent changes but
the buffers and the response size: the block (sequence, label, timestamp),
`sequence_start`, the store file, the ranges handed out and `io_error` are as
before. A well-sized datagram of type `RESPONSE_LABEL` or `RESPONSE_ERROR`
makes the agent send nothing to the client. -/
theorem unknown_type_gets_invalid_type (env : Env) (w : Bool) (bytes : Int)
    (head : MessageHead) (a : Agent)
    (hlen : bytes = (head.len : Int)) (hsz : (env.sizeof_MessageHead : Int) ≤ bytes) :
    (head.type_ ≠ REQUEST_LABEL → head.type_ ≠ REQUEST_UNIQ_ID → head.type_ ≠ REQUEST_UNIQ_SEQ →
      head.type_ ≠ REQUEST_LABEL_AND_SEQ → head.type_ ≠ RESPONSE_LABEL →
      head.type_ ≠ RESPONSE_ERROR →
      (on_receive env w bytes head a).2.map reply_view
        = [(false, RESPONSE_ERROR, 201600001, head.echo)] ∧
      (on_receive env w bytes head a).1
        = prepare_response_error env MUE_INVALID_TYPE { a with request_buffer := head } ∧
      (on_receive env w bytes head a).1.seq_block = a.seq_block ∧
      store_fields (on_receive env w bytes head a).1 = store_fields a ∧
      (on_receive env w bytes head a).1.io_error = a.io_error) ∧
    (head.type_ = RESPONSE_LABEL ∨ head.type_ = RESPONSE_ERROR →
      client_replies (on_receive env w bytes head a).2 = []) := by
  rw [on_receive_well_sized env w bytes head a hlen hsz]
  constructor
  · intro h1 h2 h3 h4 h5 h6
    obtain ⟨g1, g2⟩ := route_gated_reply env w _ _ _
      (dispatch_unknown_type env w _ { a with request_buffer := head } h1 h2 h3 h4 h5 h6)
      (by decide) (by decide)
    rw [g1]
    exact ⟨g2, rfl, rfl, rfl, rfl⟩
  · intro h
    obtain ⟨d1, d2⟩ := dispatch_response env w
      (env.calc_magic head % 4294967296) { a with request_buffer := head } h
    exact route_no_reply env w { a with request_buffer := head } d1 d2

/-- A witness of C21: a frame of type 10 at `fresh_agent`, and the frame
`label_not_hold_frame` of type `RESPONSE_ERROR` at the agent of
`leased_start`, which sends one frame, to the master. -/
theorem unknown_type_gets_invalid_type_witness :
    (on_receive local_env true 30 unknown_type_frame fresh_agent).2.map reply_view
      = [(false, RESPONSE_ERROR, 201600001, 9)] ∧
    (on_receive local_env true 30 unknown_type_frame fresh_agent).1.seq_block
      = fresh_agent.seq_block ∧
    (on_receive master_env true 30 label_not_hold_frame leased_start.2.1).2.map reply_view
      = [(true, REQUEST_LABEL, 0, 1)] ∧
    client_replies (on_receive master_env true 30 label_not_hold_frame leased_start.2.1).2 = [] :=
  ⟨((unknown_type_gets_invalid_type local_env true 30 unknown_type_frame fresh_agent rfl
      (by decide)).1 (by decide) (by decide) (by decide) (by decide) (by decide) (by decide)).1,
   ((unknown_type_gets_invalid_type local_env true 30 unknown_type_frame fresh_agent rfl
      (by decide)).1 (by decide) (by decide) (by decide) (by decide) (by decide)
      (by decide)).2.2.1,
   by decide,
   (unknown_type_gets_invalid_type master_env true 30 label_not_hold_frame leased_start.2.1 rfl
      (by decide)).2 (Or.inr (by decide))⟩

/-! ## Startup check (C25) -/

/-- C25. Startup configuration check: for every `interval` in 1..7200, every
`expire` (32-bit and at least 10, or not), every label and every
`master_nodes`, the parameter checks of `on_init` pass if and only if `master_nodes` is not empty or the
label is not 0, and `expire ≥ 2*interval`, and `expire ≥ interval + 10`. -/
theorem startup_check (env : Env)
    (hi : 1 ≤ env.interval ∧ env.interval ≤ 7200) :
    on_init_check env = true ↔
      (env.master_nodes ≠ "" ∨ env.label ≠ 0) ∧ env.expire ≥ 2 * env.interval ∧
        env.expire ≥ env.interval + 10 := by
  unfold on_init_check
  have e1 : (env.interval * 2) % 4294967296 = 2 * env.interval := by omega
  have e2 : (env.interval + 10) % 4294967296 = env.interval + 10 := by omega
  rw [e1, e2]
  by_cases hm : env.master_nodes = ""
  · by_cases hl : 0 = env.label
    · rw [if_pos ⟨hm, hl⟩]
      simp [hm, hl.symm]
    · rw [if_neg (fun h => hl h.2)]
      have hl2 : env.label ≠ 0 := fun h => hl h.symm
      split_ifs with hc
      · simp only [Bool.false_eq_true, false_iff]
        intro h
        omega
      · simp only [true_iff]
        exact ⟨Or.inr hl2, by omega, by omega⟩
  · rw [if_neg (fun h => hm h.1)]
    split_ifs with hc
    · simp only [Bool.false_eq_true, false_iff]
      intro h
      omega
    · simp only [true_iff]
      exact ⟨Or.inl hm, by omega, by omega⟩

/-- A witness of C25: `local_env` (`expire = 3600`, `interval = 600`, label 7)
passes; with `expire = 1000` the check fails. -/
theorem startup_check_witness :
    on_init_check local_env = true ∧ on_init_check short_expire_env = false ∧
    (on_init_check short_expire_env = true ↔
      (short_expire_env.master_nodes ≠ "" ∨ short_expire_env.label ≠ 0) ∧
        short_expire_env.expire ≥ 2 * short_expire_env.interval ∧
        short_expire_env.expire ≥ short_expire_env.interval + 10) :=
  ⟨(startup_check local_env (by decide)).mpr (by decide), by decide,
   startup_check short_expire_env (by decide)⟩

/-! ## Block magic over the integers (C27) -/

/-- C27 as stated fails: for version 1, label 7, sequence `2^32 - 1` and
timestamp 0, `update_magic` sets magic 7 (the `uint32_t` sum wraps to 7),
while the difference over the integers is `2^32 + 7`; and `valid_magic`
accepts the block with magic 7. -/
theorem magic_is_not_the_integer_difference :
    block_sum_wraps.in_range ∧
    block_sum_wraps.update_magic.magic = 7 ∧
    block_sum_wraps.spec_magic = 4294967303 ∧
    block_sum_wraps.update_magic.spec_magic = 4294967303 ∧
    block_sum_wraps.update_magic.valid_magic = true ∧
    block_sum_wraps.update_magic.magic ≠ block_sum_wraps.update_magic.spec_magic := by
  decide

/-- C27 (amended). For every block, `update_magic` sets magic to the absolute
difference between `timestamp` and the sum `sequence + label + version` taken
modulo `2^32`, and `valid_magic` accepts a block exactly when its magic is
that value; when `sequence + label + version < 2^32` this is the absolute
difference over the integers. -/
theorem magic_is_the_difference_of_the_32_bit_sum (b : SeqBlock)
    (h : b.sequence + b.label + b.version < 4294967296) :
    (∀ c : SeqBlock,
      c.update_magic.magic = Int.natAbs ((c.timestamp : Int) - (c.sum32 : Int)) ∧
      (c.valid_magic = true ↔ c.magic = Int.natAbs ((c.timestamp : Int) - (c.sum32 : Int)))) ∧
    b.update_magic.magic = b.spec_magic ∧
    (b.valid_magic = true ↔ b.magic = b.spec_magic) := by
  have hall : ∀ c : SeqBlock,
      c.update_magic.magic = Int.natAbs ((c.timestamp : Int) - (c.sum32 : Int)) ∧
      (c.valid_magic = true ↔ c.magic = Int.natAbs ((c.timestamp : Int) - (c.sum32 : Int))) := by
    intro c
    unfold SeqBlock.update_magic SeqBlock.valid_magic
    constructor
    · split_ifs <;> simp only <;> omega
    · split_ifs <;> simp only [decide_eq_true_eq] <;> omega
  have hs : b.spec_magic = Int.natAbs ((b.timestamp : Int) - (b.sum32 : Int)) := by
    unfold SeqBlock.spec_magic SeqBlock.sum32
    omega
  refine ⟨hall, ?_, ?_⟩
  · rw [hs]
    exact (hall b).1
  · rw [hs]
    exact (hall b).2

/-- A witness of C27 (amended): `block_7_10` has sum 8, timestamp 10 and magic 2. -/
theorem magic_is_the_difference_of_the_32_bit_sum_witness :
    block_7_10.update_magic.magic = block_7_10.spec_magic ∧ block_7_10.spec_magic = 2 ∧
    block_sum_wraps.update_magic.magic
      = Int.natAbs ((block_sum_wraps.timestamp : Int) - (block_sum_wraps.sum32 : Int)) :=
  ⟨(magic_is_the_difference_of_the_32_bit_sum block_7_10 (by decide)).2.1, by decide,
   ((magic_is_the_difference_of_the_32_bit_sum block_7_10 (by decide)).1 block_sum_wraps).1⟩

/-! ## Persistence window (C30) -/

/-- C30. Persistence window of the sequence store. Take a new agent process
on which `restore_sequence` succeeds with a nonzero in-memory sequence, any
events of `on_run` after it, and then an `inc_sequence(n)` that succeeds (its
result is not 0), nothing wrapping the 32-bit sequence. Then `sequence_start`
is the sequence field of the block in the store file (the block last written
successfully) before and after the call, and the value `r` returned satisfies
`sequence_start ≤ r ≤ sequence_start + steps`, with `sequence_start` taken
after the call. -/
theorem persistence_window (env : Env) (rd : PRead) (rs : List Recv) (w0 : Bool) (a : Agent)
    (evs : List Event) (w : Bool) (n : Nat)
    (hr : (restore_sequence env rd rs w0 a).1 = true)
    (h0 : (restore_sequence env rd rs w0 a).2.1.seq_block.sequence ≠ 0)
    (hnw : (restore_sequence env rd rs w0 a).2.1.seq_block.sequence + run_demand evs
      + max n 1 < 4294967296)
    (hok : (inc_sequence env w n (on_run env evs (restore_sequence env rd rs w0 a).2.1).1).1
      ≠ 0) :
    (on_run env evs (restore_sequence env rd rs w0 a).2.1).1.sequence_start
      = file_sequence (on_run env evs (restore_sequence env rd rs w0 a).2.1).1 ∧
    (inc_sequence env w n
        (on_run env evs (restore_sequence env rd rs w0 a).2.1).1).2.sequence_start
      = file_sequence (inc_sequence env w n
        (on_run env evs (restore_sequence env rd rs w0 a).2.1).1).2 ∧
    (inc_sequence env w n
        (on_run env evs (restore_sequence env rd rs w0 a).2.1).1).2.sequence_start
      ≤ (inc_sequence env w n (on_run env evs (restore_sequence env rd rs w0 a).2.1).1).1 ∧
    (inc_sequence env w n (on_run env evs (restore_sequence env rd rs w0 a).2.1).1).1
      ≤ (inc_sequence env w n
        (on_run env evs (restore_sequence env rd rs w0 a).2.1).1).2.sequence_start
        + env.steps := by
  obtain ⟨r1, r2⟩ := restore_sequence_ok env rd rs w0 a hr
  have hinv : store_inv (restore_sequence env rd rs w0 a).2.1 :=
    ⟨h0, by rw [r2, r1], by rw [r1]⟩
  obtain ⟨⟨j1, j2, j3⟩, _, i3, _⟩ := on_run_inv env evs _ hinv (by omega)
  generalize (on_run env evs (restore_sequence env rd rs w0 a).2.1).1 = b at *
  have hb : b.seq_block.sequence + max n 1 < 4294967296 := by omega
  by_cases hn : store_needed env b
  · cases w with
    | false => exact absurd (inc_sequence_failed env n b hn).1 hok
    | true =>
      obtain ⟨s1, _⟩ := inc_sequence_healthy env true n b j1 hb (fun _ => rfl)
      obtain ⟨_, _, g3⟩ := inc_sequence_file env true n b (fun _ => rfl)
      obtain ⟨t1, t2, _⟩ := g3 hn
      rw [s1, t1, t2]
      exact ⟨j2.symm, rfl, le_refl _, by omega⟩
  · obtain ⟨s1, _⟩ := inc_sequence_healthy env w n b j1 hb (fun h => absurd h hn)
    obtain ⟨_, g2, _⟩ := inc_sequence_file env w n b (fun h => absurd h hn)
    obtain ⟨t1, t2, _⟩ := g2 hn
    have hf : file_sequence (inc_sequence env w n b).2 = file_sequence b := by
      unfold file_sequence
      rw [t2]
    unfold store_needed at hn
    rw [s1, t1, hf]
    exact ⟨j2.symm, j2.symm, by omega, by omega⟩

/-- A witness of C30: `local_env` from an empty store hands out 1 and 50
sequences; the next `inc_sequence(60)` returns 151 while `sequence_start` and
the block in the file carry 100. -/
theorem persistence_window_witness :
    (inc_sequence local_env true 60
        (on_run local_env [seq_request_1, seq_request_n 50] fresh_agent).1).1 = 151 ∧
    (inc_sequence local_env true 60
        (on_run local_env [seq_request_1, seq_request_n 50] fresh_agent).1).2.sequence_start
      = 100 ∧
    (inc_sequence local_env true 60
        (on_run local_env [seq_request_1, seq_request_n 50]
          (restore_sequence local_env PRead.eof [] true (CUidAgent none)).2.1).1).2.sequence_start
      ≤ (inc_sequence local_env true 60
        (on_run local_env [seq_request_1, seq_request_n 50]
          (restore_sequence local_env PRead.eof [] true (CUidAgent none)).2.1).1).1 :=
  ⟨by decide, by decide,
   (persistence_window local_env PRead.eof [] true (CUidAgent none)
      [seq_request_1, seq_request_n 50] true 60 (by decide) (by decide) (by decide)
      (by decide)).2.2.1⟩

/-! ## Divergences of the agent (C22, C26, C28) -/

/-- C22 fails in the code: in `calendar_env` an agent serves a
`REQUEST_UNIQ_ID` of user 5 with `current_seconds = 2000000000` (2033-05-18,
3 h) and then one with `current_seconds = 1700000000` (2023-11-14, 22 h). The
second time is not more than 30 seconds after the cached one, so the cached
decomposition is used: the second id carries year 17, month 5, day 18, hour 3
where the packing of its own time has year 7, month 11, day 14, hour 22. -/
theorem earlier_time_gets_cached_date :
    calendar_env.localtime 1700000000 = some tm_2023_11_14_22 ∧
    uniq_id_fields (request_frame REQUEST_UNIQ_ID 0 5 1700000000) 7 tm_2023_11_14_22 101
      = { user := 5, label := 7, year := 7, month := 11, day := 14, hour := 22, seq := 101 } ∧
    (on_run calendar_env [id_request_at 1700000000] fresh_agent).2.map id_view
      = [(false, RESPONSE_UNIQ_ID,
          { user := 5, label := 7, year := 7, month := 11, day := 14, hour := 22, seq := 100 })] ∧
    (on_run calendar_env [id_request_at 2000000000, id_request_at 1700000000]
        fresh_agent).2.map id_view
      = [(false, RESPONSE_UNIQ_ID,
          { user := 5, label := 7, year := 17, month := 5, day := 18, hour := 3, seq := 100 }),
         (false, RESPONSE_UNIQ_ID,
          { user := 5, label := 7, year := 17, month := 5, day := 18, hour := 3, seq := 101 })] := by
  decide

/-- C26 fails in the code: `restore_sequence` in `master_env` reads a valid
block with label 7 whose lease has not expired (100 of 3600 seconds have
passed); it succeeds without sending anything, and the in-memory block and
the block written to the file carry label 0. -/
theorem restart_loses_unexpired_label :
    (block_of 7 100 1700000000).valid_magic = true ∧
    (block_of 7 100 1700000000).label = 7 ∧
    label_expired master_env
      { CUidAgent (some (block_of 7 100 1700000000)) with
          seq_block := block_of 7 100 1700000000, current_time := 1700000100 } = false ∧
    restart_unexpired.1 = true ∧ restart_unexpired.2.2 = [] ∧
    restart_unexpired.2.1.seq_block.label = 0 ∧
    restart_unexpired.2.1.file = some (block_of 0 300 1700000000) := by
  decide

/-- C28 fails in the code: a successful allocation of 50 sequences by
`fresh_agent` (`steps = 100`) moves `_num_sequences` from 0 to 1, not to 50;
and after two allocations of 60 sequences it is 2 and `_event.signal()` has
not been called, although 120 sequences were handed out. -/
theorem counter_counts_calls_not_sequences :
    local_env.steps = 100 ∧ fresh_agent.num_sequences = 0 ∧ fresh_agent.signals = 0 ∧
    (inc_sequence local_env true 50 fresh_agent).1 = 100 ∧
    (inc_sequence local_env true 50 fresh_agent).2.seq_block.sequence = 150 ∧
    (inc_sequence local_env true 50 fresh_agent).2.num_sequences = 1 ∧
    agent_past_window.issued = [(100, 60), (160, 60)] ∧
    agent_past_window.num_sequences = 2 ∧ agent_past_window.signals = 0 := by
  decide

/-! ## Divergences of the client (C23, C24, C29) -/

/-- C23 fails in the code: the request that `CMuidor::get_uniq_id` builds has
`value1 = 0` whatever `user` is (the second assignment to `value1` overwrites
the first), while `value3` is `current_seconds`; so the id that an agent
returns for user 5 has user field 0, where a frame with `value1 = 5` gets
user field 5. -/
theorem client_request_drops_user :
    (∀ (env : Env) (request : MessageHead) (echo user current_seconds : Nat),
      (CMuidor.get_uniq_id_request env request echo user current_seconds).value1 = 0 ∧
      (CMuidor.get_uniq_id_request env request echo user current_seconds).value3
        = current_seconds ∧
      (CMuidor.get_uniq_id_request env request echo user current_seconds).type_
        = REQUEST_UNIQ_ID) ∧
    (on_receive local_env true 30
        (CMuidor.get_uniq_id_request local_env MessageHead.zero 1000 5 0)
        fresh_agent_later).2.map id_view
      = [(false, RESPONSE_UNIQ_ID,
          { user := 0, label := 7, year := 7, month := 11, day := 14, hour := 22, seq := 100 })] ∧
    (on_receive local_env true 30 (request_frame REQUEST_UNIQ_ID 1000 5 0)
        fresh_agent_later).2.map id_view
      = [(false, RESPONSE_UNIQ_ID,
          { user := 5, label := 7, year := 7, month := 11, day := 14, hour := 22, seq := 100 })] :=
  ⟨fun _ _ _ _ _ => ⟨rfl, rfl, rfl⟩, by decide, by decide⟩

/-- When no attempt returns, the loop of a client call with `1 ≤ retry_times ≤
254` stops after the pass with counter `retry_times - 1`: from the pass with
counter `retry` on, `retry_times - retry` more attempts are made. -/
theorem retry_loop_all_fail (N : Nat) (tried : Nat → Tried) (h1 : 1 ≤ N) (h2 : N ≤ 254)
    (hf : ∀ k v, tried k ≠ Tried.returned v) (fuel retry attempts : Nat)
    (hr : retry < N) (hfuel : N - retry ≤ fuel) :
    ∃ c, CMuidor.retry_loop N tried fuel retry attempts = some (c, attempts + (N - retry)) := by
  induction fuel generalizing retry attempts with
  | zero => omega
  | succ fuel ih =>
    unfold CMuidor.retry_loop
    rw [if_pos (by omega)]
    have h0 : ¬ 0 = N := by omega
    by_cases hl : retry + 1 ≥ N
    · have e : N - retry = 1 := by omega
      rw [e]
      cases ht : tried retry with
      | returned v => exact absurd ht (hf retry v)
      | syscall_exception errcode =>
        exact ⟨Called.syscall_exception errcode, by simp [hl]⟩
      | exception errcode =>
        exact ⟨Called.exception errcode, by simp [hl]⟩
    · have hm : (retry + 1) % 256 = retry + 1 := by omega
      obtain ⟨c, hc⟩ := ih (retry + 1) (attempts + 1) (by omega) (by omega)
      have e : attempts + 1 + (N - (retry + 1)) = attempts + (N - retry) := by omega
      rw [e] at hc
      cases ht : tried retry with
      | returned v => exact absurd ht (hf retry v)
      | syscall_exception errcode =>
        refine ⟨c, ?_⟩
        simp only [h0, hl, false_or, if_false, hm]
        exact hc
      | exception errcode =>
        refine ⟨c, ?_⟩
        simp only [h0, hl, false_or, if_false, hm]
        exact hc

/-- When no attempt returns, a client call with `1 ≤ retry_times ≤ 254` makes
`retry_times` attempts. -/
theorem call_all_fail (N : Nat) (tried : Nat → Tried) (h1 : 1 ≤ N) (h2 : N ≤ 254)
    (hf : ∀ k v, tried k ≠ Tried.returned v) :
    ∃ c, CMuidor.call N tried = some (c, N) := by
  obtain ⟨c, hc⟩ := retry_loop_all_fail N tried h1 h2 hf (N + 2) 0 0 (by omega) (by omega)
  exact ⟨c, by unfold CMuidor.call; rw [hc]; simp⟩

/-- C24 fails in the code: when every attempt fails, a client built with
`retry_times = 1` makes 1 attempt (not 2), with `retry_times = 2` it makes 2
(not 3) and with `retry_times = 3` it makes 3 (not 4), before the exception
reaches the caller: `retry_times = 1` retries no more than `retry_times = 0`.
A timeout in every attempt gives the same counts, and with `retry_times = 254`
there are 254 attempts. -/
theorem retries_stop_one_attempt_early :
    CMuidor.call 0 always_fails = some (Called.exception 201600002, 1) ∧
    CMuidor.call 1 always_fails = some (Called.exception 201600002, 1) ∧
    CMuidor.call 2 always_fails = some (Called.exception 201600002, 2) ∧
    CMuidor.call 3 always_fails = some (Called.exception 201600002, 3) ∧
    CMuidor.call 1 always_times_out = some (Called.syscall_exception 110, 1) ∧
    CMuidor.call 3 always_times_out = some (Called.syscall_exception 110, 3) ∧
    (∃ c, CMuidor.call 254 always_fails = some (c, 254)) :=
  ⟨by decide, by decide, by decide, by decide, by decide, by decide,
   call_all_fail 254 always_fails (by decide) (by decide) (fun _ _ h => by cases h)⟩

/-- C29 fails in the code: with label 7 and sequence 255, the format `%L%S`
gives `07FF`, not `07255`: `%L` leaves the stream in `hex` and `uppercase`, and
`%S` without a width inserts the sequence as the stream stands. So does `%X`:
`%X-%S` for two ids gives `0-FF` and `0-100`. After a directive that sets `dec`
(`%Y`) or at the start of the format, `%S` is decimal. -/
theorem plain_sequence_is_hex_after_label :
    digits 10 false 255 = ['2', '5', '5'] ∧
    vget_transaction_id plain_client 1 [] ['%', 'L', '%', 'S'] 7 255 now_2023_11_14_22_13
      = some [['0', '7', 'F', 'F']] ∧
    vget_transaction_id plain_client 2 [] ['%', 'X', '-', '%', 'S'] 7 255 now_2023_11_14_22_13
      = some [['0', '-', 'F', 'F'], ['0', '-', '1', '0', '0']] ∧
    vget_transaction_id plain_client 1 [] ['%', 'S', '%', 'L'] 7 255 now_2023_11_14_22_13
      = some [['2', '5', '5', '0', '7']] ∧
    vget_transaction_id plain_client 1 [] ['%', 'L', '%', 'Y', '%', 'S'] 7 255
        now_2023_11_14_22_13
      = some [['0', '7', '2', '0', '2', '3', '2', '5', '5']] := by
  decide

end muidor
